import Mathlib

/-!
# Europe PMC citation widgets (`lib/Citation.js`, `lib/CitationList.js`)

A shallow embedding of the two widgets.

Modelling conventions.

* JavaScript strings are Lean `String`s.  `.length` and `substring` count UTF-16 code units
  (`jsLength`, `jsSubstring0`), so a character outside the Basic Multilingual Plane counts for
  two.  The only JavaScript string that a `String` cannot hold arises when `substring` cuts
  such a character in half: the surrogate left alone is written U+FFFD, which is what the
  conversion of a JavaScript string to Unicode scalar values puts in its place, and which has
  the same length of one unit.
* A text field of a JSON record is a `JSVal`: absent (`undefined`), `null`, or a string.
  Numeric JSON fields (a year, say) are represented by their decimal text, which is what
  string concatenation produces from them.
* Pixel widths and the `width` option are natural numbers, row budgets and hit counts are
  integers.  For integers of this size `Math.ceil(a / b)` over doubles is the exact ceiling
  of the quotient.
* In `getLabelTitle` the index `length * budget / rows - 3` is a double that `substring`
  truncates towards zero and clamps at 0; the embedding takes the floor of the quotient, which
  selects the same code units.  With `rows = 0` the quotient is infinite or `NaN` in JavaScript
  and 0 here; a text is shortened with `rows = 0` only when the budget is negative, and then
  both select no character.
* The DOM is reduced to the HTML written into the five field containers of a citation.
  The logo, the height animation and the "show more" links do not touch them and are left out.
* An uncaught `TypeError` (a property read on `undefined` or `null`) is the result `none`.
* What a method does to the outside world is a list of `Effect`s, in program order.
-/

/-! ## JavaScript values -/

/-- A JSON text field as JavaScript sees it: absent, `null`, or a string. -/
inductive JSVal where
  | undefined
  | null
  | str (s : String)
  deriving DecidableEq, Repr

/-- String conversion as performed by `+` with a string operand. -/
def JSVal.toStr : JSVal → String
  | .undefined => "undefined"
  | .null => "null"
  | .str s => s

/-- The test `v != null` (equivalently `v != undefined`). -/
def JSVal.neNull : JSVal → Bool
  | .undefined => false
  | .null => false
  | .str _ => true

/-- The test `v != ""`: only the empty string is loosely equal to `""` among these values. -/
def JSVal.neEmpty : JSVal → Bool
  | .undefined => true
  | .null => true
  | .str s => decide (s ≠ "")

/-- The test `v == undefined || v == ''` on an option that is a string when given. -/
def jsMissingStr : Option String → Bool
  | none => true
  | some s => decide (s = "")

/-- The test `v == undefined || v == 0` on an option that is a number when given. -/
def jsMissingNum : Option Nat → Bool
  | none => true
  | some n => decide (n = 0)

/-- The test `v != null && v != ''` on an option that is a string when given. -/
def jsGivenStr : Option String → Bool
  | none => false
  | some s => decide (s ≠ "")

/-- String conversion of an option that is a string when given. -/
def jsOptStr : Option String → String
  | none => "undefined"
  | some s => s

/-- The value of `Math.ceil(tempWidth / innerWidth)` for a pixel width and a positive divisor. -/
def ceilDiv (tempWidth innerWidth : Nat) : Int :=
  ((tempWidth + innerWidth - 1) / innerWidth : Nat)

/-! ### Strings as JavaScript counts them -/

/-- The UTF-16 code units of a character: one unit in the Basic Multilingual Plane, a surrogate
pair above it. -/
def utf16Char (c : Char) : List Nat :=
  if c.toNat < 65536 then [c.toNat]
  else [55296 + (c.toNat - 65536) / 1024, 56320 + (c.toNat - 65536) % 1024]

/-- The UTF-16 code units of a string, which is how JavaScript holds it. -/
def utf16Units (s : String) : List Nat :=
  s.data.flatMap utf16Char

/-- The value of `s.length`: the number of UTF-16 code units of the string. -/
def jsLength (s : String) : Nat :=
  (utf16Units s).length

/-- The characters of a sequence of UTF-16 code units: a surrogate pair is one character, and a
surrogate without its partner, which a `String` cannot hold, is written U+FFFD. -/
def utf16Text : List Nat → List Char
  | [] => []
  | [u] => [if 55296 ≤ u ∧ u < 57344 then Char.ofNat 65533 else Char.ofNat u]
  | u :: v :: rest =>
    if 55296 ≤ u ∧ u < 56320 ∧ 56320 ≤ v ∧ v < 57344 then
      Char.ofNat (65536 + (u - 55296) * 1024 + (v - 56320)) :: utf16Text rest
    else if 55296 ≤ u ∧ u < 57344 then Char.ofNat 65533 :: utf16Text (v :: rest)
    else Char.ofNat u :: utf16Text (v :: rest)

/-- The value of `s.substring(0, index)`: the first `index` UTF-16 code units of `s`.  A
negative index counts as 0, one past the end as the length; a cut inside a surrogate pair leaves
the first surrogate of the pair alone. -/
def jsSubstring0 (s : String) (index : Int) : String :=
  String.mk (utf16Text ((utf16Units s).take index.toNat))

/-! ### `encodeURIComponent` -/

/-- Characters that `encodeURIComponent` leaves alone: letters, digits, and the marks hyphen, underscore, dot, exclamation mark, tilde, asterisk, apostrophe and the two parentheses. -/
def uriUnreserved (c : Char) : Bool :=
  c.isAlphanum || [45, 95, 46, 33, 126, 42, 39, 40, 41].contains c.toNat

/-- The UTF-8 bytes of a code point. -/
def utf8Bytes (c : Nat) : List Nat :=
  if c < 128 then [c]
  else if c < 2048 then [192 + c / 64, 128 + c % 64]
  else if c < 65536 then [224 + c / 4096, 128 + c / 64 % 64, 128 + c % 64]
  else [240 + c / 262144, 128 + c / 4096 % 64, 128 + c / 64 % 64, 128 + c % 64]

/-- One upper-case hexadecimal digit. -/
def hexDigit (n : Nat) : Char :=
  if n < 10 then Char.ofNat (48 + n) else Char.ofNat (55 + n)

/-- The escape `%XX` of one byte. -/
def percentByte (b : Nat) : List Char :=
  [Char.ofNat 37, hexDigit (b / 16), hexDigit (b % 16)]

/-- What `encodeURIComponent` writes for one character. -/
def encodeURIChar (c : Char) : List Char :=
  if uriUnreserved c then [c] else (utf8Bytes c.toNat).flatMap percentByte

/-- The function `encodeURIComponent` on well-formed text. -/
def encodeURIComponent (s : String) : String :=
  String.mk (s.data.flatMap encodeURIChar)

/-! ## Data model: the JSON response of the REST service -/

/-- One entry of `authorList.author`. -/
structure Author where
  fullName : JSVal
  lastName : JSVal
  collectiveName : JSVal
  deriving DecidableEq, Repr

/-- The object `journalInfo.journal`. -/
structure Journal where
  medlineAbbreviation : JSVal
  deriving DecidableEq, Repr

/-- The object `journalInfo`; `journal = none` when that member is absent or `null`. -/
structure JournalInfo where
  journal : Option Journal
  yearOfPublication : JSVal
  issue : JSVal
  volume : JSVal
  deriving DecidableEq, Repr

/-- The object `bookOrReportDetails`. -/
structure BookOrReportDetails where
  publisher : JSVal
  yearOfPublication : JSVal
  deriving DecidableEq, Repr

/-- One citation record (`resp.resultList.result[k]`).  `authorList = none` when `authorList`
or its member `author` is absent; `journalInfo` and `bookOrReportDetails` are `none` when absent. -/
structure ResultElement where
  source : String
  id : String
  title : JSVal
  pmcid : JSVal
  authorList : Option (List Author)
  journalInfo : Option JournalInfo
  bookOrReportDetails : Option BookOrReportDetails
  pageInfo : JSVal
  abstractText : JSVal
  deriving DecidableEq, Repr

/-- The JSON response: `hitCount` and the sequence `resultList.result`. -/
structure Response where
  hitCount : Int
  result : List ResultElement
  deriving DecidableEq, Repr

/-- The hosting browser as far as rendering depends on it: the pixel width `textWidth` measures
for a label set in a font family and size, and the computed fonts of the title and authors
containers. -/
structure Env where
  textWidth : (fontfamily fontsize label : String) → Nat
  titleFontSize : String
  titleFontFamily : String
  authorsFontSize : String
  authorsFontFamily : String

/-- The HTML written into the field containers of one citation; a container that is never
written (or never created) holds the empty string. -/
structure Panel where
  title : String
  authors : String
  journal : String
  source : String
  abstract : String
  deriving DecidableEq, Repr

/-- The containers right after `resetContainer`: all empty. -/
def Panel.empty : Panel :=
  { title := "", authors := "", journal := "", source := "", abstract := "" }

/-- The local variables of `buildPanel` while one citation is rendered, with the containers
and the instance field `_tempLabel`.  `numCurrentRows` is 0 until a branch assigns it. -/
structure RenderState where
  panel : Panel
  numCurrentRows : Int
  continueCitation : Bool
  _tempLabel : String
  deriving DecidableEq, Repr

/-- What `CitationList.buildPanel` appends to the citations container. -/
structure ListPanel where
  displaying : Int
  header : String
  citations : List Panel
  seeAllResults : Option String
  deriving DecidableEq, Repr

/-- Observable actions of the widgets, in program order. -/
inductive Effect where
  | trigger (eventType : String) (error : Option String)
  | resetContainer
  | loadingImage (html : String)
  | ajax (url : String)
  | hideLoading
  | buildPanel (panel : Panel)
  | buildListPanel (panel : ListPanel)
  | typeError
  deriving DecidableEq, Repr

/-- The error messages of the `onRequestError` events of a trace. -/
def requestErrors : List Effect → List String
  | [] => []
  | .trigger "onRequestError" (some msg) :: rest => msg :: requestErrors rest
  | _ :: rest => requestErrors rest

/-- The URLs of the HTTP requests of a trace. -/
def ajaxUrls : List Effect → List String
  | [] => []
  | .ajax url :: rest => url :: ajaxUrls rest
  | _ :: rest => ajaxUrls rest

/-- The events of a given type in a trace. -/
def eventCount (eventType : String) : List Effect → Nat
  | [] => 0
  | .trigger e _ :: rest => (if e = eventType then 1 else 0) + eventCount eventType rest
  | _ :: rest => eventCount eventType rest

/-- The panels written by a trace (single-citation widget). -/
def builtPanels : List Effect → List Panel
  | [] => []
  | .buildPanel p :: rest => p :: builtPanels rest
  | _ :: rest => builtPanels rest

/-- The panels written by a trace (list widget). -/
def builtListPanels : List Effect → List ListPanel
  | [] => []
  | .buildListPanel p :: rest => p :: builtListPanels rest
  | _ :: rest => builtListPanels rest

/-! ## The single-citation widget (`lib/Citation.js`) -/

/-- The options object `opt` of a `Citation`, after the caller's options were merged in. -/
structure CitationOpt where
  target : String
  citation_id : Option String
  source : Option String
  restEpmcUrl : String
  height : Option Nat
  width : Option Nat
  loadingStatusImage : Option String
  collapsable : Bool
  showAbstract : Bool
  elementOrder : String
  displayStyle : String
  numRowCompact : Int
  logoImage : Option String
  proxyUrl : Option String
  deriving DecidableEq, Repr

/-- A `Citation` instance: its options and the instance fields the methods read. -/
structure Citation where
  opt : CitationOpt
  _proxyUrl : String
  _innerWidth : Nat
  deriving DecidableEq, Repr

namespace Citation

abbrev MED_SOURCE : String := "MED"
abbrev PMC_SOURCE : String := "PMC"
abbrev PAT_SOURCE : String := "PAT"
abbrev ETH_SOURCE : String := "ETH"
abbrev HIR_SOURCE : String := "HIR"
abbrev CTX_SOURCE : String := "CTX"
abbrev CBA_SOURCE : String := "CBA"
abbrev AGR_SOURCE : String := "AGR"
abbrev DOI_SOURCE : String := "DOI"
abbrev TITLE_FIRST : String := "TITLE_FIRST"
abbrev AUTHORS_FIRST : String := "AUTHORS_FIRST"
abbrev FULL_STYLE : String := "FULL_STYLE"
abbrev COMPACT_STYLE : String := "COMPACT_STYLE"
abbrev TITLE_ONLY_STYLE : String := "TITLE_ONLY_STYLE"
abbrev EVT_ON_CITATION_LOADED : String := "onCitationLoaded"
abbrev EVT_ON_REQUEST_ERROR : String := "onRequestError"

/-- The defaults of `opt` (no caller option merged in yet). -/
def defaultOpt : CitationOpt :=
  { target := "YourOwnDivId", citation_id := none, source := none,
    restEpmcUrl := "http://www.ebi.ac.uk/europepmc/webservices/rest/search/",
    height := none, width := none,
    loadingStatusImage := some "../css/images/ajax-loader-1.gif",
    collapsable := true, showAbstract := true,
    elementOrder := "TITLE_FIRST", displayStyle := "FULL_STYLE", numRowCompact := 4,
    logoImage := some "http://www.europepmc.org/docs/images/europe_pmc_standard.jpg",
    proxyUrl := none }

/-- The constructor, from the merged options: `collapsable` follows `height`, and the proxy
falls back to the public CORS relay. -/
def constructor (opt : CitationOpt) : Citation :=
  { opt := { opt with collapsable := opt.height.isSome },
    _proxyUrl := match opt.proxyUrl with
      | some p => p
      | none => "https://cors-anywhere.herokuapp.com/",
    _innerWidth := 0 }

/-- The function `getAbstractUrl`. -/
def getAbstractUrl (resultElement : ResultElement) : String :=
  if resultElement.source = PMC_SOURCE then
    "http://europepmc.org/abstract/PMC/" ++ resultElement.id
  else if resultElement.source = DOI_SOURCE ∨ resultElement.source = MED_SOURCE then
    "http://europepmc.org/abstract/med/" ++ resultElement.id
  else if resultElement.source = ETH_SOURCE then
    "http://europepmc.org/theses/ETH/" ++ resultElement.id
  else if resultElement.source = PAT_SOURCE then
    "http://europepmc.org/patents/pat/" ++ resultElement.id
  else if resultElement.source = HIR_SOURCE then
    "http://europepmc.org/guidelines/HIR/" ++ resultElement.id
  else if resultElement.source = AGR_SOURCE then
    "http://europepmc.org/abstract/AGR/" ++ resultElement.id
  else if resultElement.source = CBA_SOURCE then
    "http://europepmc.org/abstract/CBA/" ++ resultElement.id
  else if resultElement.source = CTX_SOURCE then
    "http://europepmc.org/abstract/CTX/" ++ resultElement.id
  else
    "http://europepmc.org/abstract/med/" ++ resultElement.id

/-- The function `getLabelTitle`; `none` is the `TypeError` of `labelTitle.length` on a
title that is absent or `null`. -/
def getLabelTitle (self : Citation) (env : Env) (resultElement : ResultElement)
    (fontsize : String) (numCurrentRows : Int) (fontfamily : String) : Option JSVal :=
  let labelTitle := resultElement.title
  if self.opt.displayStyle = COMPACT_STYLE then
    let tempWidth := env.textWidth fontfamily fontsize labelTitle.toStr
    let titleRows := ceilDiv tempWidth self._innerWidth
    if titleRows > self.opt.numRowCompact - numCurrentRows then
      match labelTitle with
      | .str t =>
        let indexLastTitle := ((jsLength t : Int) * (self.opt.numRowCompact - numCurrentRows)) / titleRows
        let indexLastTitle := indexLastTitle - 3
        some (.str (jsSubstring0 t indexLastTitle ++ "..."))
      | _ => none
    else some labelTitle
  else some labelTitle

/-- The function `getSourceElement`. -/
def getSourceElement (resultElement : ResultElement) : String :=
  if resultElement.source = PMC_SOURCE then
    "PMCID:" ++ resultElement.id
  else if resultElement.source = DOI_SOURCE then
    "DOI:" ++ resultElement.id
  else if resultElement.source = MED_SOURCE then
    let sourceString := "PMID:" ++ resultElement.id
    if resultElement.pmcid.neNull && resultElement.pmcid.neEmpty then
      sourceString ++ (" PMCID:" ++ resultElement.pmcid.toStr)
    else sourceString
  else if resultElement.source = PAT_SOURCE then
    "PATENT:" ++ resultElement.id
  else if resultElement.source = ETH_SOURCE then
    "THESIS:" ++ resultElement.id
  else
    resultElement.source ++ ":" ++ resultElement.id

/-- The bracketed segment that `getJournalElement` appends after a journal link. -/
def getJournalElement.details (yearOfPubblication issue volume pageNo : JSVal) : String :=
  if yearOfPubblication.neNull || issue.neNull || volume.neNull then
    " <span>["
      ++ (if yearOfPubblication.neNull then yearOfPubblication.toStr else "")
      ++ (if volume.neNull then
            (if yearOfPubblication.neNull then ", " else "") ++ volume.toStr
          else "")
      ++ (if issue.neNull then "(" ++ issue.toStr ++ ")" else "")
      ++ (if pageNo.neNull then ":" ++ pageNo.toStr else "")
      ++ "]</span>"
  else ""

/-- The function `getJournalElement`.  In the first branch `journalTitle` came from
`journalInfo.journal`, so `journalInfo` is present there and the case `none` cannot occur. -/
def getJournalElement (resultElement : ResultElement) : String :=
  let journalInfo : Option Journal :=
    match resultElement.journalInfo with
    | some info => info.journal
    | none => none
  let journalTitle : JSVal :=
    match journalInfo with
    | some journal => journal.medlineAbbreviation
    | none => .str ""
  if journalTitle.neEmpty then
    let filter := "JOURNAL:&quot;" ++ journalTitle.toStr ++ "&quot;"
    let journalHTML := "<a class=\"epmc_citation_link\" href=\"http://europepmc.org/search?query="
      ++ filter ++ "&page=1\">" ++ journalTitle.toStr ++ "</a>"
    match resultElement.journalInfo with
    | some info =>
      journalHTML ++ getJournalElement.details info.yearOfPublication info.issue info.volume
        resultElement.pageInfo
    | none => journalHTML
  else
    match resultElement.bookOrReportDetails with
    | some book =>
      if book.publisher.neNull then
        let journalTitle := book.publisher
        let filter := "PUBLISHER:&quot;" ++ journalTitle.toStr ++ "&quot;"
        let journalHTML := "<a class=\"epmc_citation_link\" href=\"http://europepmc.org/search?query="
          ++ filter ++ "&page=1\">" ++ journalTitle.toStr ++ "</a>"
        if book.yearOfPublication.neNull then
          journalHTML ++ "[" ++ book.yearOfPublication.toStr ++ "]"
        else journalHTML
      else ""
    | none => ""

/-- The name `getAuthorsElement` picks for one author. -/
def getAuthorsElement.authorName (author : Author) : JSVal :=
  if author.fullName.neEmpty then author.fullName
  else if author.lastName.neEmpty then author.lastName
  else if author.collectiveName.neEmpty then author.collectiveName
  else .str ""

/-- The loop of `getAuthorsElement` from index `i` on, started with the current values of
`authorsHtml` and `labelAuth`; it returns their final values. -/
def getAuthorsElement.loop (self : Citation) (env : Env) (fontSize : String) (numCurrentRows : Int)
    (fontfamily : String) : List Author → Nat → String → String → String × String
  | [], _, authorsHtml, labelAuth => (authorsHtml, labelAuth)
  | author :: rest, i, authorsHtml, labelAuth =>
    let authorsHtml := if i > 0 then authorsHtml ++ ", " else authorsHtml
    let labelAuth := if i > 0 then labelAuth ++ ", " else labelAuth
    let authorName := getAuthorsElement.authorName author
    if authorName.neNull && authorName.neEmpty then
      let labelAuthNew := labelAuth ++ authorName.toStr
      let filter := "AUTH:&quot;" ++ authorName.toStr ++ "&quot;"
      let authorsHtmlNew := authorsHtml
        ++ "<a class=\"epmc_citation_link\" href=\"http://europepmc.org/search?query="
        ++ filter ++ "&page=1\">" ++ authorName.toStr ++ "</a>"
      if self.opt.displayStyle = COMPACT_STYLE then
        let tempWidth := env.textWidth fontfamily fontSize labelAuthNew
        let numAuthRows := ceilDiv tempWidth self._innerWidth
        if numAuthRows > self.opt.numRowCompact - numCurrentRows then
          (authorsHtml ++ "...", labelAuth ++ "...")
        else
          getAuthorsElement.loop self env fontSize numCurrentRows fontfamily rest (i + 1)
            authorsHtmlNew labelAuthNew
      else
        getAuthorsElement.loop self env fontSize numCurrentRows fontfamily rest (i + 1)
          authorsHtmlNew labelAuthNew
    else
      getAuthorsElement.loop self env fontSize numCurrentRows fontfamily rest (i + 1)
        authorsHtml labelAuth

/-- The function `getAuthorsElement`: the HTML it returns and the label it leaves in
`_tempLabel`; `none` is the `TypeError` raised when `authorList.author` is absent. -/
def getAuthorsElement (self : Citation) (env : Env) (resultElement : ResultElement)
    (fontSize : String) (numCurrentRows : Int) (fontfamily : String) : Option (String × String) :=
  match resultElement.authorList with
  | none => none
  | some authors =>
    some (getAuthorsElement.loop self env fontSize numCurrentRows fontfamily authors 0 "" "")

/-- The statement `if (displayStyle == COMPACT_STYLE) continueCitation = (numCurrentRows + 1) <= numRowCompact`
that follows each field of `buildPanel`. -/
def buildPanel.compactCheck (self : Citation) (s : RenderState) : RenderState :=
  if self.opt.displayStyle = COMPACT_STYLE then
    { s with continueCitation := decide (s.numCurrentRows + 1 ≤ self.opt.numRowCompact) }
  else s

/-- The block `TITLE INFO` of `buildPanel`. -/
def buildPanel.titleInfo (self : Citation) (env : Env) (resultElement : ResultElement)
    (s : RenderState) : Option RenderState :=
  if s.continueCitation then
    let abstractUrl := getAbstractUrl resultElement
    let fontsizeTitle := env.titleFontSize
    let fontfamilyTitle := env.titleFontFamily
    match getLabelTitle self env resultElement fontsizeTitle s.numCurrentRows fontfamilyTitle with
    | none => none
    | some labelTitle =>
      let tempWidth := env.textWidth fontfamilyTitle fontsizeTitle labelTitle.toStr
      some { s with
        numCurrentRows := s.numCurrentRows + ceilDiv tempWidth self._innerWidth,
        panel := { s.panel with
          title := "<a class=\"epmc_citation_link\" href=\"" ++ abstractUrl ++ "\">"
            ++ labelTitle.toStr ++ "</a>" } }
  else some s

/-- The block `AUTHOR INFO` of `buildPanel`. -/
def buildPanel.authorInfo (self : Citation) (env : Env) (resultElement : ResultElement)
    (s : RenderState) : Option RenderState :=
  if s.continueCitation then
    let fontSizeAuthors := env.authorsFontSize
    let fontfamilyAuthors := env.authorsFontFamily
    match getAuthorsElement self env resultElement fontSizeAuthors s.numCurrentRows fontfamilyAuthors with
    | none => none
    | some (authorsHtml, tempLabel) =>
      let tempWidth := env.textWidth fontfamilyAuthors fontSizeAuthors tempLabel
      some { s with
        _tempLabel := tempLabel,
        numCurrentRows := s.numCurrentRows + ceilDiv tempWidth self._innerWidth,
        panel := { s.panel with authors := authorsHtml } }
  else some s

/-- The block `SOURCE INFO` of `buildPanel`. -/
def buildPanel.sourceInfo (resultElement : ResultElement) (s : RenderState) : RenderState :=
  if s.continueCitation then
    let sourceString := getSourceElement resultElement
    { s with
      panel := { s.panel with source := sourceString },
      numCurrentRows := s.numCurrentRows + 1 }
  else s

/-- The block `JOURNAL INFO` of `buildPanel`. -/
def buildPanel.journalInfo (resultElement : ResultElement) (s : RenderState) : RenderState :=
  if s.continueCitation then
    let journalHTML := getJournalElement resultElement
    { s with
      panel := { s.panel with journal := journalHTML },
      numCurrentRows := s.numCurrentRows + 1 }
  else s

/-- The first two fields of the branch `elementOrder == AUTHORS_FIRST`: authors, then title. -/
def buildPanel.authorsFirstHead (self : Citation) (env : Env) (resultElement : ResultElement)
    (s : RenderState) : Option RenderState :=
  (buildPanel.authorInfo self env resultElement s).bind fun s =>
  buildPanel.titleInfo self env resultElement (buildPanel.compactCheck self s)

/-- The branch `elementOrder == AUTHORS_FIRST`: authors, title, source, journal. -/
def buildPanel.authorsFirst (self : Citation) (env : Env) (resultElement : ResultElement)
    (s : RenderState) : Option RenderState :=
  (buildPanel.authorsFirstHead self env resultElement s).bind fun s =>
  let s := buildPanel.sourceInfo resultElement (buildPanel.compactCheck self s)
  some (buildPanel.journalInfo resultElement (buildPanel.compactCheck self s))

/-- The first two fields of the branch `elementOrder == TITLE_FIRST`: title, then authors. -/
def buildPanel.titleFirstHead (self : Citation) (env : Env) (resultElement : ResultElement)
    (s : RenderState) : Option RenderState :=
  (buildPanel.titleInfo self env resultElement s).bind fun s =>
  buildPanel.authorInfo self env resultElement (buildPanel.compactCheck self s)

/-- The branch `elementOrder == TITLE_FIRST`: title, authors, journal, source. -/
def buildPanel.titleFirst (self : Citation) (env : Env) (resultElement : ResultElement)
    (s : RenderState) : Option RenderState :=
  (buildPanel.titleFirstHead self env resultElement s).bind fun s =>
  let s := buildPanel.journalInfo resultElement (buildPanel.compactCheck self s)
  some (buildPanel.sourceInfo resultElement (buildPanel.compactCheck self s))

/-- The block `ABSTRACT INFO` of `buildPanel`. -/
def buildPanel.abstractInfo (self : Citation) (resultElement : ResultElement)
    (s : RenderState) : RenderState :=
  if resultElement.abstractText.neNull && self.opt.showAbstract
      && decide (self.opt.displayStyle ≠ TITLE_ONLY_STYLE) then
    { s with panel := { s.panel with
        abstract := "<div class=\"epmc_Citation_abstract_text\">"
          ++ resultElement.abstractText.toStr ++ "</div>" } }
  else s

/-- The rendering of the record `resultElement = resp.resultList.result[0]` by `buildPanel`,
with `_innerWidth` already set. -/
def buildPanel.record (self : Citation) (env : Env) (resultElement : ResultElement) :
    Option RenderState :=
  let s : RenderState :=
    { panel := Panel.empty, numCurrentRows := 0, continueCitation := true, _tempLabel := "" }
  let fields : Option RenderState :=
    if self.opt.displayStyle = TITLE_ONLY_STYLE then
      let abstractUrl := getAbstractUrl resultElement
      some { s with panel := { s.panel with
        title := "<a class=\"epmc_citation_link\" href=\"" ++ abstractUrl ++ "\">"
          ++ resultElement.title.toStr ++ "</a>" } }
    else if self.opt.elementOrder = AUTHORS_FIRST then
      buildPanel.authorsFirst self env resultElement s
    else if self.opt.elementOrder = TITLE_FIRST then
      buildPanel.titleFirst self env resultElement s
    else some s
  fields.bind fun s => some (buildPanel.abstractInfo self resultElement s)

/-- The function `buildPanel`: the state in which rendering ends.  With an empty result list
`resultElement` is `undefined` and the first read of one of its properties raises a `TypeError`.
It is called from the `success` callback only, hence with a `width` that is set; an unset
width counts as 0 here. -/
def buildPanel (self : Citation) (env : Env) (resp : Response) : Option RenderState :=
  let self := { self with _innerWidth := self.opt.width.getD 0 + 17 }
  match resp.result with
  | [] => none
  | resultElement :: _ => buildPanel.record self env resultElement

/-- The lines of `loadCitation` that choose the query filter from the source. -/
def loadCitation.filter (source citation_id : String) : String :=
  if source = PMC_SOURCE then
    "PMCID:" ++ citation_id
  else if source = DOI_SOURCE then
    "DOI:" ++ citation_id
  else if source = MED_SOURCE ∨ source = PAT_SOURCE ∨ source = AGR_SOURCE
      ∨ source = ETH_SOURCE ∨ source = HIR_SOURCE ∨ source = CBA_SOURCE ∨ source = CTX_SOURCE then
    "EXT_ID:" ++ citation_id ++ "%20AND%20SRC:" ++ source
  else ""

/-- The HTML of the loading image, when one is configured. -/
def loadCitation.loading (self : Citation) : List Effect :=
  if jsGivenStr self.opt.loadingStatusImage then
    [Effect.loadingImage ("<img class=\"epmc_image_citation_loading\" alt=\"Loading Citation SRC:"
      ++ jsOptStr self.opt.source ++ " ID:" ++ jsOptStr self.opt.citation_id ++ "\" src=\""
      ++ jsOptStr self.opt.loadingStatusImage ++ "\"/>")]
  else []

/-- The function `loadCitation`, up to and including the call of `jQuery.ajax`. -/
def loadCitation (self : Citation) : List Effect :=
  if jsMissingNum self.opt.width then
    [Effect.trigger EVT_ON_REQUEST_ERROR (some "width parameter mandatory")]
  else if jsMissingStr self.opt.source then
    [Effect.trigger EVT_ON_REQUEST_ERROR (some "source parameter mandatory")]
  else if jsMissingStr self.opt.citation_id then
    [Effect.trigger EVT_ON_REQUEST_ERROR (some "citation_id parameter mandatory")]
  else
    let filter := loadCitation.filter (jsOptStr self.opt.source) (jsOptStr self.opt.citation_id)
    if filter ≠ "" then
      let urlRequest := self.opt.restEpmcUrl ++ "query=" ++ filter ++ "&resultType=core&format=json"
      Effect.resetContainer :: (loadCitation.loading self ++ [Effect.ajax (self._proxyUrl ++ urlRequest)])
    else
      [Effect.resetContainer,
        Effect.trigger EVT_ON_REQUEST_ERROR
          (some ("Source " ++ jsOptStr self.opt.source ++ " not recognized"))]

/-- The hiding of the loading image at the start of both `jQuery.ajax` callbacks. -/
def loadCitation.hide (self : Citation) : List Effect :=
  if jsGivenStr self.opt.loadingStatusImage then [Effect.hideLoading] else []

/-- The `success` callback of `loadCitation`. -/
def loadCitation.success (self : Citation) (env : Env) (resp : Response) : List Effect :=
  loadCitation.hide self ++
    (if resp.hitCount > 0 then
      match buildPanel self env resp with
      | some s => [Effect.buildPanel s.panel, Effect.trigger EVT_ON_CITATION_LOADED none]
      | none => [Effect.typeError]
    else
      [Effect.trigger EVT_ON_REQUEST_ERROR
        (some ("Impossible to find a citation identified by id " ++ jsOptStr self.opt.citation_id
          ++ " and source " ++ jsOptStr self.opt.source))])

/-- The `error` callback of `loadCitation`. -/
def loadCitation.error (self : Citation) : List Effect :=
  loadCitation.hide self ++ [Effect.trigger EVT_ON_REQUEST_ERROR (some "Generic error")]

end Citation

/-! ## The list widget (`lib/CitationList.js`) -/

/-- The options object `opt` of a `CitationList`, after the caller's options were merged in. -/
structure CitationListOpt where
  target : String
  query : Option String
  restEpmcUrl : String
  height : Option Nat
  width : Option Nat
  loadingStatusImage : Option String
  numberResults : Int
  collapsable : Bool
  elementOrder : Option String
  displayStyle : Option String
  numRowCompact : Int
  logoImage : Option String
  proxyUrl : Option String
  deriving DecidableEq, Repr

/-- A `CitationList` instance: its options and the instance fields the methods read. -/
structure CitationList where
  opt : CitationListOpt
  _proxyUrl : String
  _innerWidth : Nat
  deriving DecidableEq, Repr

namespace CitationList

abbrev MED_SOURCE : String := "MED"
abbrev PMC_SOURCE : String := "PMC"
abbrev PAT_SOURCE : String := "PAT"
abbrev ETH_SOURCE : String := "ETH"
abbrev HIR_SOURCE : String := "HIR"
abbrev CTX_SOURCE : String := "CTX"
abbrev CBA_SOURCE : String := "CBA"
abbrev AGR_SOURCE : String := "AGR"
abbrev DOI_SOURCE : String := "DOI"
abbrev TITLE_FIRST : String := "TITLE_FIRST"
abbrev AUTHORS_FIRST : String := "AUTHORS_FIRST"
abbrev FULL_STYLE : String := "FULL_STYLE"
abbrev COMPACT_STYLE : String := "COMPACT_STYLE"
abbrev TITLE_ONLY_STYLE : String := "TITLE_ONLY_STYLE"
abbrev EVT_ON_RESULTS_LOADED : String := "onResultsLoaded"
abbrev EVT_ON_REQUEST_ERROR : String := "onRequestError"

/-- The defaults of `opt` (no caller option merged in yet). -/
def defaultOpt : CitationListOpt :=
  { target := "YourOwnDivId", query := none,
    restEpmcUrl := "http://www.ebi.ac.uk/europepmc/webservices/rest/search/",
    height := none, width := none,
    loadingStatusImage := some "../css/images/ajax-loader-1.gif",
    numberResults := 25, collapsable := true,
    elementOrder := some "TITLE_FIRST", displayStyle := some "FULL_STYLE", numRowCompact := 4,
    logoImage := some "http://www.europepmc.org/docs/images/europe_pmc_standard.jpg",
    proxyUrl := none }

/-- The constructor, from the merged options: `collapsable` follows `height`, the proxy falls
back to the public CORS relay, `numberResults` is capped at 25, and a missing element order or
display style is replaced by its default. -/
def constructor (opt : CitationListOpt) : CitationList :=
  { opt := { opt with
      collapsable := opt.height.isSome,
      numberResults := if opt.numberResults > 25 then 25 else opt.numberResults,
      elementOrder := if jsMissingStr opt.elementOrder then some TITLE_FIRST else opt.elementOrder,
      displayStyle := if jsMissingStr opt.displayStyle then some FULL_STYLE else opt.displayStyle },
    _proxyUrl := match opt.proxyUrl with
      | some p => p
      | none => "https://cors-anywhere.herokuapp.com/",
    _innerWidth := 0 }

/-- The function `getAbstractUrl`. -/
def getAbstractUrl (resultElement : ResultElement) : String :=
  if resultElement.source = PMC_SOURCE then
    "http://europepmc.org/abstract/PMC/" ++ resultElement.id
  else if resultElement.source = DOI_SOURCE ∨ resultElement.source = MED_SOURCE then
    "http://europepmc.org/abstract/med/" ++ resultElement.id
  else if resultElement.source = ETH_SOURCE then
    "http://europepmc.org/theses/ETH/" ++ resultElement.id
  else if resultElement.source = PAT_SOURCE then
    "http://europepmc.org/patents/pat/" ++ resultElement.id
  else if resultElement.source = HIR_SOURCE then
    "http://europepmc.org/guidelines/HIR/" ++ resultElement.id
  else if resultElement.source = AGR_SOURCE then
    "http://europepmc.org/abstract/AGR/" ++ resultElement.id
  else if resultElement.source = CBA_SOURCE then
    "http://europepmc.org/abstract/CBA/" ++ resultElement.id
  else if resultElement.source = CTX_SOURCE then
    "http://europepmc.org/abstract/CTX/" ++ resultElement.id
  else
    "http://europepmc.org/abstract/med/" ++ resultElement.id

/-- The function `getLabelTitle`; `none` is the `TypeError` of `labelTitle.length` on a
title that is absent or `null`. -/
def getLabelTitle (self : CitationList) (env : Env) (resultElement : ResultElement)
    (fontsize : String) (numCurrentRows : Int) (fontfamily : String) : Option JSVal :=
  let labelTitle := resultElement.title
  if self.opt.displayStyle = some COMPACT_STYLE then
    let tempWidth := env.textWidth fontfamily fontsize labelTitle.toStr
    let titleRows := ceilDiv tempWidth self._innerWidth
    if titleRows > self.opt.numRowCompact - numCurrentRows then
      match labelTitle with
      | .str t =>
        let indexLastTitle := ((jsLength t : Int) * (self.opt.numRowCompact - numCurrentRows)) / titleRows
        let indexLastTitle := indexLastTitle - 3
        some (.str (jsSubstring0 t indexLastTitle ++ "..."))
      | _ => none
    else some labelTitle
  else some labelTitle

/-- The function `getSourceElement`. -/
def getSourceElement (resultElement : ResultElement) : String :=
  if resultElement.source = PMC_SOURCE then
    "PMCID:" ++ resultElement.id
  else if resultElement.source = DOI_SOURCE then
    "DOI:" ++ resultElement.id
  else if resultElement.source = MED_SOURCE then
    let sourceString := "PMID:" ++ resultElement.id
    if resultElement.pmcid.neNull && resultElement.pmcid.neEmpty then
      sourceString ++ (" PMCID:" ++ resultElement.pmcid.toStr)
    else sourceString
  else if resultElement.source = PAT_SOURCE then
    "PATENT:" ++ resultElement.id
  else if resultElement.source = ETH_SOURCE then
    "THESIS:" ++ resultElement.id
  else
    resultElement.source ++ ":" ++ resultElement.id

/-- The bracketed segment that `getJournalElement` appends after a journal link. -/
def getJournalElement.details (yearOfPubblication issue volume pageNo : JSVal) : String :=
  if yearOfPubblication.neNull || issue.neNull || volume.neNull then
    " <span>["
      ++ (if yearOfPubblication.neNull then yearOfPubblication.toStr else "")
      ++ (if volume.neNull then
            (if yearOfPubblication.neNull then ", " else "") ++ volume.toStr
          else "")
      ++ (if issue.neNull then "(" ++ issue.toStr ++ ")" else "")
      ++ (if pageNo.neNull then ":" ++ pageNo.toStr else "")
      ++ "]</span>"
  else ""

/-- The function `getJournalElement`.  In the first branch `journalTitle` came from
`journalInfo.journal`, so `journalInfo` is present there and the case `none` cannot occur. -/
def getJournalElement (resultElement : ResultElement) : String :=
  let journalInfo : Option Journal :=
    match resultElement.journalInfo with
    | some info => info.journal
    | none => none
  let journalTitle : JSVal :=
    match journalInfo with
    | some journal => journal.medlineAbbreviation
    | none => .str ""
  if journalTitle.neEmpty then
    let filter := "JOURNAL:&quot;" ++ journalTitle.toStr ++ "&quot;"
    let journalHTML := "<a class=\"epmc_citation_link\" href=\"http://europepmc.org/search?query="
      ++ filter ++ "&page=1\">" ++ journalTitle.toStr ++ "</a>"
    match resultElement.journalInfo with
    | some info =>
      journalHTML ++ getJournalElement.details info.yearOfPublication info.issue info.volume
        resultElement.pageInfo
    | none => journalHTML
  else
    match resultElement.bookOrReportDetails with
    | some book =>
      if book.publisher.neNull then
        let journalTitle := book.publisher
        let filter := "PUBLISHER:&quot;" ++ journalTitle.toStr ++ "&quot;"
        let journalHTML := "<a class=\"epmc_citation_link\" href=\"http://europepmc.org/search?query="
          ++ filter ++ "&page=1\">" ++ journalTitle.toStr ++ "</a>"
        if book.yearOfPublication.neNull then
          journalHTML ++ "<span>[" ++ book.yearOfPublication.toStr ++ "]</span>"
        else journalHTML
      else ""
    | none => ""

/-- The name `getAuthorsElement` picks for one author. -/
def getAuthorsElement.authorName (author : Author) : JSVal :=
  if author.fullName.neEmpty then author.fullName
  else if author.lastName.neEmpty then author.lastName
  else if author.collectiveName.neEmpty then author.collectiveName
  else .str ""

/-- The loop of `getAuthorsElement` from index `i` on, started with the current values of
`authorsHtml` and `labelAuth`; it returns their final values. -/
def getAuthorsElement.loop (self : CitationList) (env : Env) (fontSize : String)
    (numCurrentRows : Int) (fontfamily : String) :
    List Author → Nat → String → String → String × String
  | [], _, authorsHtml, labelAuth => (authorsHtml, labelAuth)
  | author :: rest, i, authorsHtml, labelAuth =>
    let authorsHtml := if i > 0 then authorsHtml ++ ", " else authorsHtml
    let labelAuth := if i > 0 then labelAuth ++ ", " else labelAuth
    let authorName := getAuthorsElement.authorName author
    if authorName.neNull && authorName.neEmpty then
      let labelAuthNew := labelAuth ++ authorName.toStr
      let filter := "AUTH:&quot;" ++ authorName.toStr ++ "&quot;"
      let authorsHtmlNew := authorsHtml
        ++ "<a class=\"epmc_citation_link\" href=\"http://europepmc.org/search?query="
        ++ filter ++ "&page=1\">" ++ authorName.toStr ++ "</a>"
      if self.opt.displayStyle = some COMPACT_STYLE then
        let tempWidth := env.textWidth fontfamily fontSize labelAuthNew
        let numAuthRows := ceilDiv tempWidth self._innerWidth
        if numAuthRows > self.opt.numRowCompact - numCurrentRows then
          (authorsHtml ++ "...", labelAuth ++ "...")
        else
          getAuthorsElement.loop self env fontSize numCurrentRows fontfamily rest (i + 1)
            authorsHtmlNew labelAuthNew
      else
        getAuthorsElement.loop self env fontSize numCurrentRows fontfamily rest (i + 1)
          authorsHtmlNew labelAuthNew
    else
      getAuthorsElement.loop self env fontSize numCurrentRows fontfamily rest (i + 1)
        authorsHtml labelAuth

/-- The function `getAuthorsElement`: the HTML it returns and the label it leaves in
`_tempLabel`; `none` is the `TypeError` raised when `authorList.author` is absent. -/
def getAuthorsElement (self : CitationList) (env : Env) (resultElement : ResultElement)
    (fontSize : String) (numCurrentRows : Int) (fontfamily : String) : Option (String × String) :=
  match resultElement.authorList with
  | none => none
  | some authors =>
    some (getAuthorsElement.loop self env fontSize numCurrentRows fontfamily authors 0 "" "")

/-- The statement `if (displayStyle == COMPACT_STYLE) continueCitation = (numCurrentRows + 1) <= numRowCompact`
that follows each field of `buildPanel`. -/
def buildPanel.compactCheck (self : CitationList) (s : RenderState) : RenderState :=
  if self.opt.displayStyle = some COMPACT_STYLE then
    { s with continueCitation := decide (s.numCurrentRows + 1 ≤ self.opt.numRowCompact) }
  else s

/-- The block `TITLE INFO` of `buildPanel`. -/
def buildPanel.titleInfo (self : CitationList) (env : Env) (resultElement : ResultElement)
    (s : RenderState) : Option RenderState :=
  if s.continueCitation then
    let abstractUrl := getAbstractUrl resultElement
    let fontsizeTitle := env.titleFontSize
    let fontfamilyTitle := env.titleFontFamily
    match getLabelTitle self env resultElement fontsizeTitle s.numCurrentRows fontfamilyTitle with
    | none => none
    | some labelTitle =>
      let tempWidth := env.textWidth fontfamilyTitle fontsizeTitle labelTitle.toStr
      some { s with
        numCurrentRows := s.numCurrentRows + ceilDiv tempWidth self._innerWidth,
        panel := { s.panel with
          title := "<a class=\"epmc_citation_link\" href=\"" ++ abstractUrl ++ "\">"
            ++ labelTitle.toStr ++ "</a>" } }
  else some s

/-- The block `AUTHOR INFO` of `buildPanel`. -/
def buildPanel.authorInfo (self : CitationList) (env : Env) (resultElement : ResultElement)
    (s : RenderState) : Option RenderState :=
  if s.continueCitation then
    let fontSizeAuthors := env.authorsFontSize
    let fontfamilyAuthors := env.authorsFontFamily
    match getAuthorsElement self env resultElement fontSizeAuthors s.numCurrentRows fontfamilyAuthors with
    | none => none
    | some (authorsHtml, tempLabel) =>
      let tempWidth := env.textWidth fontfamilyAuthors fontSizeAuthors tempLabel
      some { s with
        _tempLabel := tempLabel,
        numCurrentRows := s.numCurrentRows + ceilDiv tempWidth self._innerWidth,
        panel := { s.panel with authors := authorsHtml } }
  else some s

/-- The block `SOURCE INFO` of `buildPanel`. -/
def buildPanel.sourceInfo (resultElement : ResultElement) (s : RenderState) : RenderState :=
  if s.continueCitation then
    let sourceString := getSourceElement resultElement
    { s with
      panel := { s.panel with source := sourceString },
      numCurrentRows := s.numCurrentRows + 1 }
  else s

/-- The block `JOURNAL INFO` of `buildPanel`. -/
def buildPanel.journalInfo (resultElement : ResultElement) (s : RenderState) : RenderState :=
  if s.continueCitation then
    let journalHTML := getJournalElement resultElement
    { s with
      panel := { s.panel with journal := journalHTML },
      numCurrentRows := s.numCurrentRows + 1 }
  else s

/-- The first two fields of the branch `elementOrder == AUTHORS_FIRST`: authors, then title. -/
def buildPanel.authorsFirstHead (self : CitationList) (env : Env) (resultElement : ResultElement)
    (s : RenderState) : Option RenderState :=
  (buildPanel.authorInfo self env resultElement s).bind fun s =>
  buildPanel.titleInfo self env resultElement (buildPanel.compactCheck self s)

/-- The branch `elementOrder == AUTHORS_FIRST`: authors, title, source, journal. -/
def buildPanel.authorsFirst (self : CitationList) (env : Env) (resultElement : ResultElement)
    (s : RenderState) : Option RenderState :=
  (buildPanel.authorsFirstHead self env resultElement s).bind fun s =>
  let s := buildPanel.sourceInfo resultElement (buildPanel.compactCheck self s)
  some (buildPanel.journalInfo resultElement (buildPanel.compactCheck self s))

/-- The first two fields of the branch `elementOrder == TITLE_FIRST`: title, then authors. -/
def buildPanel.titleFirstHead (self : CitationList) (env : Env) (resultElement : ResultElement)
    (s : RenderState) : Option RenderState :=
  (buildPanel.titleInfo self env resultElement s).bind fun s =>
  buildPanel.authorInfo self env resultElement (buildPanel.compactCheck self s)

/-- The branch `elementOrder == TITLE_FIRST`: title, authors, journal, source. -/
def buildPanel.titleFirst (self : CitationList) (env : Env) (resultElement : ResultElement)
    (s : RenderState) : Option RenderState :=
  (buildPanel.titleFirstHead self env resultElement s).bind fun s =>
  let s := buildPanel.journalInfo resultElement (buildPanel.compactCheck self s)
  some (buildPanel.sourceInfo resultElement (buildPanel.compactCheck self s))

/-- One turn of the loop of `buildPanel`: the rendering of `resultElement` into fresh containers.
`numCurrentRows` and `_tempLabel` enter with the values the previous turn left. -/
def buildPanel.citation (self : CitationList) (env : Env) (resultElement : ResultElement)
    (numCurrentRows : Int) (tempLabel : String) : Option RenderState :=
  let s : RenderState :=
    { panel := Panel.empty, numCurrentRows := numCurrentRows, continueCitation := true,
      _tempLabel := tempLabel }
  if self.opt.displayStyle = some TITLE_ONLY_STYLE then
    let abstractUrl := getAbstractUrl resultElement
    some { s with panel := { s.panel with
      title := "<a class=\"epmc_citation_link\" href=\"" ++ abstractUrl ++ "\">"
        ++ resultElement.title.toStr ++ "</a>" } }
  else if self.opt.elementOrder = some AUTHORS_FIRST then
    buildPanel.authorsFirst self env resultElement { s with numCurrentRows := 0 }
  else if self.opt.elementOrder = some TITLE_FIRST then
    buildPanel.titleFirst self env resultElement { s with numCurrentRows := 0 }
  else some s

/-- The loop `for (k = 0; k < numCitations; k++)` of `buildPanel` over the records still to render. -/
def buildPanel.loop (self : CitationList) (env : Env) :
    List ResultElement → Int → String → Option (List Panel)
  | [], _, _ => some []
  | resultElement :: rest, numCurrentRows, tempLabel =>
    match buildPanel.citation self env resultElement numCurrentRows tempLabel with
    | none => none
    | some s =>
      match buildPanel.loop self env rest s.numCurrentRows s._tempLabel with
      | none => none
      | some panels => some (s.panel :: panels)

/-- The number of turns of the loop of `buildPanel`. -/
def buildPanel.numCitations (self : CitationList) (resp : Response) : Int :=
  let numCitations : Int := resp.result.length
  if numCitations > self.opt.numberResults then self.opt.numberResults else numCitations

/-- The function `buildPanel`: the header, the rendered citations and the link to all results.
It is called from the `success` callback only, hence with a `width` that is set; an unset
width counts as 0 here. -/
def buildPanel (self : CitationList) (env : Env) (resp : Response) : Option ListPanel :=
  let displaying : Int :=
    if resp.hitCount > self.opt.numberResults then self.opt.numberResults else resp.hitCount
  let header : String :=
    if jsGivenStr self.opt.logoImage && decide (self.opt.width.getD 0 ≥ 150) then
      "<div class=\"epmc_display_container\"><span>Displaying " ++ toString displaying
        ++ " results of " ++ toString resp.hitCount ++ "</span>  <img id=\"epmc_logo\" src=\""
        ++ jsOptStr self.opt.logoImage ++ "\"></div>"
    else
      "<div class=\"epmc_display_container\"><span>Displaying " ++ toString displaying
        ++ " results of " ++ toString resp.hitCount ++ "</span></div>"
  let numCitations := buildPanel.numCitations self resp
  let self := { self with _innerWidth := self.opt.width.getD 0 + 17 }
  match buildPanel.loop self env (resp.result.take numCitations.toNat) 0 "" with
  | none => none
  | some citations =>
    some { displaying := displaying, header := header, citations := citations,
           seeAllResults :=
             if resp.hitCount > self.opt.numberResults then
               some ("<div class=\"epmc_more_resuts\"><a class=\"epmc_citation_link\" href=\"http://europepmc.org/search?query="
                 ++ jsOptStr self.opt.query ++ "&page=1\">See All Results...</a></div>")
             else none }

/-- The HTML of the loading image, when one is configured. -/
def loadResults.loading (self : CitationList) : List Effect :=
  if jsGivenStr self.opt.loadingStatusImage then
    [Effect.loadingImage ("<img class=\"epmc_image_citation_loading\" alt=\"Loading Citations for query "
      ++ jsOptStr self.opt.query ++ "\" src=\"" ++ jsOptStr self.opt.loadingStatusImage ++ "\"/>")]
  else []

/-- The function `loadResults`, up to and including the call of `jQuery.ajax`. -/
def loadResults (self : CitationList) : List Effect :=
  if jsMissingNum self.opt.width then
    [Effect.trigger EVT_ON_REQUEST_ERROR (some "width parameter mandatory")]
  else if jsMissingStr self.opt.query then
    [Effect.trigger EVT_ON_REQUEST_ERROR (some "query parameter mandatory")]
  else
    let filter := encodeURIComponent (jsOptStr self.opt.query)
    if filter ≠ "" then
      let urlRequest := self.opt.restEpmcUrl ++ "query=" ++ filter
        ++ "&resultType=core&format=json&page=1"
      Effect.resetContainer :: (loadResults.loading self ++ [Effect.ajax (self._proxyUrl ++ urlRequest)])
    else
      [Effect.resetContainer,
        Effect.trigger EVT_ON_REQUEST_ERROR (some "query parameter mandatory")]

/-- The hiding of the loading image at the start of both `jQuery.ajax` callbacks. -/
def loadResults.hide (self : CitationList) : List Effect :=
  if jsGivenStr self.opt.loadingStatusImage then [Effect.hideLoading] else []

/-- The `success` callback of `loadResults`. -/
def loadResults.success (self : CitationList) (env : Env) (resp : Response) : List Effect :=
  loadResults.hide self ++
    (if resp.hitCount > 0 then
      match buildPanel self env resp with
      | some panel => [Effect.buildListPanel panel, Effect.trigger EVT_ON_RESULTS_LOADED none]
      | none => [Effect.typeError]
    else
      [Effect.trigger EVT_ON_REQUEST_ERROR
        (some ("Impossible to find any citation matching the query " ++ jsOptStr self.opt.query))])

/-- The `error` callback of `loadResults`. -/
def loadResults.error (self : CitationList) : List Effect :=
  loadResults.hide self ++ [Effect.trigger EVT_ON_REQUEST_ERROR (some "Generic error")]

end CitationList

/-! ## Input contract

The widgets read `authorList.author` and, when a title is shortened, `title.length` without a
guard, so a record lacking them stops `buildPanel` with a `TypeError`.  The records of the data
model carry both. -/

/-- A record has the members the renderer reads unguarded: a title string and an author list. -/
def ResultElement.wellFormed (r : ResultElement) : Bool :=
  r.authorList.isSome && (match r.title with
    | .str _ => true
    | _ => false)

/-- A response the single-citation widget can render: its first record exists and is well formed. -/
def Response.firstWellFormed (resp : Response) : Bool :=
  match resp.result with
  | [] => false
  | r :: _ => r.wellFormed

/-- A response the list widget can render: all its records are well formed. -/
def Response.allWellFormed (resp : Response) : Bool :=
  resp.result.all ResultElement.wellFormed

/-- The state of `Citation.buildPanel` once the title and the authors fields of the branch
taken are done (both orders start with these two); no field is done for another order. -/
def Citation.buildPanel.headFields (self : Citation) (env : Env) (resultElement : ResultElement) :
    Option RenderState :=
  let s : RenderState :=
    { panel := Panel.empty, numCurrentRows := 0, continueCitation := true, _tempLabel := "" }
  if self.opt.elementOrder = Citation.AUTHORS_FIRST then
    Citation.buildPanel.authorsFirstHead self env resultElement s
  else if self.opt.elementOrder = Citation.TITLE_FIRST then
    Citation.buildPanel.titleFirstHead self env resultElement s
  else some s

/-- The panel of the style `TITLE_ONLY_STYLE`: the title anchor and nothing else. -/
def titleOnlyPanel (abstractUrl : String) (title : JSVal) : Panel :=
  { title := "<a class=\"epmc_citation_link\" href=\"" ++ abstractUrl ++ "\">" ++ title.toStr ++ "</a>",
    authors := "", journal := "", source := "", abstract := "" }

/-! ## Sample inputs -/

/-- A browser with a fixed-pitch font: every character is 10 pixels wide. -/
def sampleEnv : Env :=
  { textWidth := fun _ _ label => 10 * label.length,
    titleFontSize := "12px", titleFontFamily := "monospace",
    authorsFontSize := "12px", authorsFontFamily := "monospace" }

/-- A MEDLINE record with two authors whose names have ten characters each. -/
def sampleRecord : ResultElement :=
  { source := "MED", id := "123", title := JSVal.str "A title", pmcid := JSVal.str "PMC456",
    authorList := some
      [{ fullName := JSVal.str "Aaaaaaaaaa", lastName := JSVal.str "Aaaaaaaaaa",
         collectiveName := JSVal.undefined },
       { fullName := JSVal.str "Bbbbbbbbbb", lastName := JSVal.str "Bbbbbbbbbb",
         collectiveName := JSVal.undefined }],
    journalInfo := none, bookOrReportDetails := none,
    pageInfo := JSVal.undefined, abstractText := JSVal.str "An abstract." }

/-- A response with one hit, the sample record. -/
def sampleResponse : Response :=
  { hitCount := 1, result := [sampleRecord] }

/-- A `Citation` of width 100 in compact style with a budget of one row, authors first. -/
def sampleCompactCitation : Citation :=
  Citation.constructor
    { Citation.defaultOpt with
      width := some 100, citation_id := some "123", source := some "MED",
      displayStyle := "COMPACT_STYLE", elementOrder := "AUTHORS_FIRST", numRowCompact := 1 }

/-- A `Citation` of width 400 that shows titles only. -/
def sampleTitleOnlyCitation : Citation :=
  Citation.constructor
    { Citation.defaultOpt with
      width := some 400, citation_id := some "123", source := some "MED",
      displayStyle := "TITLE_ONLY_STYLE" }

/-- A `CitationList` of width 400 for the query p53, asked for 100 results. -/
def sampleCitationList : CitationList :=
  CitationList.constructor
    { CitationList.defaultOpt with width := some 400, query := some "p53", numberResults := 100 }

/-! ## The full style in the words of the specification -/

/-- The link of one author: a search for the name, with the name as its text. -/
def authorLink (authorName : String) : String :=
  "<a class=\"epmc_citation_link\" href=\"http://europepmc.org/search?query="
    ++ ("AUTH:&quot;" ++ authorName ++ "&quot;") ++ "&page=1\">" ++ authorName ++ "</a>"

/-- Whether the loop of `getAuthorsElement` writes a link for the author: the test
`authorName != undefined && authorName != ""` on the name it picked.  An author without
`fullName` is not linked, whatever its `lastName` and `collectiveName` are. -/
def Author.isLinked (author : Author) : Bool :=
  match Citation.getAuthorsElement.authorName author with
  | .str name => decide (name ≠ "")
  | _ => false

/-- The authors field of the full style in closed form, from the author of index `i` on: every
author but the first is preceded by a comma and a blank, an author that the loop links
contributes its link, and nothing else is written. -/
def fullStyleAuthors : List Author → Nat → String
  | [], _ => ""
  | author :: rest, i =>
    (if i > 0 then ", " else "")
      ++ ((if author.isLinked then
            authorLink (Citation.getAuthorsElement.authorName author).toStr
          else "")
      ++ fullStyleAuthors rest (i + 1))

/-- The plain-text label that goes with `fullStyleAuthors`. -/
def fullStyleLabel : List Author → Nat → String
  | [], _ => ""
  | author :: rest, i =>
    (if i > 0 then ", " else "")
      ++ ((if author.isLinked then (Citation.getAuthorsElement.authorName author).toStr else "")
      ++ fullStyleLabel rest (i + 1))

/-- The first non-empty of three strings, or the empty string. -/
def firstNonEmpty (fullName lastName collectiveName : String) : String :=
  if fullName ≠ "" then fullName
  else if lastName ≠ "" then lastName
  else collectiveName

/-- A `Citation` of width 400 with the default full style, title first. -/
def sampleFullCitation : Citation :=
  Citation.constructor
    { Citation.defaultOpt with width := some 400, citation_id := some "123", source := some "MED" }

/-- The sample record with a journal: Nature 2013, volume 5, issue 2, pages 1-10. -/
def sampleJournalRecord : ResultElement :=
  { sampleRecord with
    journalInfo := some
      { journal := some { medlineAbbreviation := JSVal.str "Nature" },
        yearOfPublication := JSVal.str "2013", issue := JSVal.str "2", volume := JSVal.str "5" },
    pageInfo := JSVal.str "1-10" }

/-- A `Citation` of width 400 in compact style with a budget of three rows, authors first. -/
def sampleAuthorsFirstCitation : Citation :=
  Citation.constructor
    { Citation.defaultOpt with
      width := some 400, citation_id := some "123", source := some "MED",
      displayStyle := "COMPACT_STYLE", elementOrder := "AUTHORS_FIRST", numRowCompact := 3 }

/-- The same `Citation` with the title first. -/
def sampleTitleFirstCitation : Citation :=
  Citation.constructor
    { Citation.defaultOpt with
      width := some 400, citation_id := some "123", source := some "MED",
      displayStyle := "COMPACT_STYLE", elementOrder := "TITLE_FIRST", numRowCompact := 3 }

/-- A link into the Europe PMC search: the filter goes into the `href`, the text is shown. -/
def searchLink (filter text : String) : String :=
  "<a class=\"epmc_citation_link\" href=\"http://europepmc.org/search?query=" ++ filter
    ++ "&page=1\">" ++ text ++ "</a>"

/-- A record of the journal Nature that has page numbers but no year, volume or issue. -/
def sampleOnlyPagesRecord : ResultElement :=
  { sampleRecord with
    journalInfo := some
      { journal := some { medlineAbbreviation := JSVal.str "Nature" },
        yearOfPublication := JSVal.undefined, issue := JSVal.undefined,
        volume := JSVal.undefined },
    pageInfo := JSVal.str "1-10" }

/-- A record whose journal object has no `medlineAbbreviation`, with book details. -/
def sampleNoAbbreviationRecord : ResultElement :=
  { sampleRecord with
    journalInfo := some
      { journal := some { medlineAbbreviation := JSVal.undefined },
        yearOfPublication := JSVal.undefined, issue := JSVal.undefined,
        volume := JSVal.undefined },
    bookOrReportDetails := some
      { publisher := JSVal.str "Springer", yearOfPublication := JSVal.str "2010" } }

/-- A record without `journalInfo`, with the same book details. -/
def sampleBookRecord : ResultElement :=
  { sampleRecord with
    journalInfo := none,
    bookOrReportDetails := some
      { publisher := JSVal.str "Springer", yearOfPublication := JSVal.str "2010" } }

/-- An author entry without `fullName` and `collectiveName`, with the last name Smith. -/
def sampleSmith : Author :=
  { fullName := JSVal.undefined, lastName := JSVal.str "Smith",
    collectiveName := JSVal.undefined }

/-- The sample record with Smith as its only author. -/
def sampleSmithRecord : ResultElement :=
  { sampleRecord with authorList := some [sampleSmith] }

/-- A `CitationList` of width 400 with the default full style. -/
def sampleFullCitationList : CitationList :=
  CitationList.constructor
    { CitationList.defaultOpt with width := some 400, query := some "p53" }

/-- A `Citation` of width 400 for the PMC citation 456, with the default proxy and service. -/
def samplePmcCitation : Citation :=
  Citation.constructor
    { Citation.defaultOpt with width := some 400, citation_id := some "456", source := some "PMC" }

/-- The entity that HTML escaping writes for a character: the ampersand (38), the angle
brackets (60, 62) and the double quote (34) become entities, other characters stay. -/
def htmlEscapeChar (c : Char) : String :=
  if c.toNat = 38 then "&amp;"
  else if c.toNat = 60 then "&lt;"
  else if c.toNat = 62 then "&gt;"
  else if c.toNat = 34 then "&quot;"
  else String.singleton c

/-- HTML escaping of a text, the escaping that the specification ascribes to the links. -/
def htmlEscape (s : String) : String :=
  String.join (s.data.map htmlEscapeChar)

/-- An author whose full name holds a double quote. -/
def sampleQuoteAuthor : Author :=
  { fullName := JSVal.str "a\"b", lastName := JSVal.str "b", collectiveName := JSVal.undefined }

/-- The sample record with that author as its only author. -/
def sampleQuoteRecord : ResultElement :=
  { sampleRecord with authorList := some [sampleQuoteAuthor] }

/-- A response that reports 100 hits and carries the sample record. -/
def sampleManyHitsResponse : Response :=
  { hitCount := 100, result := [sampleRecord] }

/-- A `Citation` of width 100 with the default full style, title first. -/
def sampleNarrowCitation : Citation :=
  Citation.constructor
    { Citation.defaultOpt with width := some 100, citation_id := some "123", source := some "MED" }

/-- The local variables of `buildPanel` before the first field. -/
def RenderState.initial : RenderState :=
  { panel := Panel.empty, numCurrentRows := 0, continueCitation := true, _tempLabel := "" }

/-! ## Inputs for the compact style -/

/-- The sample record with a title of thirty characters. -/
def sampleLongTitleRecord : ResultElement :=
  { sampleRecord with title := JSVal.str "Abcdefghijklmnopqrstuvwxyz0123" }

/-- The sample record with a title that starts with the character U+1D6FD, of two UTF-16 code
units, followed by 32 characters of one unit each. -/
def sampleBetaTitleRecord : ResultElement :=
  { sampleRecord with
    title := JSVal.str (String.mk (Char.ofNat 120573 :: "-catenin signalling in the mouse".data)) }

/-- The sample record with the empty string as its title. -/
def sampleEmptyTitleRecord : ResultElement :=
  { sampleRecord with title := JSVal.str "" }

/-- The compact `Citation` of width 100 and one row, after `buildPanel` has set its inner
width. -/
def sampleSizedCitation : Citation :=
  { sampleCompactCitation with _innerWidth := 100 + 17 }

/-- A compact `CitationList` of width 100 with three rows per citation. -/
def sampleCompactCitationList : CitationList :=
  CitationList.constructor
    { CitationList.defaultOpt with
      width := some 100, query := some "p53",
      displayStyle := some "COMPACT_STYLE", numRowCompact := 3 }

/-- The compact `CitationList` after `buildPanel` has set its inner width. -/
def sampleSizedCitationList : CitationList :=
  { sampleCompactCitationList with _innerWidth := 100 + 17 }

/-- A compact `Citation` of width 400, title first, whose `numRowCompact` option is -1, after
`buildPanel` has set its inner width. -/
def sampleNegativeBudgetCitation : Citation :=
  { Citation.constructor
      { Citation.defaultOpt with
        width := some 400, citation_id := some "123", source := some "MED",
        displayStyle := "COMPACT_STYLE", elementOrder := "TITLE_FIRST", numRowCompact := -1 } with
    _innerWidth := 400 + 17 }

/-! ## The compact author list in the words of the specification -/

/-- Strings joined by a comma and a blank. -/
def joinComma : List String → String
  | [] => ""
  | [x] => x
  | x :: y :: rest => x ++ ", " ++ joinComma (y :: rest)

/-- The names picked for the authors of a list, as text. -/
def compactNames (authors : List Author) : List String :=
  authors.map (fun author => (Citation.getAuthorsElement.authorName author).toStr)

/-- Whether the label of the authors `0..k`, joined by commas, has more estimated rows than the
remaining budget. -/
def labelOverflows (env : Env) (fontfamily fontSize : String) (innerWidth : Nat)
    (remainingBudget : Int) (names : List String) (k : Nat) : Bool :=
  decide (ceilDiv (env.textWidth fontfamily fontSize (joinComma (names.take (k + 1)))) innerWidth
    > remainingBudget)

/-- The sample record without a title: the property `title` is absent from the JSON. -/
def sampleUntitledRecord : ResultElement :=
  { sampleRecord with title := JSVal.undefined }

/-! ## The fields of a branch, one after the other -/

/-- The states of `buildPanel` right before each of the four fields of a branch, in the order
in which the branch produces them, and the state after the last one. -/
structure FieldTrace where
  entry1 : RenderState
  entry2 : RenderState
  entry3 : RenderState
  entry4 : RenderState
  final : RenderState

/-- Four fields run one after the other, with the statement that follows each field between
them; the state each field starts from is recorded. -/
def fieldTrace (check : RenderState → RenderState)
    (field1 field2 field3 field4 : RenderState → Option RenderState) (s : RenderState) :
    Option FieldTrace :=
  (field1 s).bind fun s1 =>
  (field2 (check s1)).bind fun s2 =>
  (field3 (check s2)).bind fun s3 =>
  (field4 (check s3)).bind fun s4 =>
  some { entry1 := s, entry2 := check s1, entry3 := check s2, entry4 := check s3, final := s4 }

/-- The branch `elementOrder == TITLE_FIRST` of `Citation.buildPanel` with the entry states of
its fields recorded: title, authors, journal, source. -/
def Citation.buildPanel.titleFirstTrace (self : Citation) (env : Env)
    (resultElement : ResultElement) (s : RenderState) : Option FieldTrace :=
  fieldTrace (Citation.buildPanel.compactCheck self)
    (Citation.buildPanel.titleInfo self env resultElement)
    (Citation.buildPanel.authorInfo self env resultElement)
    (fun s => some (Citation.buildPanel.journalInfo resultElement s))
    (fun s => some (Citation.buildPanel.sourceInfo resultElement s)) s

/-- The branch `elementOrder == AUTHORS_FIRST` of `Citation.buildPanel` with the entry states of
its fields recorded: authors, title, source, journal. -/
def Citation.buildPanel.authorsFirstTrace (self : Citation) (env : Env)
    (resultElement : ResultElement) (s : RenderState) : Option FieldTrace :=
  fieldTrace (Citation.buildPanel.compactCheck self)
    (Citation.buildPanel.authorInfo self env resultElement)
    (Citation.buildPanel.titleInfo self env resultElement)
    (fun s => some (Citation.buildPanel.sourceInfo resultElement s))
    (fun s => some (Citation.buildPanel.journalInfo resultElement s)) s

/-- The branch `elementOrder == TITLE_FIRST` of `CitationList.buildPanel` with the entry states
of its fields recorded: title, authors, journal, source. -/
def CitationList.buildPanel.titleFirstTrace (self : CitationList) (env : Env)
    (resultElement : ResultElement) (s : RenderState) : Option FieldTrace :=
  fieldTrace (CitationList.buildPanel.compactCheck self)
    (CitationList.buildPanel.titleInfo self env resultElement)
    (CitationList.buildPanel.authorInfo self env resultElement)
    (fun s => some (CitationList.buildPanel.journalInfo resultElement s))
    (fun s => some (CitationList.buildPanel.sourceInfo resultElement s)) s

/-- The branch `elementOrder == AUTHORS_FIRST` of `CitationList.buildPanel` with the entry
states of its fields recorded: authors, title, source, journal. -/
def CitationList.buildPanel.authorsFirstTrace (self : CitationList) (env : Env)
    (resultElement : ResultElement) (s : RenderState) : Option FieldTrace :=
  fieldTrace (CitationList.buildPanel.compactCheck self)
    (CitationList.buildPanel.authorInfo self env resultElement)
    (CitationList.buildPanel.titleInfo self env resultElement)
    (fun s => some (CitationList.buildPanel.sourceInfo resultElement s))
    (fun s => some (CitationList.buildPanel.journalInfo resultElement s)) s

/-- The first field is entered with the flag `continueCitation` set, and every later field is
entered with the flag telling whether `rowsUsed + 1 <= rowBudget` holds right before it. -/
def FieldTrace.budgetChecked (tr : FieldTrace) (rowBudget : Int) : Prop :=
  tr.entry1.continueCitation = true ∧
  tr.entry2.continueCitation = decide (tr.entry2.numCurrentRows + 1 ≤ rowBudget) ∧
  tr.entry3.continueCitation = decide (tr.entry3.numCurrentRows + 1 ≤ rowBudget) ∧
  tr.entry4.continueCitation = decide (tr.entry4.numCurrentRows + 1 ≤ rowBudget)

/-- A field entered with the flag `continueCitation` unset stays empty, and so does every
later field; `field2`, `field3` and `field4` read the second to fourth field of the order. -/
def FieldTrace.laterFieldsEmpty (tr : FieldTrace) (field2 field3 field4 : Panel → String) :
    Prop :=
  (tr.entry2.continueCitation = false →
    field2 tr.final.panel = "" ∧ field3 tr.final.panel = "" ∧ field4 tr.final.panel = "") ∧
  (tr.entry3.continueCitation = false →
    field3 tr.final.panel = "" ∧ field4 tr.final.panel = "") ∧
  (tr.entry4.continueCitation = false → field4 tr.final.panel = "")

/-- The rows used never decrease from one field to the next. -/
def FieldTrace.rowsNeverDecrease (tr : FieldTrace) : Prop :=
  tr.entry1.numCurrentRows ≤ tr.entry2.numCurrentRows ∧
  tr.entry2.numCurrentRows ≤ tr.entry3.numCurrentRows ∧
  tr.entry3.numCurrentRows ≤ tr.entry4.numCurrentRows ∧
  tr.entry4.numCurrentRows ≤ tr.final.numCurrentRows

/-- Once a field is skipped, every later field is skipped as well: the produced fields are the
first ones of the order. -/
def FieldTrace.producedIsPrefix (tr : FieldTrace) : Prop :=
  (tr.entry2.continueCitation = false →
    tr.entry3.continueCitation = false ∧ tr.entry4.continueCitation = false) ∧
  (tr.entry3.continueCitation = false → tr.entry4.continueCitation = false)

/-- The statement between two fields in the compact style: it sets the flag
`continueCitation` to `numCurrentRows + 1 <= rowBudget` and changes nothing else. -/
def CompactCheck (check : RenderState → RenderState) (rowBudget : Int) : Prop :=
  ∀ s, check s = { s with continueCitation := decide (s.numCurrentRows + 1 ≤ rowBudget) }

/-- A block of `buildPanel` that is guarded by `continueCitation`: with the flag unset it
leaves the state as it is, and otherwise it writes one field of the panel through `set`, adds
a number of rows that is not negative, and may replace `_tempLabel`. -/
def FieldBlock (block : RenderState → Option RenderState) (set : Panel → String → Panel) :
    Prop :=
  ∀ s, (s.continueCitation = false → block s = some s) ∧
    ∀ s', block s = some s' →
      s' = s ∨ ∃ (text label : String) (rows : Nat),
        s' = { s with
          numCurrentRows := s.numCurrentRows + (rows : Int),
          panel := set s.panel text,
          _tempLabel := label }

/-- The statement `this._innerWidth = this.opt.width + 17` that opens `Citation.buildPanel`. -/
def Citation.buildPanel.setInnerWidth (self : Citation) : Citation :=
  { self with _innerWidth := self.opt.width.getD 0 + 17 }

/-- The statement `this._innerWidth = this.opt.width + 17` of `CitationList.buildPanel`. -/
def CitationList.buildPanel.setInnerWidth (self : CitationList) : CitationList :=
  { self with _innerWidth := self.opt.width.getD 0 + 17 }

/-- The state in which a turn of the loop of `CitationList.buildPanel` enters its first field:
the row counter and the flag are reset, `_tempLabel` is what the turn before left. -/
def RenderState.turnStart (tempLabel : String) : RenderState :=
  { panel := Panel.empty, numCurrentRows := 0, continueCitation := true, _tempLabel := tempLabel }

/-- A compact `Citation` of width 400, title first, with a row budget of 0. -/
def sampleZeroBudgetCitation : Citation :=
  Citation.constructor
    { Citation.defaultOpt with
      width := some 400, citation_id := some "123", source := some "MED",
      displayStyle := "COMPACT_STYLE", elementOrder := "TITLE_FIRST", numRowCompact := 0 }

/-- What the blocks of `buildPanel` read of the state and what they show: the panel, the row
counter and the flag `continueCitation`, without `_tempLabel`. -/
def RenderState.visible (s : RenderState) : Panel × Int × Bool :=
  (s.panel, s.numCurrentRows, s.continueCitation)

/-- A response with two hits: the sample record and the record with the long title. -/
def sampleTwoRecordsResponse : Response :=
  { hitCount := 2, result := [sampleRecord, sampleLongTitleRecord] }

/-- A full-style `CitationList` of width 400 that shows at most two results. -/
def sampleTwoResultsList : CitationList :=
  CitationList.constructor
    { CitationList.defaultOpt with width := some 400, query := some "p53", numberResults := 2 }

/-- A response that reports one hit and carries two records. -/
def sampleOneHitTwoRecordsResponse : Response :=
  { hitCount := 1, result := [sampleRecord, sampleLongTitleRecord] }

/-- A record with a title and an empty author list and nothing else: `journalInfo`,
`bookOrReportDetails`, `pageInfo`, `pmcid` and `abstractText` are all absent. -/
def sampleBareRecord : ResultElement :=
  { source := "MED", id := "123", title := JSVal.str "A title", pmcid := JSVal.undefined,
    authorList := some [], journalInfo := none, bookOrReportDetails := none,
    pageInfo := JSVal.undefined, abstractText := JSVal.undefined }

/-! ## Records outside the data model -/

/-- The sample record without the property `authorList`. -/
def sampleNoAuthorsRecord : ResultElement :=
  { sampleRecord with authorList := none }

/-- A response with one hit, the record without `authorList`. -/
def sampleNoAuthorsResponse : Response :=
  { hitCount := 1, result := [sampleNoAuthorsRecord] }

/-- A response with two hits: the sample record, then the record without `authorList`. -/
def sampleAbortingResponse : Response :=
  { hitCount := 2, result := [sampleRecord, sampleNoAuthorsRecord] }

/-- A response with two hits: the record without `authorList`, then the sample record. -/
def sampleAbortFirstResponse : Response :=
  { hitCount := 2, result := [sampleNoAuthorsRecord, sampleRecord] }

/-- A response that reports 100 hits and carries the record without `authorList`. -/
def sampleManyHitsNoAuthorsResponse : Response :=
  { hitCount := 100, result := [sampleNoAuthorsRecord] }

/-- In the words of the specification: a name member that is given and not empty. -/
def JSVal.isNonEmptyStr : JSVal → Bool
  | .str s => decide (s ≠ "")
  | _ => false

/-- In the words of the specification: the author has a non-empty name, an absent member
counting as empty. -/
def Author.hasNonEmptyName (author : Author) : Bool :=
  author.fullName.isNonEmptyStr || author.lastName.isNonEmptyStr
    || author.collectiveName.isNonEmptyStr

/-- An author entry with the collective name WHO Group and no other member. -/
def sampleWho : Author :=
  { fullName := JSVal.undefined, lastName := JSVal.undefined,
    collectiveName := JSVal.str "WHO Group" }

/-- The sample record with Smith and the WHO Group as its authors. -/
def sampleUnlinkedAuthorsRecord : ResultElement :=
  { sampleRecord with authorList := some [sampleSmith, sampleWho] }

/-! ## Source labels and abstract URLs -/

/-- C1: in both widgets `getSourceElement` returns `PMCID:id` for PMC, `DOI:id` for DOI,
`PATENT:id` for PAT, `THESIS:id` for ETH, `source:id` for every other source but MED, and for MED
`PMID:id`, followed by ` PMCID:pmcid` exactly when `pmcid` is a non-empty string. -/
theorem getSourceElement_templates (r : ResultElement) :
    CitationList.getSourceElement r = Citation.getSourceElement r ∧
    (r.source = "PMC" → Citation.getSourceElement r = "PMCID:" ++ r.id) ∧
    (r.source = "DOI" → Citation.getSourceElement r = "DOI:" ++ r.id) ∧
    (r.source = "PAT" → Citation.getSourceElement r = "PATENT:" ++ r.id) ∧
    (r.source = "ETH" → Citation.getSourceElement r = "THESIS:" ++ r.id) ∧
    (r.source ≠ "PMC" → r.source ≠ "DOI" → r.source ≠ "MED" → r.source ≠ "PAT" →
      r.source ≠ "ETH" → Citation.getSourceElement r = r.source ++ ":" ++ r.id) ∧
    (r.source = "MED" → ∀ p : String, r.pmcid = JSVal.str p → p ≠ "" →
      Citation.getSourceElement r = "PMID:" ++ r.id ++ " PMCID:" ++ p) ∧
    (r.source = "MED" → (r.pmcid = JSVal.undefined ∨ r.pmcid = JSVal.null ∨ r.pmcid = JSVal.str "") →
      Citation.getSourceElement r = "PMID:" ++ r.id) := by
  refine ⟨rfl, ?_, ?_, ?_, ?_, ?_, ?_, ?_⟩
  · intro h; simp [Citation.getSourceElement, Citation.PMC_SOURCE, Citation.DOI_SOURCE, Citation.MED_SOURCE, Citation.PAT_SOURCE, Citation.ETH_SOURCE, h]
  · intro h; simp [Citation.getSourceElement, Citation.PMC_SOURCE, Citation.DOI_SOURCE, Citation.MED_SOURCE, Citation.PAT_SOURCE, Citation.ETH_SOURCE, h]
  · intro h; simp [Citation.getSourceElement, Citation.PMC_SOURCE, Citation.DOI_SOURCE, Citation.MED_SOURCE, Citation.PAT_SOURCE, Citation.ETH_SOURCE, h]
  · intro h; simp [Citation.getSourceElement, Citation.PMC_SOURCE, Citation.DOI_SOURCE, Citation.MED_SOURCE, Citation.PAT_SOURCE, Citation.ETH_SOURCE, h]
  · intro h1 h2 h3 h4 h5; simp [Citation.getSourceElement, Citation.PMC_SOURCE, Citation.DOI_SOURCE, Citation.MED_SOURCE, Citation.PAT_SOURCE, Citation.ETH_SOURCE, h1, h2, h3, h4, h5]
  · intro h p hp hne
    simp [Citation.getSourceElement, Citation.PMC_SOURCE, Citation.DOI_SOURCE, Citation.MED_SOURCE, Citation.PAT_SOURCE, Citation.ETH_SOURCE, h, hp, JSVal.neNull, JSVal.neEmpty, JSVal.toStr, hne,
      String.append_assoc]
  · intro h hp
    rcases hp with hp | hp | hp <;>
      simp [Citation.getSourceElement, Citation.PMC_SOURCE, Citation.DOI_SOURCE, Citation.MED_SOURCE, Citation.PAT_SOURCE, Citation.ETH_SOURCE, h, hp, JSVal.neNull, JSVal.neEmpty]

/-- C1, the two examples of the specification: a MED record with id 123 and pmcid PMC456 is
labelled `PMID:123 PMCID:PMC456`, a PMC record with id PMC456 is labelled `PMCID:PMC456`. -/
theorem getSourceElement_templates_witness :
    Citation.getSourceElement
      { source := "MED", id := "123", title := JSVal.str "T", pmcid := JSVal.str "PMC456",
        authorList := some [], journalInfo := none, bookOrReportDetails := none,
        pageInfo := JSVal.undefined, abstractText := JSVal.undefined }
      = "PMID:123 PMCID:PMC456" ∧
    Citation.getSourceElement
      { source := "PMC", id := "PMC456", title := JSVal.str "T", pmcid := JSVal.undefined,
        authorList := some [], journalInfo := none, bookOrReportDetails := none,
        pageInfo := JSVal.undefined, abstractText := JSVal.undefined }
      = "PMCID:PMC456" :=
  ⟨(getSourceElement_templates _).2.2.2.2.2.2.1 rfl "PMC456" rfl (by decide),
   (getSourceElement_templates _).2.1 rfl⟩

/-- C2: in both widgets `getAbstractUrl` returns `http://europepmc.org` followed by
`/abstract/med/id` for MED and DOI, `/abstract/PMC/id` for PMC, `/theses/ETH/id` for ETH,
`/patents/pat/id` for PAT, `/guidelines/HIR/id` for HIR, `/abstract/AGR/id` for AGR,
`/abstract/CBA/id` for CBA, `/abstract/CTX/id` for CTX, and the MED template for every other
source. -/
theorem getAbstractUrl_templates (r : ResultElement) :
    CitationList.getAbstractUrl r = Citation.getAbstractUrl r ∧
    (r.source = "MED" ∨ r.source = "DOI" →
      Citation.getAbstractUrl r = "http://europepmc.org" ++ "/abstract/med/" ++ r.id) ∧
    (r.source = "PMC" →
      Citation.getAbstractUrl r = "http://europepmc.org" ++ "/abstract/PMC/" ++ r.id) ∧
    (r.source = "ETH" →
      Citation.getAbstractUrl r = "http://europepmc.org" ++ "/theses/ETH/" ++ r.id) ∧
    (r.source = "PAT" →
      Citation.getAbstractUrl r = "http://europepmc.org" ++ "/patents/pat/" ++ r.id) ∧
    (r.source = "HIR" →
      Citation.getAbstractUrl r = "http://europepmc.org" ++ "/guidelines/HIR/" ++ r.id) ∧
    (r.source = "AGR" →
      Citation.getAbstractUrl r = "http://europepmc.org" ++ "/abstract/AGR/" ++ r.id) ∧
    (r.source = "CBA" →
      Citation.getAbstractUrl r = "http://europepmc.org" ++ "/abstract/CBA/" ++ r.id) ∧
    (r.source = "CTX" →
      Citation.getAbstractUrl r = "http://europepmc.org" ++ "/abstract/CTX/" ++ r.id) ∧
    (r.source ≠ "MED" → r.source ≠ "DOI" → r.source ≠ "PMC" → r.source ≠ "ETH" →
      r.source ≠ "PAT" → r.source ≠ "HIR" → r.source ≠ "AGR" → r.source ≠ "CBA" →
      r.source ≠ "CTX" →
      Citation.getAbstractUrl r = "http://europepmc.org" ++ "/abstract/med/" ++ r.id) := by
  refine ⟨rfl, ?_, ?_, ?_, ?_, ?_, ?_, ?_, ?_, ?_⟩
  · intro h
    rcases h with h | h <;> simp [Citation.getAbstractUrl, Citation.PMC_SOURCE, Citation.DOI_SOURCE, Citation.MED_SOURCE, Citation.PAT_SOURCE, Citation.ETH_SOURCE, Citation.HIR_SOURCE, Citation.AGR_SOURCE, Citation.CBA_SOURCE, Citation.CTX_SOURCE, h]
  · intro h; simp [Citation.getAbstractUrl, Citation.PMC_SOURCE, Citation.DOI_SOURCE, Citation.MED_SOURCE, Citation.PAT_SOURCE, Citation.ETH_SOURCE, Citation.HIR_SOURCE, Citation.AGR_SOURCE, Citation.CBA_SOURCE, Citation.CTX_SOURCE, h]
  · intro h; simp [Citation.getAbstractUrl, Citation.PMC_SOURCE, Citation.DOI_SOURCE, Citation.MED_SOURCE, Citation.PAT_SOURCE, Citation.ETH_SOURCE, Citation.HIR_SOURCE, Citation.AGR_SOURCE, Citation.CBA_SOURCE, Citation.CTX_SOURCE, h]
  · intro h; simp [Citation.getAbstractUrl, Citation.PMC_SOURCE, Citation.DOI_SOURCE, Citation.MED_SOURCE, Citation.PAT_SOURCE, Citation.ETH_SOURCE, Citation.HIR_SOURCE, Citation.AGR_SOURCE, Citation.CBA_SOURCE, Citation.CTX_SOURCE, h]
  · intro h; simp [Citation.getAbstractUrl, Citation.PMC_SOURCE, Citation.DOI_SOURCE, Citation.MED_SOURCE, Citation.PAT_SOURCE, Citation.ETH_SOURCE, Citation.HIR_SOURCE, Citation.AGR_SOURCE, Citation.CBA_SOURCE, Citation.CTX_SOURCE, h]
  · intro h; simp [Citation.getAbstractUrl, Citation.PMC_SOURCE, Citation.DOI_SOURCE, Citation.MED_SOURCE, Citation.PAT_SOURCE, Citation.ETH_SOURCE, Citation.HIR_SOURCE, Citation.AGR_SOURCE, Citation.CBA_SOURCE, Citation.CTX_SOURCE, h]
  · intro h; simp [Citation.getAbstractUrl, Citation.PMC_SOURCE, Citation.DOI_SOURCE, Citation.MED_SOURCE, Citation.PAT_SOURCE, Citation.ETH_SOURCE, Citation.HIR_SOURCE, Citation.AGR_SOURCE, Citation.CBA_SOURCE, Citation.CTX_SOURCE, h]
  · intro h; simp [Citation.getAbstractUrl, Citation.PMC_SOURCE, Citation.DOI_SOURCE, Citation.MED_SOURCE, Citation.PAT_SOURCE, Citation.ETH_SOURCE, Citation.HIR_SOURCE, Citation.AGR_SOURCE, Citation.CBA_SOURCE, Citation.CTX_SOURCE, h]
  · intro h1 h2 h3 h4 h5 h6 h7 h8 h9
    simp [Citation.getAbstractUrl, Citation.PMC_SOURCE, Citation.DOI_SOURCE, Citation.MED_SOURCE, Citation.PAT_SOURCE, Citation.ETH_SOURCE, Citation.HIR_SOURCE, Citation.AGR_SOURCE, Citation.CBA_SOURCE, Citation.CTX_SOURCE, h1, h2, h3, h4, h5, h6, h7, h8, h9]

/-- C2, the example of the specification: the unknown source XYZ with id 1 falls back to the
MED template. -/
theorem getAbstractUrl_templates_witness :
    Citation.getAbstractUrl
      { source := "XYZ", id := "1", title := JSVal.str "T", pmcid := JSVal.undefined,
        authorList := some [], journalInfo := none, bookOrReportDetails := none,
        pageInfo := JSVal.undefined, abstractText := JSVal.undefined }
      = "http://europepmc.org/abstract/med/1" :=
  (getAbstractUrl_templates _).2.2.2.2.2.2.2.2.2 (by decide) (by decide) (by decide) (by decide)
    (by decide) (by decide) (by decide) (by decide) (by decide)

/-! ## Requests: filters and mandatory parameters -/

theorem utf8Bytes_ne_nil (c : Nat) : utf8Bytes c ≠ [] := by
  unfold utf8Bytes
  split_ifs <;> simp

theorem encodeURIChar_ne_nil (c : Char) : encodeURIChar c ≠ [] := by
  unfold encodeURIChar
  split_ifs
  · simp
  · cases h : utf8Bytes c.toNat with
    | nil => exact absurd h (utf8Bytes_ne_nil _)
    | cons b bs => simp [List.flatMap, percentByte]

theorem encodeURIComponent_ne_empty (s : String) (h : s ≠ "") : encodeURIComponent s ≠ "" := by
  rcases s with ⟨l⟩
  cases l with
  | nil => exact absurd rfl h
  | cons c cs =>
    intro hEq
    have hd : (encodeURIComponent (String.mk (c :: cs))).data = [] := by rw [hEq]
    simp only [encodeURIComponent, List.flatMap_cons, List.append_eq_nil] at hd
    exact encodeURIChar_ne_nil c hd.1

theorem String.append_left_ne_empty (a b : String) (h : a ≠ "") : a ++ b ≠ "" := by
  intro hEq
  have hd : (a ++ b).data = [] := by rw [hEq]
  rw [String.data_append, List.append_eq_nil] at hd
  apply h
  rcases a with ⟨l⟩
  simp only at hd
  rw [hd.1]

theorem jsMissingStr_some (s : String) : jsMissingStr (some s) = decide (s = "") := rfl

/-- C3: for every non-empty citation id the filter `loadCitation` builds is `PMCID:id` for the
source PMC and `DOI:id` for the source DOI, and it is the query of the one request issued. -/
theorem loadCitation_filter_PMC_DOI (id : String) (hne : id ≠ "") :
    Citation.loadCitation.filter "PMC" id = "PMCID:" ++ id ∧
    Citation.loadCitation.filter "DOI" id = "DOI:" ++ id ∧
    ∀ self : Citation, self.opt.citation_id = some id → jsMissingNum self.opt.width = false →
      (self.opt.source = some "PMC" →
        ajaxUrls (Citation.loadCitation self) =
          [self._proxyUrl ++ (self.opt.restEpmcUrl ++ "query=" ++ ("PMCID:" ++ id)
            ++ "&resultType=core&format=json")]) ∧
      (self.opt.source = some "DOI" →
        ajaxUrls (Citation.loadCitation self) =
          [self._proxyUrl ++ (self.opt.restEpmcUrl ++ "query=" ++ ("DOI:" ++ id)
            ++ "&resultType=core&format=json")]) := by
  have hP : Citation.loadCitation.filter "PMC" id = "PMCID:" ++ id := by
    simp [Citation.loadCitation.filter, Citation.PMC_SOURCE]
  have hD : Citation.loadCitation.filter "DOI" id = "DOI:" ++ id := by
    simp [Citation.loadCitation.filter, Citation.PMC_SOURCE, Citation.DOI_SOURCE]
  refine ⟨hP, hD, ?_⟩
  intro self hid hw
  have hidm : jsMissingStr (some id) = false := by simp [jsMissingStr, hne]
  constructor
  · intro hs
    have hf : "PMCID:" ++ id ≠ "" := String.append_left_ne_empty _ _ (by decide)
    unfold Citation.loadCitation
    simp only [hw, hs, hid, hidm, jsOptStr, hP]
    simp [jsMissingStr, hf, ajaxUrls, Citation.loadCitation.loading]
    split_ifs <;> simp [ajaxUrls]
  · intro hs
    have hf : "DOI:" ++ id ≠ "" := String.append_left_ne_empty _ _ (by decide)
    unfold Citation.loadCitation
    simp only [hw, hs, hid, hidm, jsOptStr, hD]
    simp [jsMissingStr, hf, ajaxUrls, Citation.loadCitation.loading]
    split_ifs <;> simp [ajaxUrls]

/-- C3, the example of the specification: source PMC with id 456 gives the filter `PMCID:456`. -/
theorem loadCitation_filter_PMC_DOI_witness :
    Citation.loadCitation.filter "PMC" "456" = "PMCID:456" :=
  (loadCitation_filter_PMC_DOI "456" (by decide)).1

/-- C4, as stated, fails: for source MED and id 1 the filter is not `EXT_ID:1 AND SRC:MED`; the
blanks around `AND` are written percent-encoded. -/
theorem loadCitation_filter_EXT_ID_counterexample :
    Citation.loadCitation.filter "MED" "1" ≠ "EXT_ID:" ++ "1" ++ " AND SRC:" ++ "MED" ∧
    Citation.loadCitation.filter "MED" "1" = "EXT_ID:1%20AND%20SRC:MED" := by
  constructor <;> decide

/-- C4, amended: for every non-empty citation id and every source among MED, PAT, AGR, ETH, HIR,
CBA, CTX the filter `loadCitation` builds is `EXT_ID:id%20AND%20SRC:source`, and it is the query
of the one request issued. -/
theorem loadCitation_filter_EXT_ID (id source : String) (hne : id ≠ "")
    (hsrc : source ∈ ["MED", "PAT", "AGR", "ETH", "HIR", "CBA", "CTX"]) :
    Citation.loadCitation.filter source id = "EXT_ID:" ++ id ++ "%20AND%20SRC:" ++ source ∧
    ∀ self : Citation, self.opt.citation_id = some id → self.opt.source = some source →
      jsMissingNum self.opt.width = false →
      ajaxUrls (Citation.loadCitation self) =
        [self._proxyUrl ++ (self.opt.restEpmcUrl ++ "query="
          ++ ("EXT_ID:" ++ id ++ "%20AND%20SRC:" ++ source) ++ "&resultType=core&format=json")] := by
  have hF : Citation.loadCitation.filter source id
      = "EXT_ID:" ++ id ++ "%20AND%20SRC:" ++ source := by
    simp only [List.mem_cons, List.mem_singleton, List.not_mem_nil, or_false] at hsrc
    rcases hsrc with h | h | h | h | h | h | h <;> subst h <;>
      simp [Citation.loadCitation.filter, Citation.PMC_SOURCE, Citation.DOI_SOURCE,
        Citation.MED_SOURCE, Citation.PAT_SOURCE, Citation.AGR_SOURCE, Citation.ETH_SOURCE,
        Citation.HIR_SOURCE, Citation.CBA_SOURCE, Citation.CTX_SOURCE]
  refine ⟨hF, ?_⟩
  intro self hid hs hw
  have hidm : jsMissingStr (some id) = false := by simp [jsMissingStr, hne]
  have hsm : jsMissingStr (some source) = false := by
    simp only [List.mem_cons, List.mem_singleton, List.not_mem_nil, or_false] at hsrc
    rcases hsrc with h | h | h | h | h | h | h <;> subst h <;> decide
  have hf : "EXT_ID:" ++ id ++ "%20AND%20SRC:" ++ source ≠ "" := by
    rw [String.append_assoc, String.append_assoc]
    exact String.append_left_ne_empty _ _ (by decide)
  unfold Citation.loadCitation
  simp only [hw, hs, hid, hidm, hsm, jsOptStr, hF]
  simp [hf, ajaxUrls, Citation.loadCitation.loading]
  split_ifs <;> simp [ajaxUrls]

/-- C4, amended, at source MED and id 1: the filter is `EXT_ID:1%20AND%20SRC:MED`. -/
theorem loadCitation_filter_EXT_ID_witness :
    Citation.loadCitation.filter "MED" "1" = "EXT_ID:1%20AND%20SRC:MED" :=
  (loadCitation_filter_EXT_ID "1" "MED" (by decide) (by decide)).1

/-- C5: with a non-zero width, a non-empty citation id and a non-empty source that is none of
the nine codes, `loadCitation` resets the container and fires one `onRequestError` with the
message `Source <source> not recognized`; it issues no request and fires no `onCitationLoaded`. -/
theorem loadCitation_unrecognized_source (self : Citation) (w : Nat) (source id : String)
    (hw : self.opt.width = some w) (hw0 : w ≠ 0)
    (hid : self.opt.citation_id = some id) (hid0 : id ≠ "")
    (hs : self.opt.source = some source) (hs0 : source ≠ "")
    (hsrc : source ∉ ["MED", "PMC", "PAT", "ETH", "HIR", "CTX", "CBA", "AGR", "DOI"]) :
    Citation.loadCitation self =
      [Effect.resetContainer,
        Effect.trigger "onRequestError" (some ("Source " ++ source ++ " not recognized"))] ∧
    ajaxUrls (Citation.loadCitation self) = [] ∧
    requestErrors (Citation.loadCitation self) = ["Source " ++ source ++ " not recognized"] ∧
    eventCount "onRequestError" (Citation.loadCitation self) = 1 ∧
    eventCount "onCitationLoaded" (Citation.loadCitation self) = 0 := by
  have hF : Citation.loadCitation.filter source id = "" := by
    simp only [List.mem_cons, List.mem_singleton, List.not_mem_nil, or_false, not_or] at hsrc
    obtain ⟨h1, h2, h3, h4, h5, h6, h7, h8, h9⟩ := hsrc
    simp [Citation.loadCitation.filter, Citation.PMC_SOURCE, Citation.DOI_SOURCE,
      Citation.MED_SOURCE, Citation.PAT_SOURCE, Citation.AGR_SOURCE, Citation.ETH_SOURCE,
      Citation.HIR_SOURCE, Citation.CBA_SOURCE, Citation.CTX_SOURCE, *]
  have hT : Citation.loadCitation self =
      [Effect.resetContainer,
        Effect.trigger "onRequestError" (some ("Source " ++ source ++ " not recognized"))] := by
    unfold Citation.loadCitation
    simp only [hw, hs, hid, jsOptStr, hF]
    simp [jsMissingNum, jsMissingStr, hw0, hs0, hid0, Citation.EVT_ON_REQUEST_ERROR]
  rw [hT]
  simp [ajaxUrls, requestErrors, eventCount]

/-- C5 at width 400, id 1 and the source XYZ. -/
theorem loadCitation_unrecognized_source_witness :
    requestErrors (Citation.loadCitation (Citation.constructor
      { Citation.defaultOpt with width := some 400, citation_id := some "1", source := some "XYZ" }))
      = ["Source XYZ not recognized"] :=
  (loadCitation_unrecognized_source _ 400 "XYZ" "1" rfl (by decide) rfl (by decide) rfl
    (by decide) (by decide)).2.2.1

theorem jsMissingNum_eq_true (o : Option Nat) :
    jsMissingNum o = true ↔ (o = none ∨ o = some 0) := by
  cases o with
  | none => simp [jsMissingNum]
  | some n => simp [jsMissingNum]

theorem jsMissingStr_eq_true (o : Option String) :
    jsMissingStr o = true ↔ (o = none ∨ o = some "") := by
  cases o with
  | none => simp [jsMissingStr]
  | some s => simp [jsMissingStr]

theorem source_message_head (t : String) : ("Source " ++ t).data.head? = some (Char.ofNat 83) := by
  rw [String.data_append]
  rfl

theorem requestErrors_resetContainer (rest : List Effect) :
    requestErrors (Effect.resetContainer :: rest) = requestErrors rest := by
  simp [requestErrors]

theorem ajaxUrls_resetContainer (rest : List Effect) :
    ajaxUrls (Effect.resetContainer :: rest) = ajaxUrls rest := by
  simp [ajaxUrls]

theorem requestErrors_loadCitation_loading (self : Citation) (rest : List Effect) :
    requestErrors (Citation.loadCitation.loading self ++ rest) = requestErrors rest := by
  unfold Citation.loadCitation.loading
  split_ifs <;> simp [requestErrors]

theorem requestErrors_loadResults_loading (self : CitationList) (rest : List Effect) :
    requestErrors (CitationList.loadResults.loading self ++ rest) = requestErrors rest := by
  unfold CitationList.loadResults.loading
  split_ifs <;> simp [requestErrors]

theorem ajaxUrls_loadResults_loading (self : CitationList) (rest : List Effect) :
    ajaxUrls (CitationList.loadResults.loading self ++ rest) = ajaxUrls rest := by
  unfold CitationList.loadResults.loading
  split_ifs <;> simp [ajaxUrls]

/-- C6: a missing mandatory parameter is rejected with one `onRequestError` and nothing else.
`loadCitation` reports the width when it is undefined or 0, otherwise the source when it is
undefined or empty, otherwise the citation id when it is undefined or empty; `loadResults`
reports the width, otherwise the query.  The four messages are pairwise distinct, and when no
parameter is missing none of them is reported. -/
theorem mandatory_parameters :
    (∀ self : Citation, (self.opt.width = none ∨ self.opt.width = some 0) →
      Citation.loadCitation self =
        [Effect.trigger "onRequestError" (some "width parameter mandatory")]) ∧
    (∀ self : Citation, ¬ (self.opt.width = none ∨ self.opt.width = some 0) →
      (self.opt.source = none ∨ self.opt.source = some "") →
      Citation.loadCitation self =
        [Effect.trigger "onRequestError" (some "source parameter mandatory")]) ∧
    (∀ self : Citation, ¬ (self.opt.width = none ∨ self.opt.width = some 0) →
      ¬ (self.opt.source = none ∨ self.opt.source = some "") →
      (self.opt.citation_id = none ∨ self.opt.citation_id = some "") →
      Citation.loadCitation self =
        [Effect.trigger "onRequestError" (some "citation_id parameter mandatory")]) ∧
    (∀ self : CitationList, (self.opt.width = none ∨ self.opt.width = some 0) →
      CitationList.loadResults self =
        [Effect.trigger "onRequestError" (some "width parameter mandatory")]) ∧
    (∀ self : CitationList, ¬ (self.opt.width = none ∨ self.opt.width = some 0) →
      (self.opt.query = none ∨ self.opt.query = some "") →
      CitationList.loadResults self =
        [Effect.trigger "onRequestError" (some "query parameter mandatory")]) ∧
    ["width parameter mandatory", "source parameter mandatory",
      "citation_id parameter mandatory", "query parameter mandatory"].Nodup ∧
    (∀ self : Citation, ¬ (self.opt.width = none ∨ self.opt.width = some 0) →
      ¬ (self.opt.source = none ∨ self.opt.source = some "") →
      ¬ (self.opt.citation_id = none ∨ self.opt.citation_id = some "") →
      ∀ m ∈ requestErrors (Citation.loadCitation self),
        m ∉ ["width parameter mandatory", "source parameter mandatory",
          "citation_id parameter mandatory", "query parameter mandatory"]) ∧
    (∀ self : CitationList, ¬ (self.opt.width = none ∨ self.opt.width = some 0) →
      ¬ (self.opt.query = none ∨ self.opt.query = some "") →
      requestErrors (CitationList.loadResults self) = [] ∧
      (ajaxUrls (CitationList.loadResults self)).length = 1) := by
  refine ⟨?_, ?_, ?_, ?_, ?_, by decide, ?_, ?_⟩
  · intro self hw
    rw [← jsMissingNum_eq_true] at hw
    simp [Citation.loadCitation, hw, Citation.EVT_ON_REQUEST_ERROR]
  · intro self hw hs
    rw [← jsMissingNum_eq_true] at hw
    rw [← jsMissingStr_eq_true] at hs
    simp [Citation.loadCitation, hw, hs, Citation.EVT_ON_REQUEST_ERROR]
  · intro self hw hs hid
    rw [← jsMissingNum_eq_true] at hw
    rw [← jsMissingStr_eq_true] at hs hid
    simp [Citation.loadCitation, hw, hs, hid, Citation.EVT_ON_REQUEST_ERROR]
  · intro self hw
    rw [← jsMissingNum_eq_true] at hw
    simp [CitationList.loadResults, hw, CitationList.EVT_ON_REQUEST_ERROR]
  · intro self hw hq
    rw [← jsMissingNum_eq_true] at hw
    rw [← jsMissingStr_eq_true] at hq
    simp [CitationList.loadResults, hw, hq, CitationList.EVT_ON_REQUEST_ERROR]
  · intro self hw hs hid m hm
    rw [← jsMissingNum_eq_true] at hw
    rw [← jsMissingStr_eq_true] at hs hid
    unfold Citation.loadCitation at hm
    simp only [hw, hs, hid, Bool.false_eq_true, if_false] at hm
    split_ifs at hm with hf
    · rw [requestErrors_resetContainer, requestErrors_loadCitation_loading] at hm
      simp [requestErrors] at hm
    · simp only [requestErrors, Citation.EVT_ON_REQUEST_ERROR, List.mem_singleton] at hm
      subst hm
      have hh := source_message_head (jsOptStr self.opt.source ++ " not recognized")
      rw [← String.append_assoc] at hh
      simp only [List.mem_cons, List.mem_singleton, List.not_mem_nil, or_false, not_or]
      refine ⟨?_, ?_, ?_, ?_⟩ <;>
        · intro hEq
          rw [hEq] at hh
          revert hh
          decide
  · intro self hw hq
    rw [← jsMissingNum_eq_true] at hw
    rw [← jsMissingStr_eq_true] at hq
    have hq' : self.opt.query ≠ none ∧ self.opt.query ≠ some "" := by
      cases hqq : self.opt.query with
      | none => simp [hqq, jsMissingStr] at hq
      | some q => simp [hqq, jsMissingStr] at hq; simp [hq]
    have hne : jsOptStr self.opt.query ≠ "" := by
      cases hqq : self.opt.query with
      | none => exact absurd hqq hq'.1
      | some q =>
        intro h
        apply hq'.2
        rw [hqq]
        simp only [jsOptStr] at h
        rw [h]
    have hf := encodeURIComponent_ne_empty _ hne
    unfold CitationList.loadResults
    simp only [hw, hq, Bool.false_eq_true, if_false, hf, ne_eq, not_false_eq_true, if_true]
    constructor
    · rw [requestErrors_resetContainer, requestErrors_loadResults_loading]
      simp [requestErrors]
    · rw [ajaxUrls_resetContainer, ajaxUrls_loadResults_loading]
      simp [ajaxUrls]

/-- C6 at concrete options: a `Citation` without a width reports the width, and a `CitationList`
of width 400 with the query p53 reports nothing and issues its single request. -/
theorem mandatory_parameters_witness :
    Citation.loadCitation (Citation.constructor Citation.defaultOpt) =
      [Effect.trigger "onRequestError" (some "width parameter mandatory")] ∧
    requestErrors (CitationList.loadResults (CitationList.constructor
      { CitationList.defaultOpt with width := some 400, query := some "p53" })) = [] :=
  ⟨mandatory_parameters.1 _ (Or.inl rfl),
   (mandatory_parameters.2.2.2.2.2.2.2 _ (by decide) (by decide)).1⟩

/-! ## Rendering completes on well-formed records -/

theorem ResultElement.wellFormed_iff (r : ResultElement) :
    r.wellFormed = true ↔ (∃ authors, r.authorList = some authors) ∧ (∃ t, r.title = JSVal.str t) := by
  unfold ResultElement.wellFormed
  cases hA : r.authorList <;> cases hT : r.title <;> simp

theorem Citation.getLabelTitle_of_str (self : Citation) (env : Env) (r : ResultElement)
    (fontsize : String) (n : Int) (fontfamily t : String) (ht : r.title = JSVal.str t) :
    ∃ l, Citation.getLabelTitle self env r fontsize n fontfamily = some (JSVal.str l) := by
  unfold Citation.getLabelTitle
  simp only [ht]
  split_ifs <;> exact ⟨_, rfl⟩

theorem Citation.titleInfo_of_wellFormed (self : Citation) (env : Env) (r : ResultElement)
    (s : RenderState) (h : r.wellFormed = true) :
    ∃ s', Citation.buildPanel.titleInfo self env r s = some s' := by
  obtain ⟨_, t, ht⟩ := (ResultElement.wellFormed_iff r).1 h
  unfold Citation.buildPanel.titleInfo
  split_ifs
  · obtain ⟨l, hl⟩ := Citation.getLabelTitle_of_str self env r env.titleFontSize s.numCurrentRows
      env.titleFontFamily t ht
    simp only [hl]
    exact ⟨_, rfl⟩
  · exact ⟨_, rfl⟩

theorem Citation.authorInfo_of_wellFormed (self : Citation) (env : Env) (r : ResultElement)
    (s : RenderState) (h : r.wellFormed = true) :
    ∃ s', Citation.buildPanel.authorInfo self env r s = some s' := by
  obtain ⟨⟨authors, hA⟩, _⟩ := (ResultElement.wellFormed_iff r).1 h
  unfold Citation.buildPanel.authorInfo Citation.getAuthorsElement
  simp only [hA]
  split_ifs <;> exact ⟨_, rfl⟩

theorem Citation.record_of_wellFormed (self : Citation) (env : Env) (r : ResultElement)
    (h : r.wellFormed = true) : ∃ s, Citation.buildPanel.record self env r = some s := by
  unfold Citation.buildPanel.record
  simp only
  split_ifs
  · exact ⟨_, rfl⟩
  · unfold Citation.buildPanel.authorsFirst Citation.buildPanel.authorsFirstHead
    obtain ⟨s1, h1⟩ := Citation.authorInfo_of_wellFormed self env r
      { panel := Panel.empty, numCurrentRows := 0, continueCitation := true, _tempLabel := "" } h
    obtain ⟨s2, h2⟩ := Citation.titleInfo_of_wellFormed self env r
      (Citation.buildPanel.compactCheck self s1) h
    simp only [h1, h2, Option.bind_some, Option.some_bind]
    exact ⟨_, rfl⟩
  · unfold Citation.buildPanel.titleFirst Citation.buildPanel.titleFirstHead
    obtain ⟨s1, h1⟩ := Citation.titleInfo_of_wellFormed self env r
      { panel := Panel.empty, numCurrentRows := 0, continueCitation := true, _tempLabel := "" } h
    obtain ⟨s2, h2⟩ := Citation.authorInfo_of_wellFormed self env r
      (Citation.buildPanel.compactCheck self s1) h
    simp only [h1, h2, Option.bind_some, Option.some_bind]
    exact ⟨_, rfl⟩
  · exact ⟨_, rfl⟩

theorem Citation.buildPanel_of_firstWellFormed (self : Citation) (env : Env) (resp : Response)
    (h : resp.firstWellFormed = true) : ∃ s, Citation.buildPanel self env resp = some s := by
  unfold Response.firstWellFormed at h
  unfold Citation.buildPanel
  cases hr : resp.result with
  | nil => simp [hr] at h
  | cons r rest =>
    simp only [hr] at h
    exact Citation.record_of_wellFormed _ env r h

theorem CitationList.list_getLabelTitle_of_str (self : CitationList) (env : Env) (r : ResultElement)
    (fontsize : String) (n : Int) (fontfamily t : String) (ht : r.title = JSVal.str t) :
    ∃ l, CitationList.getLabelTitle self env r fontsize n fontfamily = some (JSVal.str l) := by
  unfold CitationList.getLabelTitle
  simp only [ht]
  split_ifs <;> exact ⟨_, rfl⟩

theorem CitationList.list_titleInfo_of_wellFormed (self : CitationList) (env : Env) (r : ResultElement)
    (s : RenderState) (h : r.wellFormed = true) :
    ∃ s', CitationList.buildPanel.titleInfo self env r s = some s' := by
  obtain ⟨_, t, ht⟩ := (ResultElement.wellFormed_iff r).1 h
  unfold CitationList.buildPanel.titleInfo
  split_ifs
  · obtain ⟨l, hl⟩ := CitationList.list_getLabelTitle_of_str self env r env.titleFontSize
      s.numCurrentRows env.titleFontFamily t ht
    simp only [hl]
    exact ⟨_, rfl⟩
  · exact ⟨_, rfl⟩

theorem CitationList.list_authorInfo_of_wellFormed (self : CitationList) (env : Env)
    (r : ResultElement) (s : RenderState) (h : r.wellFormed = true) :
    ∃ s', CitationList.buildPanel.authorInfo self env r s = some s' := by
  obtain ⟨⟨authors, hA⟩, _⟩ := (ResultElement.wellFormed_iff r).1 h
  unfold CitationList.buildPanel.authorInfo CitationList.getAuthorsElement
  simp only [hA]
  split_ifs <;> exact ⟨_, rfl⟩

theorem CitationList.citation_of_wellFormed (self : CitationList) (env : Env) (r : ResultElement)
    (n : Int) (lbl : String) (h : r.wellFormed = true) :
    ∃ s, CitationList.buildPanel.citation self env r n lbl = some s := by
  unfold CitationList.buildPanel.citation
  simp only
  split_ifs
  · exact ⟨_, rfl⟩
  · unfold CitationList.buildPanel.authorsFirst CitationList.buildPanel.authorsFirstHead
    obtain ⟨s1, h1⟩ := CitationList.list_authorInfo_of_wellFormed self env r
      { panel := Panel.empty, numCurrentRows := 0, continueCitation := true, _tempLabel := lbl } h
    obtain ⟨s2, h2⟩ := CitationList.list_titleInfo_of_wellFormed self env r
      (CitationList.buildPanel.compactCheck self s1) h
    simp only [h1, h2, Option.bind_some, Option.some_bind]
    exact ⟨_, rfl⟩
  · unfold CitationList.buildPanel.titleFirst CitationList.buildPanel.titleFirstHead
    obtain ⟨s1, h1⟩ := CitationList.list_titleInfo_of_wellFormed self env r
      { panel := Panel.empty, numCurrentRows := 0, continueCitation := true, _tempLabel := lbl } h
    obtain ⟨s2, h2⟩ := CitationList.list_authorInfo_of_wellFormed self env r
      (CitationList.buildPanel.compactCheck self s1) h
    simp only [h1, h2, Option.bind_some, Option.some_bind]
    exact ⟨_, rfl⟩
  · exact ⟨_, rfl⟩

theorem CitationList.loop_of_wellFormed (self : CitationList) (env : Env) :
    ∀ (l : List ResultElement) (n : Int) (lbl : String), l.all ResultElement.wellFormed = true →
      ∃ ps, CitationList.buildPanel.loop self env l n lbl = some ps
  | [], _, _, _ => ⟨[], rfl⟩
  | r :: rest, n, lbl, h => by
    simp only [List.all_cons, Bool.and_eq_true] at h
    obtain ⟨s, hs⟩ := CitationList.citation_of_wellFormed self env r n lbl h.1
    obtain ⟨ps, hps⟩ := CitationList.loop_of_wellFormed self env rest s.numCurrentRows s._tempLabel h.2
    exact ⟨s.panel :: ps, by simp only [CitationList.buildPanel.loop, hs, hps]⟩

theorem CitationList.loop_length (self : CitationList) (env : Env) :
    ∀ (l : List ResultElement) (n : Int) (lbl : String) (ps : List Panel),
      CitationList.buildPanel.loop self env l n lbl = some ps → ps.length = l.length
  | [], _, _, ps, h => by
    simp only [CitationList.buildPanel.loop, Option.some.injEq] at h
    subst h; rfl
  | r :: rest, n, lbl, ps, h => by
    simp only [CitationList.buildPanel.loop] at h
    cases hc : CitationList.buildPanel.citation self env r n lbl with
    | none => simp [hc] at h
    | some s =>
      simp only [hc] at h
      cases hl : CitationList.buildPanel.loop self env rest s.numCurrentRows s._tempLabel with
      | none => simp [hl] at h
      | some qs =>
        simp only [hl, Option.some.injEq] at h
        subst h
        simp [CitationList.loop_length self env rest _ _ qs hl]

theorem List.all_take_of_all {α : Type} (p : α → Bool) (l : List α) (k : Nat)
    (h : l.all p = true) : (l.take k).all p = true := by
  rw [List.all_eq_true] at h ⊢
  intro x hx
  exact h x (List.mem_of_mem_take hx)

theorem CitationList.buildPanel_of_allWellFormed (self : CitationList) (env : Env)
    (resp : Response) (h : resp.allWellFormed = true) :
    ∃ p, CitationList.buildPanel self env resp = some p := by
  unfold Response.allWellFormed at h
  unfold CitationList.buildPanel
  simp only
  obtain ⟨ps, hps⟩ := CitationList.loop_of_wellFormed
    { self with _innerWidth := self.opt.width.getD 0 + 17 } env
    (resp.result.take (CitationList.buildPanel.numCitations self resp).toNat) 0 ""
    (List.all_take_of_all _ _ _ h)
  simp only [hps]
  exact ⟨_, rfl⟩

theorem CitationList.buildPanel_citations_length (self : CitationList) (env : Env)
    (resp : Response) (p : ListPanel) (h : CitationList.buildPanel self env resp = some p) :
    p.citations.length
      = (resp.result.take (CitationList.buildPanel.numCitations self resp).toNat).length := by
  unfold CitationList.buildPanel at h
  simp only at h
  cases hl : CitationList.buildPanel.loop { self with _innerWidth := self.opt.width.getD 0 + 17 } env
      (resp.result.take (CitationList.buildPanel.numCitations self resp).toNat) 0 "" with
  | none => simp [hl] at h
  | some ps =>
    simp only [hl, Option.some.injEq] at h
    subst h
    exact CitationList.loop_length _ env _ _ _ ps hl

/-! ## The `success` callbacks -/

theorem Citation.hide_cases (self : Citation) :
    Citation.loadCitation.hide self = [] ∨ Citation.loadCitation.hide self = [Effect.hideLoading] := by
  unfold Citation.loadCitation.hide
  split_ifs <;> simp

theorem CitationList.list_hide_cases (self : CitationList) :
    CitationList.loadResults.hide self = []
      ∨ CitationList.loadResults.hide self = [Effect.hideLoading] := by
  unfold CitationList.loadResults.hide
  split_ifs <;> simp

/-- On a response of the data model (the records to render carry a title string and an
author list, and the single-citation widget finds a first record) both `success` callbacks
write the panel and fire the loaded event if and only if `hitCount > 0`, then without any
`onRequestError`; on any response whatever a panel or a loaded event implies `hitCount > 0`;
with `hitCount <= 0` they fire exactly one `onRequestError` carrying the no-match message,
write no panel and fire no loaded event. -/
theorem success_iff_hitCount (env : Env) (resp : Response) (c : Citation) (l : CitationList) :
    (resp.firstWellFormed = true →
      (((builtPanels (Citation.loadCitation.success c env resp)).length = 1 ∧
        eventCount "onCitationLoaded" (Citation.loadCitation.success c env resp) = 1)
        ↔ resp.hitCount > 0)) ∧
    (resp.allWellFormed = true →
      (((builtListPanels (CitationList.loadResults.success l env resp)).length = 1 ∧
        eventCount "onResultsLoaded" (CitationList.loadResults.success l env resp) = 1)
        ↔ resp.hitCount > 0)) ∧
    (resp.hitCount > 0 → resp.firstWellFormed = true →
      eventCount "onRequestError" (Citation.loadCitation.success c env resp) = 0) ∧
    (resp.hitCount > 0 → resp.allWellFormed = true →
      eventCount "onRequestError" (CitationList.loadResults.success l env resp) = 0) ∧
    ((builtPanels (Citation.loadCitation.success c env resp) ≠ [] ∨
        eventCount "onCitationLoaded" (Citation.loadCitation.success c env resp) ≠ 0) →
      resp.hitCount > 0) ∧
    ((builtListPanels (CitationList.loadResults.success l env resp) ≠ [] ∨
        eventCount "onResultsLoaded" (CitationList.loadResults.success l env resp) ≠ 0) →
      resp.hitCount > 0) ∧
    (resp.hitCount ≤ 0 →
      requestErrors (Citation.loadCitation.success c env resp) =
        ["Impossible to find a citation identified by id " ++ jsOptStr c.opt.citation_id
          ++ " and source " ++ jsOptStr c.opt.source] ∧
      eventCount "onRequestError" (Citation.loadCitation.success c env resp) = 1 ∧
      builtPanels (Citation.loadCitation.success c env resp) = [] ∧
      eventCount "onCitationLoaded" (Citation.loadCitation.success c env resp) = 0) ∧
    (resp.hitCount ≤ 0 →
      requestErrors (CitationList.loadResults.success l env resp) =
        ["Impossible to find any citation matching the query " ++ jsOptStr l.opt.query] ∧
      eventCount "onRequestError" (CitationList.loadResults.success l env resp) = 1 ∧
      builtListPanels (CitationList.loadResults.success l env resp) = [] ∧
      eventCount "onResultsLoaded" (CitationList.loadResults.success l env resp) = 0) := by
  have hC : resp.hitCount > 0 → resp.firstWellFormed = true →
      ∃ s : RenderState, Citation.loadCitation.success c env resp = Citation.loadCitation.hide c ++
        [Effect.buildPanel s.panel, Effect.trigger "onCitationLoaded" none] := by
    intro h hwf
    obtain ⟨s, hs⟩ := Citation.buildPanel_of_firstWellFormed c env resp hwf
    exact ⟨s, by simp [Citation.loadCitation.success, h, hs, Citation.EVT_ON_CITATION_LOADED]⟩
  have hL : resp.hitCount > 0 → resp.allWellFormed = true →
      ∃ p : ListPanel, CitationList.loadResults.success l env resp = CitationList.loadResults.hide l ++
        [Effect.buildListPanel p, Effect.trigger "onResultsLoaded" none] := by
    intro h hwf
    obtain ⟨p, hp⟩ := CitationList.buildPanel_of_allWellFormed l env resp hwf
    exact ⟨p, by simp [CitationList.loadResults.success, h, hp, CitationList.EVT_ON_RESULTS_LOADED]⟩
  have hC0 : ¬ resp.hitCount > 0 →
      Citation.loadCitation.success c env resp = Citation.loadCitation.hide c ++
        [Effect.trigger "onRequestError"
          (some ("Impossible to find a citation identified by id " ++ jsOptStr c.opt.citation_id
            ++ " and source " ++ jsOptStr c.opt.source))] := by
    intro h
    simp [Citation.loadCitation.success, h, Citation.EVT_ON_REQUEST_ERROR]
  have hL0 : ¬ resp.hitCount > 0 →
      CitationList.loadResults.success l env resp = CitationList.loadResults.hide l ++
        [Effect.trigger "onRequestError"
          (some ("Impossible to find any citation matching the query " ++ jsOptStr l.opt.query))] := by
    intro h
    simp [CitationList.loadResults.success, h, CitationList.EVT_ON_REQUEST_ERROR]
  have hC1 : ¬ resp.hitCount > 0 →
      builtPanels (Citation.loadCitation.success c env resp) = [] ∧
      eventCount "onCitationLoaded" (Citation.loadCitation.success c env resp) = 0 := by
    intro h
    rw [hC0 h]
    rcases Citation.hide_cases c with hh | hh <;> simp [hh, builtPanels, eventCount]
  have hL1 : ¬ resp.hitCount > 0 →
      builtListPanels (CitationList.loadResults.success l env resp) = [] ∧
      eventCount "onResultsLoaded" (CitationList.loadResults.success l env resp) = 0 := by
    intro h
    rw [hL0 h]
    rcases CitationList.list_hide_cases l with hh | hh <;> simp [hh, builtListPanels, eventCount]
  refine ⟨?_, ?_, ?_, ?_, ?_, ?_, ?_, ?_⟩
  rotate_left 4
  · intro hor
    by_contra h
    rcases hor with hp | he
    · exact hp (hC1 h).1
    · exact he (hC1 h).2
  · intro hor
    by_contra h
    rcases hor with hp | he
    · exact hp (hL1 h).1
    · exact he (hL1 h).2
  rotate_left 2
  · intro hwf
    by_cases h : resp.hitCount > 0
    · obtain ⟨s, hs⟩ := hC h hwf
      rw [hs]
      rcases Citation.hide_cases c with hh | hh <;> simp [hh, builtPanels, eventCount, h]
    · rw [hC0 h]
      rcases Citation.hide_cases c with hh | hh <;> simp [hh, builtPanels, eventCount, h]
  · intro hwf
    by_cases h : resp.hitCount > 0
    · obtain ⟨p, hp⟩ := hL h hwf
      rw [hp]
      rcases CitationList.list_hide_cases l with hh | hh <;> simp [hh, builtListPanels, eventCount, h]
    · rw [hL0 h]
      rcases CitationList.list_hide_cases l with hh | hh <;> simp [hh, builtListPanels, eventCount, h]
  · intro h hwf
    obtain ⟨s, hs⟩ := hC h hwf
    rw [hs]
    rcases Citation.hide_cases c with hh | hh <;> simp [hh, eventCount]
  · intro h hwf
    obtain ⟨p, hp⟩ := hL h hwf
    rw [hp]
    rcases CitationList.list_hide_cases l with hh | hh <;> simp [hh, eventCount]
  · intro h
    rw [hC0 (by omega)]
    rcases Citation.hide_cases c with hh | hh <;>
      simp [hh, builtPanels, eventCount, requestErrors]
  · intro h
    rw [hL0 (by omega)]
    rcases CitationList.list_hide_cases l with hh | hh <;>
      simp [hh, builtListPanels, eventCount, requestErrors]

/-- On the sample response (one hit, a well-formed record) both widgets write their panel and
fire the loaded event. -/
theorem success_iff_hitCount_witness :
    ((builtPanels (Citation.loadCitation.success sampleCompactCitation sampleEnv sampleResponse)).length = 1 ∧
      eventCount "onCitationLoaded"
        (Citation.loadCitation.success sampleCompactCitation sampleEnv sampleResponse) = 1) ∧
    ((builtListPanels (CitationList.loadResults.success sampleCitationList sampleEnv sampleResponse)).length = 1 ∧
      eventCount "onResultsLoaded"
        (CitationList.loadResults.success sampleCitationList sampleEnv sampleResponse) = 1) :=
  ⟨((success_iff_hitCount sampleEnv sampleResponse sampleCompactCitation sampleCitationList).1
      (by decide)).2 (by decide),
   ((success_iff_hitCount sampleEnv sampleResponse sampleCompactCitation sampleCitationList).2.1
      (by decide)).2 (by decide)⟩

/-! ## The number of citations in a list -/

/-- C8 (amended): a `CitationList` constructed with `numberResults = n >= 0` keeps `min n 25`
as its count; the loop of `buildPanel` is set to `min result.length (min n 25)` turns, a panel
that `buildPanel` completes holds exactly that many citations, hence at most 25, and
`buildPanel` completes on every response whose records carry a title string and an author
list. -/
theorem numberResults_clamped (opt : CitationListOpt) (env : Env) (resp : Response)
    (h0 : 0 ≤ opt.numberResults) :
    (CitationList.constructor opt).opt.numberResults = min opt.numberResults 25 ∧
    CitationList.buildPanel.numCitations (CitationList.constructor opt) resp
      = min (resp.result.length : Int) (min opt.numberResults 25) ∧
    (∀ p, CitationList.buildPanel (CitationList.constructor opt) env resp = some p →
      (p.citations.length : Int) = min (resp.result.length : Int) (min opt.numberResults 25) ∧
      p.citations.length ≤ 25) ∧
    (resp.allWellFormed = true →
      ∃ p, CitationList.buildPanel (CitationList.constructor opt) env resp = some p) := by
  have h1 : (CitationList.constructor opt).opt.numberResults = min opt.numberResults 25 := by
    simp only [CitationList.constructor]
    split_ifs <;> omega
  have h2 : CitationList.buildPanel.numCitations (CitationList.constructor opt) resp
      = min (resp.result.length : Int) (min opt.numberResults 25) := by
    simp only [CitationList.buildPanel.numCitations, h1]
    split_ifs <;> omega
  refine ⟨h1, h2, ?_, CitationList.buildPanel_of_allWellFormed _ env resp⟩
  intro p hp
  have h3 := CitationList.buildPanel_citations_length _ env resp p hp
  rw [h2, List.length_take] at h3
  omega

/-- C8 (amended) at the sample list, asked for 100 results: the count kept is 25. -/
theorem numberResults_clamped_witness :
    sampleCitationList.opt.numberResults = min 100 25 :=
  (numberResults_clamped
    { CitationList.defaultOpt with width := some 400, query := some "p53", numberResults := 100 }
    sampleEnv sampleResponse (by decide)).1

/-! ## The row budget of the compact style -/

theorem Citation.compactCheck_rows (self : Citation) (s : RenderState) :
    (Citation.buildPanel.compactCheck self s).numCurrentRows = s.numCurrentRows := by
  unfold Citation.buildPanel.compactCheck
  split_ifs <;> rfl

theorem Citation.compactCheck_continue (self : Citation) (s : RenderState)
    (hC : self.opt.displayStyle = "COMPACT_STYLE") :
    (Citation.buildPanel.compactCheck self s).continueCitation
      = decide (s.numCurrentRows + 1 ≤ self.opt.numRowCompact) := by
  unfold Citation.buildPanel.compactCheck
  simp [hC, Citation.COMPACT_STYLE]

theorem Citation.journalInfo_rows (r : ResultElement) (s : RenderState) :
    (Citation.buildPanel.journalInfo r s).numCurrentRows
      = if s.continueCitation then s.numCurrentRows + 1 else s.numCurrentRows := by
  unfold Citation.buildPanel.journalInfo
  split_ifs <;> rfl

theorem Citation.sourceInfo_rows (r : ResultElement) (s : RenderState) :
    (Citation.buildPanel.sourceInfo r s).numCurrentRows
      = if s.continueCitation then s.numCurrentRows + 1 else s.numCurrentRows := by
  unfold Citation.buildPanel.sourceInfo
  split_ifs <;> rfl

theorem Citation.journalInfo_continue (r : ResultElement) (s : RenderState) :
    (Citation.buildPanel.journalInfo r s).continueCitation = s.continueCitation := by
  unfold Citation.buildPanel.journalInfo
  split_ifs <;> rfl

theorem Citation.sourceInfo_continue (r : ResultElement) (s : RenderState) :
    (Citation.buildPanel.sourceInfo r s).continueCitation = s.continueCitation := by
  unfold Citation.buildPanel.sourceInfo
  split_ifs <;> rfl

theorem Citation.abstractInfo_rows (self : Citation) (r : ResultElement) (s : RenderState) :
    (Citation.buildPanel.abstractInfo self r s).numCurrentRows = s.numCurrentRows := by
  unfold Citation.buildPanel.abstractInfo
  split_ifs <;> rfl

/-- In compact style one fixed-height field (journal or source) after the check adds a row
only when the count stays within the budget. -/
theorem Citation.fixed_field_rows (self : Citation) (s : RenderState)
    (hC : self.opt.displayStyle = "COMPACT_STYLE") (rows : Int)
    (h : rows = if (Citation.buildPanel.compactCheck self s).continueCitation
      then s.numCurrentRows + 1 else s.numCurrentRows) :
    s.numCurrentRows ≤ rows ∧ rows ≤ max self.opt.numRowCompact s.numCurrentRows := by
  rw [Citation.compactCheck_continue self s hC] at h
  by_cases hle : s.numCurrentRows + 1 ≤ self.opt.numRowCompact
  · simp only [hle, decide_True, if_true] at h
    omega
  · simp only [hle, decide_False, Bool.false_eq_true, if_false] at h
    omega

/-- C9, as stated, fails: with a budget of one row, width 100, a fixed-pitch font of 10 pixels a
character and two authors of ten characters each, authors first, the label `Aaaaaaaaaa, ...`
that is emitted measures 150 pixels, two rows of 117, so rendering ends with
`numCurrentRows = 2`, above the budget. -/
theorem compact_rows_counterexample :
    sampleCompactCitation.opt.displayStyle = "COMPACT_STYLE" ∧
    sampleCompactCitation.opt.numRowCompact = 1 ∧
    (Citation.buildPanel sampleCompactCitation sampleEnv sampleResponse).map
      (fun s => (s._tempLabel, s.numCurrentRows)) = some ("Aaaaaaaaaa, ...", 2) ∧
    ¬ (∀ s, Citation.buildPanel sampleCompactCitation sampleEnv sampleResponse = some s →
        s.numCurrentRows ≤ sampleCompactCitation.opt.numRowCompact) := by
  have h : (Citation.buildPanel sampleCompactCitation sampleEnv sampleResponse).map
      (fun s => (s._tempLabel, s.numCurrentRows)) = some ("Aaaaaaaaaa, ...", 2) := by decide
  refine ⟨rfl, rfl, h, ?_⟩
  intro hall
  cases hb : Citation.buildPanel sampleCompactCitation sampleEnv sampleResponse with
  | none => rw [hb] at h; cases h
  | some s =>
    have hle := hall s hb
    rw [hb] at h
    simp only [Option.map_some', Option.some.injEq, Prod.mk.injEq] at h
    rw [h.2] at hle
    exact absurd hle (by decide)

theorem Citation.headFields_of_wellFormed (self : Citation) (env : Env) (r : ResultElement)
    (h : r.wellFormed = true) : ∃ s, Citation.buildPanel.headFields self env r = some s := by
  unfold Citation.buildPanel.headFields
  simp only
  split_ifs
  · unfold Citation.buildPanel.authorsFirstHead
    obtain ⟨s1, h1⟩ := Citation.authorInfo_of_wellFormed self env r
      { panel := Panel.empty, numCurrentRows := 0, continueCitation := true, _tempLabel := "" } h
    obtain ⟨s2, h2⟩ := Citation.titleInfo_of_wellFormed self env r
      (Citation.buildPanel.compactCheck self s1) h
    exact ⟨s2, by simp only [h1, h2, Option.some_bind]⟩
  · unfold Citation.buildPanel.titleFirstHead
    obtain ⟨s1, h1⟩ := Citation.titleInfo_of_wellFormed self env r
      { panel := Panel.empty, numCurrentRows := 0, continueCitation := true, _tempLabel := "" } h
    obtain ⟨s2, h2⟩ := Citation.authorInfo_of_wellFormed self env r
      (Citation.buildPanel.compactCheck self s1) h
    exact ⟨s2, by simp only [h1, h2, Option.some_bind]⟩
  · exact ⟨_, rfl⟩

/-- In compact style the two fields after title and authors, in either order, leave the row
count between its value before them and the larger of that value and the budget. -/
theorem Citation.tail_rows (self : Citation) (r : ResultElement) (h : RenderState)
    (hC : self.opt.displayStyle = "COMPACT_STYLE") :
    (h.numCurrentRows ≤ (Citation.buildPanel.journalInfo r (Citation.buildPanel.compactCheck self
        (Citation.buildPanel.sourceInfo r (Citation.buildPanel.compactCheck self h)))).numCurrentRows ∧
      (Citation.buildPanel.journalInfo r (Citation.buildPanel.compactCheck self
        (Citation.buildPanel.sourceInfo r (Citation.buildPanel.compactCheck self h)))).numCurrentRows
        ≤ max self.opt.numRowCompact h.numCurrentRows) ∧
    (h.numCurrentRows ≤ (Citation.buildPanel.sourceInfo r (Citation.buildPanel.compactCheck self
        (Citation.buildPanel.journalInfo r (Citation.buildPanel.compactCheck self h)))).numCurrentRows ∧
      (Citation.buildPanel.sourceInfo r (Citation.buildPanel.compactCheck self
        (Citation.buildPanel.journalInfo r (Citation.buildPanel.compactCheck self h)))).numCurrentRows
        ≤ max self.opt.numRowCompact h.numCurrentRows) := by
  constructor
  · have a := Citation.fixed_field_rows self h hC
      (Citation.buildPanel.sourceInfo r (Citation.buildPanel.compactCheck self h)).numCurrentRows
      (by rw [Citation.sourceInfo_rows, Citation.compactCheck_rows])
    have b := Citation.fixed_field_rows self
      (Citation.buildPanel.sourceInfo r (Citation.buildPanel.compactCheck self h)) hC
      (Citation.buildPanel.journalInfo r (Citation.buildPanel.compactCheck self
        (Citation.buildPanel.sourceInfo r (Citation.buildPanel.compactCheck self h)))).numCurrentRows
      (by rw [Citation.journalInfo_rows, Citation.compactCheck_rows])
    omega
  · have a := Citation.fixed_field_rows self h hC
      (Citation.buildPanel.journalInfo r (Citation.buildPanel.compactCheck self h)).numCurrentRows
      (by rw [Citation.journalInfo_rows, Citation.compactCheck_rows])
    have b := Citation.fixed_field_rows self
      (Citation.buildPanel.journalInfo r (Citation.buildPanel.compactCheck self h)) hC
      (Citation.buildPanel.sourceInfo r (Citation.buildPanel.compactCheck self
        (Citation.buildPanel.journalInfo r (Citation.buildPanel.compactCheck self h)))).numCurrentRows
      (by rw [Citation.sourceInfo_rows, Citation.compactCheck_rows])
    omega

theorem Citation.record_compact_rows (self : Citation) (env : Env) (r : ResultElement)
    (hC : self.opt.displayStyle = "COMPACT_STYLE") (hwf : r.wellFormed = true) :
    ∃ h s : RenderState,
      Citation.buildPanel.headFields self env r = some h ∧
      Citation.buildPanel.record self env r = some s ∧
      h.numCurrentRows ≤ s.numCurrentRows ∧
      s.numCurrentRows ≤ max self.opt.numRowCompact h.numCurrentRows := by
  obtain ⟨h, hh⟩ := Citation.headFields_of_wellFormed self env r hwf
  have ht := Citation.tail_rows self r h hC
  have hT : ¬ (self.opt.displayStyle = Citation.TITLE_ONLY_STYLE) := by
    rw [hC]; decide
  refine ⟨h, ?_⟩
  unfold Citation.buildPanel.headFields at hh ⊢
  unfold Citation.buildPanel.record
  simp only [if_neg hT] at hh ⊢
  by_cases hA : self.opt.elementOrder = Citation.AUTHORS_FIRST
  · simp only [if_pos hA] at hh ⊢
    simp only [Citation.buildPanel.authorsFirst, hh, Option.some_bind]
    exact ⟨_, trivial, rfl, by rw [Citation.abstractInfo_rows]; exact ht.1.1,
      by rw [Citation.abstractInfo_rows]; exact ht.1.2⟩
  · simp only [if_neg hA] at hh ⊢
    by_cases hTF : self.opt.elementOrder = Citation.TITLE_FIRST
    · simp only [if_pos hTF] at hh ⊢
      simp only [Citation.buildPanel.titleFirst, hh, Option.some_bind]
      exact ⟨_, trivial, rfl, by rw [Citation.abstractInfo_rows]; exact ht.2.1,
        by rw [Citation.abstractInfo_rows]; exact ht.2.2⟩
    · simp only [if_neg hTF] at hh ⊢
      simp only [Option.some.injEq] at hh
      subst hh
      simp only [Option.some_bind]
      exact ⟨_, trivial, rfl, by rw [Citation.abstractInfo_rows],
        by rw [Citation.abstractInfo_rows]; exact le_max_right _ _⟩

/-- C9, amended: in compact style, for every record with a title string and an author list,
every element order, width, measurement function and budget `n`, `buildPanel` completes and its
final `numCurrentRows` lies between the count `r2` reached once the title and the authors
fields are done and `max n r2`: the journal and the source field add a row only while the
count stays within `n`. -/
theorem compact_rows_bound (self : Citation) (env : Env) (resp : Response) (r : ResultElement)
    (rest : List ResultElement) (hr : resp.result = r :: rest)
    (hC : self.opt.displayStyle = "COMPACT_STYLE") (hwf : r.wellFormed = true) :
    ∃ h s : RenderState,
      Citation.buildPanel.headFields { self with _innerWidth := self.opt.width.getD 0 + 17 } env r
        = some h ∧
      Citation.buildPanel self env resp = some s ∧
      h.numCurrentRows ≤ s.numCurrentRows ∧
      s.numCurrentRows ≤ max self.opt.numRowCompact h.numCurrentRows := by
  unfold Citation.buildPanel
  simp only [hr]
  exact Citation.record_compact_rows { self with _innerWidth := self.opt.width.getD 0 + 17 } env r
    hC hwf

/-- C9, amended, on the sample: the count reached after authors and title is 2 and the final
count stays 2, within `max 1 2`. -/
theorem compact_rows_bound_witness :
    ∃ h s : RenderState,
      Citation.buildPanel.headFields
        { sampleCompactCitation with _innerWidth := sampleCompactCitation.opt.width.getD 0 + 17 }
        sampleEnv sampleRecord = some h ∧
      Citation.buildPanel sampleCompactCitation sampleEnv sampleResponse = some s ∧
      h.numCurrentRows ≤ s.numCurrentRows ∧
      s.numCurrentRows ≤ max sampleCompactCitation.opt.numRowCompact h.numCurrentRows :=
  compact_rows_bound sampleCompactCitation sampleEnv sampleResponse sampleRecord [] rfl rfl
    (by decide)

/-! ## The style `TITLE_ONLY_STYLE` -/

theorem CitationList.loop_title_only (self : CitationList) (env : Env)
    (hS : self.opt.displayStyle = some "TITLE_ONLY_STYLE") :
    ∀ (l : List ResultElement) (n : Int) (lbl : String),
      CitationList.buildPanel.loop self env l n lbl
        = some (l.map fun r => titleOnlyPanel (CitationList.getAbstractUrl r) r.title)
  | [], _, _ => rfl
  | r :: rest, n, lbl => by
    have hc : CitationList.buildPanel.citation self env r n lbl
        = some { panel := titleOnlyPanel (CitationList.getAbstractUrl r) r.title,
                 numCurrentRows := n, continueCitation := true, _tempLabel := lbl } := by
      simp [CitationList.buildPanel.citation, hS, CitationList.TITLE_ONLY_STYLE, titleOnlyPanel,
        Panel.empty]
    simp only [CitationList.buildPanel.loop, hc,
      CitationList.loop_title_only self env hS rest n lbl, List.map_cons]

/-- C10: in the style `TITLE_ONLY_STYLE`, for every record, element order, `showAbstract` and
row budget, the panel holds the title anchor only: its `href` is `getAbstractUrl` of the record
and its text the whole title, while authors, journal, source and abstract stay empty.  This
holds for the single citation and for each citation of a list. -/
theorem title_only_style (c : Citation) (l : CitationList) (env : Env) (resp : Response) :
    (c.opt.displayStyle = "TITLE_ONLY_STYLE" →
      ∀ r rest, resp.result = r :: rest →
        ∃ s, Citation.buildPanel c env resp = some s ∧
          s.panel =
            { title := "<a class=\"epmc_citation_link\" href=\"" ++ Citation.getAbstractUrl r
                ++ "\">" ++ r.title.toStr ++ "</a>",
              authors := "", journal := "", source := "", abstract := "" }) ∧
    (l.opt.displayStyle = some "TITLE_ONLY_STYLE" →
      ∃ p, CitationList.buildPanel l env resp = some p ∧
        p.citations = (resp.result.take (CitationList.buildPanel.numCitations l resp).toNat).map
          fun r =>
            { title := "<a class=\"epmc_citation_link\" href=\"" ++ CitationList.getAbstractUrl r
                ++ "\">" ++ r.title.toStr ++ "</a>",
              authors := "", journal := "", source := "", abstract := "" }) ∧
    (∀ t : String, (JSVal.str t).toStr = t) := by
  refine ⟨?_, ?_, fun _ => rfl⟩
  · intro hS r rest hr
    have hb : Citation.buildPanel c env resp
        = some { panel := titleOnlyPanel (Citation.getAbstractUrl r) r.title,
                 numCurrentRows := 0, continueCitation := true, _tempLabel := "" } := by
      simp [Citation.buildPanel, hr, Citation.buildPanel.record, hS, Citation.TITLE_ONLY_STYLE,
        Citation.buildPanel.abstractInfo, titleOnlyPanel, Panel.empty]
    exact ⟨_, hb, rfl⟩
  · intro hS
    have hl := CitationList.loop_title_only { l with _innerWidth := l.opt.width.getD 0 + 17 } env hS
      (resp.result.take (CitationList.buildPanel.numCitations l resp).toNat) 0 ""
    unfold CitationList.buildPanel
    simp only [hl]
    exact ⟨_, rfl, rfl⟩

/-- C10 on the sample record: the title-only panel of the single-citation widget. -/
theorem title_only_style_witness :
    ∃ s, Citation.buildPanel sampleTitleOnlyCitation sampleEnv sampleResponse = some s ∧
      s.panel =
        { title := "<a class=\"epmc_citation_link\" href=\"" ++ Citation.getAbstractUrl sampleRecord
            ++ "\">" ++ sampleRecord.title.toStr ++ "</a>",
          authors := "", journal := "", source := "", abstract := "" } :=
  (title_only_style sampleTitleOnlyCitation sampleCitationList sampleEnv sampleResponse).1 rfl
    sampleRecord [] rfl

/-! ## The full style -/

theorem String.append_right_ne_empty (a b : String) (h : b ≠ "") : a ++ b ≠ "" := by
  intro hEq
  have hd : (a ++ b).data = [] := by rw [hEq]
  rw [String.data_append, List.append_eq_nil] at hd
  apply h
  rcases b with ⟨l⟩
  simp only at hd
  rw [hd.2]

theorem String.append_empty_right (a : String) : a ++ "" = a := by
  rcases a with ⟨l⟩
  show String.mk (l ++ []) = String.mk l
  rw [List.append_nil]

theorem String.empty_append_left (a : String) : "" ++ a = a := by
  rcases a with ⟨l⟩
  rfl

theorem Author.isLinked_iff (author : Author) :
    author.isLinked = true ↔
      ((Citation.getAuthorsElement.authorName author).neNull
        && (Citation.getAuthorsElement.authorName author).neEmpty) = true := by
  unfold Author.isLinked
  cases h : Citation.getAuthorsElement.authorName author <;> simp [JSVal.neNull, JSVal.neEmpty]

theorem Citation.loop_full (self : Citation) (env : Env) (fontSize : String) (n : Int)
    (fontfamily : String) (hF : self.opt.displayStyle = "FULL_STYLE") :
    ∀ (authors : List Author) (i : Nat) (authorsHtml labelAuth : String),
      Citation.getAuthorsElement.loop self env fontSize n fontfamily authors i authorsHtml labelAuth
        = (authorsHtml ++ fullStyleAuthors authors i, labelAuth ++ fullStyleLabel authors i)
  | [], _, authorsHtml, labelAuth => by
    simp [Citation.getAuthorsElement.loop, fullStyleAuthors, fullStyleLabel,
      String.append_empty_right]
  | author :: rest, i, authorsHtml, labelAuth => by
    have hC : ¬ (self.opt.displayStyle = Citation.COMPACT_STYLE) := by rw [hF]; decide
    unfold Citation.getAuthorsElement.loop
    simp only [hC, if_false]
    by_cases hN : author.isLinked = true
    · have hN' := (Author.isLinked_iff author).1 hN
      simp only [hN', if_true]
      rw [Citation.loop_full self env fontSize n fontfamily hF rest (i + 1)]
      simp only [fullStyleAuthors, fullStyleLabel, hN, if_true, authorLink]
      by_cases hi : i > 0
      · simp only [hi, if_true, String.append_assoc]
      · simp only [hi, if_false, String.append_assoc, String.empty_append_left]
    · have hN' : ((Citation.getAuthorsElement.authorName author).neNull
          && (Citation.getAuthorsElement.authorName author).neEmpty) = false := by
        cases h : ((Citation.getAuthorsElement.authorName author).neNull
          && (Citation.getAuthorsElement.authorName author).neEmpty)
        · rfl
        · exact absurd ((Author.isLinked_iff author).2 h) hN
      simp only [hN', Bool.false_eq_true, if_false]
      rw [Citation.loop_full self env fontSize n fontfamily hF rest (i + 1)]
      simp only [fullStyleAuthors, fullStyleLabel, hN, Bool.false_eq_true, if_false]
      by_cases hi : i > 0
      · simp only [hi, if_true, String.append_assoc, String.empty_append_left]
      · simp only [hi, if_false, String.append_assoc, String.empty_append_left]

theorem authorLink_ne_empty (authorName : String) : authorLink authorName ≠ "" := by
  unfold authorLink
  rw [String.append_assoc, String.append_assoc, String.append_assoc]
  exact String.append_left_ne_empty _ _ (by decide)

theorem fullStyleAuthors_link (author : Author) (hN : author.isLinked = true) :
    ∀ (authors : List Author) (i : Nat), author ∈ authors →
      ∃ before after : String, fullStyleAuthors authors i
        = before ++ authorLink (Citation.getAuthorsElement.authorName author).toStr ++ after
  | [], _, h => by cases h
  | a :: rest, i, h => by
    rcases List.mem_cons.1 h with hEq | hMem
    · subst hEq
      refine ⟨if i > 0 then ", " else "", fullStyleAuthors rest (i + 1), ?_⟩
      simp only [fullStyleAuthors, hN, if_true, String.append_assoc]
    · obtain ⟨before, after, hba⟩ := fullStyleAuthors_link author hN rest (i + 1) hMem
      refine ⟨(if i > 0 then ", " else "")
        ++ ((if a.isLinked then authorLink (Citation.getAuthorsElement.authorName a).toStr else "")
        ++ before), after, ?_⟩
      simp only [fullStyleAuthors, hba, String.append_assoc]

theorem fullStyleAuthors_ne_empty :
    ∀ (authors : List Author) (i : Nat), (∃ a ∈ authors, a.isLinked = true) →
      fullStyleAuthors authors i ≠ ""
  | authors, i, ⟨a, hMem, hN⟩ => by
    obtain ⟨before, after, hba⟩ := fullStyleAuthors_link a hN authors i hMem
    rw [hba]
    exact String.append_left_ne_empty _ _
      (String.append_right_ne_empty _ _ (authorLink_ne_empty _))

theorem authorName_of_strings (f l c : String) :
    Citation.getAuthorsElement.authorName
      { fullName := JSVal.str f, lastName := JSVal.str l, collectiveName := JSVal.str c }
      = JSVal.str (firstNonEmpty f l c) := by
  unfold Citation.getAuthorsElement.authorName firstNonEmpty
  by_cases hf : f = "" <;> by_cases hl : l = "" <;> by_cases hc : c = "" <;>
    simp [JSVal.neEmpty, hf, hl, hc]

theorem Citation.compactCheck_full (self : Citation) (s : RenderState)
    (hF : self.opt.displayStyle = "FULL_STYLE") :
    Citation.buildPanel.compactCheck self s = s := by
  have hC : ¬ (self.opt.displayStyle = Citation.COMPACT_STYLE) := by rw [hF]; decide
  simp only [Citation.buildPanel.compactCheck, hC, if_false]

theorem Citation.getLabelTitle_full (self : Citation) (env : Env) (r : ResultElement)
    (fontsize : String) (n : Int) (fontfamily : String)
    (hF : self.opt.displayStyle = "FULL_STYLE") :
    Citation.getLabelTitle self env r fontsize n fontfamily = some r.title := by
  have hC : ¬ (self.opt.displayStyle = Citation.COMPACT_STYLE) := by rw [hF]; decide
  simp only [Citation.getLabelTitle, hC, if_false]

theorem Citation.getAuthorsElement_full (self : Citation) (env : Env) (r : ResultElement)
    (fontSize : String) (n : Int) (fontfamily : String) (authors : List Author)
    (hF : self.opt.displayStyle = "FULL_STYLE") (hA : r.authorList = some authors) :
    Citation.getAuthorsElement self env r fontSize n fontfamily
      = some (fullStyleAuthors authors 0, fullStyleLabel authors 0) := by
  simp only [Citation.getAuthorsElement, hA, Citation.loop_full self env fontSize n fontfamily hF,
    String.empty_append_left]

theorem Citation.getSourceElement_ne_empty (r : ResultElement) :
    Citation.getSourceElement r ≠ "" := by
  unfold Citation.getSourceElement
  split_ifs
  · exact String.append_left_ne_empty _ _ (by decide)
  · exact String.append_left_ne_empty _ _ (by decide)
  · simp only
    rw [String.append_assoc]
    exact String.append_left_ne_empty _ _ (by decide)
  · exact String.append_left_ne_empty _ _ (by decide)
  · exact String.append_left_ne_empty _ _ (by decide)
  · exact String.append_left_ne_empty _ _ (by decide)
  · exact String.append_left_ne_empty _ _
      (String.append_right_ne_empty _ _ (by decide))

theorem Citation.abstractInfo_fields (self : Citation) (r : ResultElement) (s : RenderState) :
    (Citation.buildPanel.abstractInfo self r s).panel.title = s.panel.title ∧
    (Citation.buildPanel.abstractInfo self r s).panel.authors = s.panel.authors ∧
    (Citation.buildPanel.abstractInfo self r s).panel.journal = s.panel.journal ∧
    (Citation.buildPanel.abstractInfo self r s).panel.source = s.panel.source := by
  unfold Citation.buildPanel.abstractInfo
  split_ifs <;> exact ⟨rfl, rfl, rfl, rfl⟩

theorem Citation.getJournalElement_abbreviation_ne_empty (r : ResultElement) (info : JournalInfo)
    (j : Journal) (a : String) (hI : r.journalInfo = some info) (hJ : info.journal = some j)
    (hA : j.medlineAbbreviation = JSVal.str a) (ha : a ≠ "") :
    Citation.getJournalElement r ≠ "" := by
  unfold Citation.getJournalElement
  simp only [hI, hJ, hA, JSVal.neEmpty, ne_eq, ha, not_false_eq_true, decide_True, if_true,
    String.append_assoc]
  exact String.append_left_ne_empty _ _ (by decide)

theorem Citation.getJournalElement_publisher_ne_empty (r : ResultElement)
    (book : BookOrReportDetails) (p : String)
    (hI : r.journalInfo = none ∨ ∃ info, r.journalInfo = some info ∧ info.journal = none)
    (hB : r.bookOrReportDetails = some book) (hP : book.publisher = JSVal.str p) :
    Citation.getJournalElement r ≠ "" := by
  unfold Citation.getJournalElement
  rcases hI with hI | ⟨info, hI, hJ⟩
  · simp only [hI, hB, hP, JSVal.neEmpty, JSVal.neNull, ne_eq, not_true_eq_false, decide_False,
      Bool.false_eq_true, if_false, if_true]
    split_ifs <;>
      · simp only [String.append_assoc]
        exact String.append_left_ne_empty _ _ (by decide)
  · simp only [hI, hJ, hB, hP, JSVal.neEmpty, JSVal.neNull, ne_eq, not_true_eq_false,
      decide_False, Bool.false_eq_true, if_false, if_true]
    split_ifs <;>
      · simp only [String.append_assoc]
        exact String.append_left_ne_empty _ _ (by decide)

theorem Citation.record_full (self : Citation) (env : Env) (r : ResultElement)
    (authors : List Author) (hF : self.opt.displayStyle = "FULL_STYLE")
    (hO : self.opt.elementOrder = "TITLE_FIRST" ∨ self.opt.elementOrder = "AUTHORS_FIRST")
    (hA : r.authorList = some authors) :
    ∃ s, Citation.buildPanel.record self env r = some s ∧
      s.panel.title = "<a class=\"epmc_citation_link\" href=\"" ++ Citation.getAbstractUrl r
        ++ "\">" ++ r.title.toStr ++ "</a>" ∧
      s.panel.authors = fullStyleAuthors authors 0 ∧
      s.panel.journal = Citation.getJournalElement r ∧
      s.panel.source = Citation.getSourceElement r := by
  have hT : ¬ (self.opt.displayStyle = Citation.TITLE_ONLY_STYLE) := by rw [hF]; decide
  unfold Citation.buildPanel.record
  simp only [if_neg hT]
  rcases hO with hO | hO
  · have hAF : ¬ (self.opt.elementOrder = Citation.AUTHORS_FIRST) := by rw [hO]; decide
    have hTF : self.opt.elementOrder = Citation.TITLE_FIRST := hO
    simp only [if_neg hAF, if_pos hTF, Citation.buildPanel.titleFirst,
      Citation.buildPanel.titleFirstHead, Citation.buildPanel.titleInfo,
      Citation.buildPanel.authorInfo, Citation.buildPanel.journalInfo,
      Citation.buildPanel.sourceInfo, Citation.compactCheck_full self _ hF,
      Citation.getLabelTitle_full self env r _ _ _ hF,
      Citation.getAuthorsElement_full self env r _ _ _ authors hF hA,
      Option.some_bind, if_true]
    refine ⟨_, rfl, ?_, ?_, ?_, ?_⟩
    · rw [(Citation.abstractInfo_fields self r _).1]
    · rw [(Citation.abstractInfo_fields self r _).2.1]
    · rw [(Citation.abstractInfo_fields self r _).2.2.1]
    · rw [(Citation.abstractInfo_fields self r _).2.2.2]
  · have hAF : self.opt.elementOrder = Citation.AUTHORS_FIRST := hO
    simp only [if_pos hAF, Citation.buildPanel.authorsFirst,
      Citation.buildPanel.authorsFirstHead, Citation.buildPanel.titleInfo,
      Citation.buildPanel.authorInfo, Citation.buildPanel.journalInfo,
      Citation.buildPanel.sourceInfo, Citation.compactCheck_full self _ hF,
      Citation.getLabelTitle_full self env r _ _ _ hF,
      Citation.getAuthorsElement_full self env r _ _ _ authors hF hA,
      Option.some_bind, if_true]
    refine ⟨_, rfl, ?_, ?_, ?_, ?_⟩
    · rw [(Citation.abstractInfo_fields self r _).1]
    · rw [(Citation.abstractInfo_fields self r _).2.1]
    · rw [(Citation.abstractInfo_fields self r _).2.2.1]
    · rw [(Citation.abstractInfo_fields self r _).2.2.2]

/-- In the full style, for every record with an author list, either element order and any
width, measurement function and row budget, `buildPanel` completes and produces the four
fields: the title anchor with the whole title, the authors field made of the links of the
authors that the loop links, separated by commas, with no ellipsis marker, the journal field
`getJournalElement` and the source field `getSourceElement`.  The name of an author whose three
name members are strings is the first non-empty of them. -/
theorem full_style_fields (self : Citation) (env : Env) (resp : Response) (r : ResultElement)
    (rest : List ResultElement) (authors : List Author)
    (hr : resp.result = r :: rest) (hF : self.opt.displayStyle = "FULL_STYLE")
    (hO : self.opt.elementOrder = "TITLE_FIRST" ∨ self.opt.elementOrder = "AUTHORS_FIRST")
    (hA : r.authorList = some authors) :
    ∃ s, Citation.buildPanel self env resp = some s ∧
      s.panel.title = "<a class=\"epmc_citation_link\" href=\"" ++ Citation.getAbstractUrl r
        ++ "\">" ++ r.title.toStr ++ "</a>" ∧
      s.panel.authors = fullStyleAuthors authors 0 ∧
      (∀ a ∈ authors, a.isLinked = true → ∃ before after : String, s.panel.authors
        = before ++ authorLink (Citation.getAuthorsElement.authorName a).toStr ++ after) ∧
      s.panel.journal = Citation.getJournalElement r ∧
      s.panel.source = Citation.getSourceElement r ∧
      s.panel.title ≠ "" ∧
      ((∃ a ∈ authors, a.isLinked = true) → s.panel.authors ≠ "") ∧
      (∀ info j a, r.journalInfo = some info → info.journal = some j →
        j.medlineAbbreviation = JSVal.str a → a ≠ "" → s.panel.journal ≠ "") ∧
      (∀ book p,
        (r.journalInfo = none ∨ ∃ info, r.journalInfo = some info ∧ info.journal = none) →
        r.bookOrReportDetails = some book → book.publisher = JSVal.str p →
        s.panel.journal ≠ "") ∧
      s.panel.source ≠ "" ∧
      (∀ f l c : String, Citation.getAuthorsElement.authorName
        { fullName := JSVal.str f, lastName := JSVal.str l, collectiveName := JSVal.str c }
        = JSVal.str (firstNonEmpty f l c)) := by
  obtain ⟨s, hs, hT, hAu, hJ, hS⟩ := Citation.record_full
    { self with _innerWidth := self.opt.width.getD 0 + 17 } env r authors hF hO hA
  refine ⟨s, ?_, hT, hAu, ?_, hJ, hS, ?_, ?_, ?_, ?_, ?_, authorName_of_strings⟩
  · simp only [Citation.buildPanel, hr]
    exact hs
  · intro a hMem hN
    rw [hAu]
    exact fullStyleAuthors_link a hN authors 0 hMem
  · rw [hT, String.append_assoc, String.append_assoc, String.append_assoc]
    exact String.append_left_ne_empty _ _ (by decide)
  · intro h
    rw [hAu]
    exact fullStyleAuthors_ne_empty authors 0 h
  · intro info j a hI hJo hAb ha
    rw [hJ]
    exact Citation.getJournalElement_abbreviation_ne_empty r info j a hI hJo hAb ha
  · intro book p hI hB hP
    rw [hJ]
    exact Citation.getJournalElement_publisher_ne_empty r book p hI hB hP
  · rw [hS]
    exact Citation.getSourceElement_ne_empty r

/-- On the sample record, full style, title first, the authors field is the two links
separated by a comma. -/
theorem full_style_fields_witness :
    ∃ s, Citation.buildPanel sampleFullCitation sampleEnv sampleResponse = some s ∧
      s.panel.authors = authorLink "Aaaaaaaaaa" ++ (", " ++ authorLink "Bbbbbbbbbb") ∧
      s.panel.source = "PMID:123 PMCID:PMC456" := by
  obtain ⟨s, hs, _, hAu, _, _, hS, _⟩ :=
    full_style_fields sampleFullCitation sampleEnv sampleResponse sampleRecord []
      [{ fullName := JSVal.str "Aaaaaaaaaa", lastName := JSVal.str "Aaaaaaaaaa",
         collectiveName := JSVal.undefined },
       { fullName := JSVal.str "Bbbbbbbbbb", lastName := JSVal.str "Bbbbbbbbbb",
         collectiveName := JSVal.undefined }] rfl rfl (Or.inl rfl) rfl
  refine ⟨s, hs, ?_, ?_⟩
  · rw [hAu]; rfl
  · rw [hS]; rfl

/-! ## The order in which the fields take the budget -/

/-- C12 at a failing input: compact style, budget 3, width 400, 10 pixels a character, the
sample record with its journal.  Authors and title take one row each.  With the authors first
the source is produced next and the journal is dropped, although the record has one; with the
title first the journal is produced and the source is dropped. -/
theorem authors_first_source_before_journal :
    (Citation.buildPanel sampleAuthorsFirstCitation sampleEnv
        { hitCount := 1, result := [sampleJournalRecord] }).map
      (fun s => (s.panel.source, s.panel.journal, s.numCurrentRows))
      = some ("PMID:123 PMCID:PMC456", "", 3) ∧
    Citation.getJournalElement sampleJournalRecord ≠ "" ∧
    (Citation.buildPanel sampleTitleFirstCitation sampleEnv
        { hitCount := 1, result := [sampleJournalRecord] }).map
      (fun s => (s.panel.source, s.panel.journal == Citation.getJournalElement sampleJournalRecord,
        s.numCurrentRows))
      = some ("", true, 3) := by
  refine ⟨by rfl, by decide, by rfl⟩

/-! ## The journal field -/

set_option maxRecDepth 20000 in
/-- C13, as stated, fails: a record of the journal Nature with only `pageInfo` present (1-10)
gets the journal link and nothing else; its page numbers are not shown. -/
theorem journal_element_details_counterexample :
    Citation.getJournalElement sampleOnlyPagesRecord
      = searchLink "JOURNAL:&quot;Nature&quot;" "Nature" ∧
    CitationList.getJournalElement sampleOnlyPagesRecord
      = searchLink "JOURNAL:&quot;Nature&quot;" "Nature" ∧
    sampleOnlyPagesRecord.pageInfo = JSVal.str "1-10" ∧
    ¬ ("1-10".data <:+: (Citation.getJournalElement sampleOnlyPagesRecord).data) := by
  refine ⟨by rfl, by rfl, rfl, ?_⟩
  decide

/-- C13, amended: for a record whose journal abbreviation is a non-empty string, both widgets
return the journal search link, and after it, if and only if one of year, issue and volume is
present, a segment ` <span>[...]</span>` holding the year, the volume (after `, ` when the year
is there too), the issue in parentheses and the page information after a colon, each exactly
when it is present.  Without year, issue and volume nothing follows the link, page
information included. -/
theorem journal_element_details (r : ResultElement) (info : JournalInfo) (j : Journal)
    (a : String) (hI : r.journalInfo = some info) (hJ : info.journal = some j)
    (hA : j.medlineAbbreviation = JSVal.str a) (ha : a ≠ "") :
    CitationList.getJournalElement r = Citation.getJournalElement r ∧
    (info.yearOfPublication.neNull = false → info.issue.neNull = false →
      info.volume.neNull = false →
      Citation.getJournalElement r = searchLink ("JOURNAL:&quot;" ++ a ++ "&quot;") a) ∧
    ((info.yearOfPublication.neNull = true ∨ info.issue.neNull = true
        ∨ info.volume.neNull = true) →
      Citation.getJournalElement r = searchLink ("JOURNAL:&quot;" ++ a ++ "&quot;") a
        ++ (" <span>["
          ++ (if info.yearOfPublication.neNull then info.yearOfPublication.toStr else "")
          ++ (if info.yearOfPublication.neNull && info.volume.neNull then ", " else "")
          ++ (if info.volume.neNull then info.volume.toStr else "")
          ++ (if info.issue.neNull then "(" ++ info.issue.toStr ++ ")" else "")
          ++ (if r.pageInfo.neNull then ":" ++ r.pageInfo.toStr else "")
          ++ "]</span>")) := by
  have hC : Citation.getJournalElement r = searchLink ("JOURNAL:&quot;" ++ a ++ "&quot;") a
      ++ Citation.getJournalElement.details info.yearOfPublication info.issue info.volume
        r.pageInfo := by
    simp only [Citation.getJournalElement, hI, hJ, hA, JSVal.neEmpty, ne_eq, ha,
      not_false_eq_true, decide_True, if_true, JSVal.toStr, searchLink]
  have hL : CitationList.getJournalElement r = searchLink ("JOURNAL:&quot;" ++ a ++ "&quot;") a
      ++ CitationList.getJournalElement.details info.yearOfPublication info.issue info.volume
        r.pageInfo := by
    simp only [CitationList.getJournalElement, hI, hJ, hA, JSVal.neEmpty, ne_eq, ha,
      not_false_eq_true, decide_True, if_true, JSVal.toStr, searchLink]
  refine ⟨?_, ?_, ?_⟩
  · rw [hC, hL]; rfl
  · intro hy hi hv
    rw [hC]
    simp only [Citation.getJournalElement.details, hy, hi, hv, Bool.or_self, Bool.false_eq_true,
      if_false, String.append_empty_right]
  · intro h
    rw [hC]
    have hor : (info.yearOfPublication.neNull || info.issue.neNull || info.volume.neNull) = true := by
      rcases h with h | h | h <;> simp [h]
    simp only [Citation.getJournalElement.details, hor, if_true]
    cases hy : info.yearOfPublication.neNull <;> cases hv : info.volume.neNull <;>
      simp only [Bool.and_true, Bool.and_false, Bool.false_eq_true, if_false, if_true,
        String.append_empty_right, String.empty_append_left, String.append_assoc]

/-- C13, amended, on the sample record of Nature 2013, volume 5, issue 2, pages 1-10: the
segment reads `[2013, 5(2):1-10]`. -/
theorem journal_element_details_witness :
    Citation.getJournalElement sampleJournalRecord
      = searchLink "JOURNAL:&quot;Nature&quot;" "Nature" ++ " <span>[2013, 5(2):1-10]</span>" := by
  have h := (journal_element_details sampleJournalRecord
    { journal := some { medlineAbbreviation := JSVal.str "Nature" },
      yearOfPublication := JSVal.str "2013", issue := JSVal.str "2", volume := JSVal.str "5" }
    { medlineAbbreviation := JSVal.str "Nature" } "Nature" rfl rfl rfl (by decide)).2.2
    (Or.inl rfl)
  rw [h]
  rfl

/-- C14 at a failing input: the journal object of the record has no `medlineAbbreviation` and
the record has book details of the publisher Springer, 2010.  `getJournalElement` takes the
journal branch and returns a journal link with the text `undefined`, not the publisher link;
without `journalInfo` the same book details give the publisher link followed by `[2010]`. -/
theorem journal_without_abbreviation :
    Citation.getJournalElement sampleNoAbbreviationRecord
      = searchLink "JOURNAL:&quot;undefined&quot;" "undefined" ∧
    Citation.getJournalElement sampleNoAbbreviationRecord
      ≠ searchLink "PUBLISHER:&quot;Springer&quot;" "Springer" ++ "[2010]" ∧
    Citation.getJournalElement sampleBookRecord
      = searchLink "PUBLISHER:&quot;Springer&quot;" "Springer" ++ "[2010]" := by
  refine ⟨by rfl, by decide, by rfl⟩

/-! ## The name of an author -/

/-- C15 at a failing input: an author entry without `fullName` and with the last name Smith.
The name picked is `undefined`, so the author gets no link: the authors field of the record
whose only author he is stays empty in both widgets. -/
theorem author_without_fullName :
    Citation.getAuthorsElement.authorName sampleSmith = JSVal.undefined ∧
    CitationList.getAuthorsElement.authorName sampleSmith = JSVal.undefined ∧
    Citation.getAuthorsElement sampleFullCitation sampleEnv sampleSmithRecord "12px" 0 "monospace"
      = some ("", "") ∧
    CitationList.getAuthorsElement sampleFullCitationList sampleEnv sampleSmithRecord "12px" 0
      "monospace" = some ("", "") ∧
    (Citation.buildPanel sampleFullCitation sampleEnv
        { hitCount := 1, result := [sampleSmithRecord] }).map (fun s => s.panel.authors)
      = some "" ∧
    Citation.getAuthorsElement.authorName
      { fullName := JSVal.str "", lastName := JSVal.str "Smith", collectiveName := JSVal.str "" }
      = JSVal.str "Smith" := by
  refine ⟨by rfl, by rfl, by rfl, by rfl, by rfl, by rfl⟩

/-! ## The request URL -/

theorem Citation.filter_ne_empty (source id : String)
    (h : source ∈ ["MED", "PMC", "PAT", "ETH", "HIR", "CTX", "CBA", "AGR", "DOI"]) :
    Citation.loadCitation.filter source id ≠ "" := by
  simp only [List.mem_cons, List.mem_singleton, List.not_mem_nil, or_false] at h
  rcases h with h | h | h | h | h | h | h | h | h <;> subst h <;>
    simp only [Citation.loadCitation.filter, Citation.PMC_SOURCE, Citation.DOI_SOURCE,
      Citation.MED_SOURCE, Citation.PAT_SOURCE, Citation.AGR_SOURCE, Citation.ETH_SOURCE,
      Citation.HIR_SOURCE, Citation.CBA_SOURCE, Citation.CTX_SOURCE, String.reduceEq,
      if_true, if_false, true_or, or_true, false_or, or_false, String.append_assoc] <;>
    exact String.append_left_ne_empty _ _ (by decide)

theorem ajaxUrls_loadCitation_loading (self : Citation) (rest : List Effect) :
    ajaxUrls (Citation.loadCitation.loading self ++ rest) = ajaxUrls rest := by
  unfold Citation.loadCitation.loading
  split_ifs <;> simp [ajaxUrls]

theorem Citation.loadCitation_request (self : Citation) (source id : String)
    (hw : jsMissingNum self.opt.width = false) (hs : self.opt.source = some source)
    (hs0 : source ≠ "") (hid : self.opt.citation_id = some id) (hid0 : id ≠ "")
    (hf : Citation.loadCitation.filter source id ≠ "") :
    ajaxUrls (Citation.loadCitation self) =
      [self._proxyUrl ++ (self.opt.restEpmcUrl ++ "query=" ++ Citation.loadCitation.filter source id
        ++ "&resultType=core&format=json")] := by
  have hsm : jsMissingStr (some source) = false := by simp [jsMissingStr, hs0]
  have hidm : jsMissingStr (some id) = false := by simp [jsMissingStr, hid0]
  unfold Citation.loadCitation
  simp only [hw, hs, hid, hsm, hidm, jsOptStr, Bool.false_eq_true, if_false, ne_eq, hf,
    not_false_eq_true, if_true]
  rw [ajaxUrls_resetContainer, ajaxUrls_loadCitation_loading]
  simp [ajaxUrls]

theorem CitationList.loadResults_request (self : CitationList) (query : String)
    (hw : jsMissingNum self.opt.width = false) (hq : self.opt.query = some query)
    (hq0 : query ≠ "") :
    ajaxUrls (CitationList.loadResults self) =
      [self._proxyUrl ++ (self.opt.restEpmcUrl ++ "query=" ++ encodeURIComponent query
        ++ "&resultType=core&format=json&page=1")] := by
  have hqm : jsMissingStr (some query) = false := by simp [jsMissingStr, hq0]
  have hf := encodeURIComponent_ne_empty query hq0
  unfold CitationList.loadResults
  simp only [hw, hq, hqm, jsOptStr, Bool.false_eq_true, if_false, ne_eq, hf,
    not_false_eq_true, if_true]
  rw [ajaxUrls_resetContainer, ajaxUrls_loadResults_loading]
  simp [ajaxUrls]

/-- C16, as stated, fails: for the PMC citation 456 with the default service address the
request goes to `.../rest/search/query=PMCID:456&resultType=core&format=json` behind the proxy
prefix; there is no question mark before `query=`. -/
theorem request_url_counterexample :
    ajaxUrls (Citation.loadCitation samplePmcCitation) =
      ["https://cors-anywhere.herokuapp.com/" ++
        "http://www.ebi.ac.uk/europepmc/webservices/rest/search/query=PMCID:456&resultType=core&format=json"] ∧
    ajaxUrls (Citation.loadCitation samplePmcCitation) ≠
      [samplePmcCitation._proxyUrl ++ samplePmcCitation.opt.restEpmcUrl ++ "?query=" ++ "PMCID:456"
        ++ "&resultType=core&format=json"] := by
  constructor
  · rfl
  · decide

/-- C16, amended: a valid request issues a single GET whose URL is the proxy prefix followed by
the service address, `query=` (no question mark), the filter and `&resultType=core&format=json`,
with `&page=1` appended by `loadResults` and not by `loadCitation`.  The filter of
`loadCitation` is the one chosen from the source, that of `loadResults` the URI-encoded query. -/
theorem request_url :
    (∀ (self : Citation) (source id : String),
      ¬ (self.opt.width = none ∨ self.opt.width = some 0) →
      self.opt.source = some source → self.opt.citation_id = some id → id ≠ "" →
      source ∈ ["MED", "PMC", "PAT", "ETH", "HIR", "CTX", "CBA", "AGR", "DOI"] →
      ajaxUrls (Citation.loadCitation self) =
        [self._proxyUrl ++ (self.opt.restEpmcUrl ++ "query="
          ++ Citation.loadCitation.filter source id ++ "&resultType=core&format=json")]) ∧
    (∀ (self : CitationList) (query : String),
      ¬ (self.opt.width = none ∨ self.opt.width = some 0) →
      self.opt.query = some query → query ≠ "" →
      ajaxUrls (CitationList.loadResults self) =
        [self._proxyUrl ++ (self.opt.restEpmcUrl ++ "query=" ++ encodeURIComponent query
          ++ "&resultType=core&format=json&page=1")]) := by
  constructor
  · intro self source id hw hs hid hid0 hsrc
    have hw' : jsMissingNum self.opt.width = false := by
      cases h : jsMissingNum self.opt.width
      · rfl
      · exact absurd ((jsMissingNum_eq_true _).1 h) hw
    have hs0 : source ≠ "" := by
      intro h
      subst h
      revert hsrc
      decide
    exact Citation.loadCitation_request self source id hw' hs hs0 hid hid0
      (Citation.filter_ne_empty source id hsrc)
  · intro self query hw hq hq0
    have hw' : jsMissingNum self.opt.width = false := by
      cases h : jsMissingNum self.opt.width
      · rfl
      · exact absurd ((jsMissingNum_eq_true _).1 h) hw
    exact CitationList.loadResults_request self query hw' hq hq0

/-- C16, amended, for the PMC citation 456 and for the query p53. -/
theorem request_url_witness :
    ajaxUrls (Citation.loadCitation samplePmcCitation) =
      [samplePmcCitation._proxyUrl ++ (samplePmcCitation.opt.restEpmcUrl ++ "query="
        ++ Citation.loadCitation.filter "PMC" "456" ++ "&resultType=core&format=json")] ∧
    ajaxUrls (CitationList.loadResults sampleFullCitationList) =
      [sampleFullCitationList._proxyUrl ++ (sampleFullCitationList.opt.restEpmcUrl ++ "query="
        ++ encodeURIComponent "p53" ++ "&resultType=core&format=json&page=1")] :=
  ⟨request_url.1 samplePmcCitation "PMC" "456" (by decide) rfl rfl (by decide) (by decide),
   request_url.2 sampleFullCitationList "p53" (by decide) rfl (by decide)⟩

/-! ## Record text in the links -/

theorem authorLink_eq_searchLink (name : String) :
    authorLink name = searchLink ("AUTH:&quot;" ++ name ++ "&quot;") name := rfl

/-- C17, as stated, fails: for an author named `a"b` the authors field is the link
`<a ... href="...query=AUTH:&quot;a"b&quot;&page=1">a"b</a>`, with the double quote of the name
unescaped inside the `href` attribute and in the text; it is not the link of the escaped name. -/
theorem links_not_escaped_counterexample :
    Citation.getAuthorsElement sampleFullCitation sampleEnv sampleQuoteRecord "12px" 0 "monospace"
      = some ("<a class=\"epmc_citation_link\" href=\"http://europepmc.org/search?query=AUTH:&quot;a\"b&quot;&page=1\">a\"b</a>",
          "a\"b") ∧
    htmlEscape "a\"b" = "a&quot;b" ∧
    Citation.getAuthorsElement sampleFullCitation sampleEnv sampleQuoteRecord "12px" 0 "monospace"
      ≠ some (authorLink (htmlEscape "a\"b"), "a\"b") := by
  refine ⟨by rfl, by rfl, by decide⟩

/-- C17, amended: record text goes into the generated links unchanged, without HTML escaping.
The link of an author, of a journal abbreviation and of a publisher is the fixed markup with
the text inserted as it is, once between two literal `&quot;` in the `href` and once as the
text of the link, and the title anchor holds the title as it is. -/
theorem links_not_escaped :
    (∀ name : String, authorLink name
      = "<a class=\"epmc_citation_link\" href=\"http://europepmc.org/search?query="
        ++ ("AUTH:&quot;" ++ name ++ "&quot;") ++ "&page=1\">" ++ name ++ "</a>") ∧
    (∀ (self : Citation) (env : Env) (r : ResultElement) (authors : List Author) (a : Author)
      (fontSize fontfamily : String) (n : Int),
      self.opt.displayStyle = "FULL_STYLE" → r.authorList = some authors → a ∈ authors →
      a.isLinked = true →
      ∃ authorsHtml label before after : String,
        Citation.getAuthorsElement self env r fontSize n fontfamily = some (authorsHtml, label) ∧
        authorsHtml
          = before ++ authorLink (Citation.getAuthorsElement.authorName a).toStr ++ after) ∧
    (∀ (r : ResultElement) (info : JournalInfo) (j : Journal) (a : String),
      r.journalInfo = some info → info.journal = some j →
      j.medlineAbbreviation = JSVal.str a → a ≠ "" →
      ∃ after : String, Citation.getJournalElement r
        = "<a class=\"epmc_citation_link\" href=\"http://europepmc.org/search?query="
          ++ ("JOURNAL:&quot;" ++ a ++ "&quot;") ++ "&page=1\">" ++ a ++ "</a>" ++ after) ∧
    (∀ (r : ResultElement) (book : BookOrReportDetails) (p : String),
      r.journalInfo = none → r.bookOrReportDetails = some book →
      book.publisher = JSVal.str p →
      ∃ after : String, Citation.getJournalElement r
        = "<a class=\"epmc_citation_link\" href=\"http://europepmc.org/search?query="
          ++ ("PUBLISHER:&quot;" ++ p ++ "&quot;") ++ "&page=1\">" ++ p ++ "</a>" ++ after) ∧
    (∀ (self : Citation) (env : Env) (resp : Response) (r : ResultElement)
      (rest : List ResultElement) (authors : List Author) (t : String),
      resp.result = r :: rest → self.opt.displayStyle = "FULL_STYLE" →
      (self.opt.elementOrder = "TITLE_FIRST" ∨ self.opt.elementOrder = "AUTHORS_FIRST") →
      r.authorList = some authors → r.title = JSVal.str t →
      ∃ s, Citation.buildPanel self env resp = some s ∧
        s.panel.title = "<a class=\"epmc_citation_link\" href=\"" ++ Citation.getAbstractUrl r
          ++ "\">" ++ t ++ "</a>") := by
  refine ⟨fun _ => rfl, ?_, ?_, ?_, ?_⟩
  · intro self env r authors a fontSize fontfamily n hF hA hMem hN
    obtain ⟨before, after, hba⟩ := fullStyleAuthors_link a hN authors 0 hMem
    exact ⟨_, _, before, after,
      Citation.getAuthorsElement_full self env r fontSize n fontfamily authors hF hA, hba⟩
  · intro r info j a hI hJ hA ha
    refine ⟨Citation.getJournalElement.details info.yearOfPublication info.issue info.volume
      r.pageInfo, ?_⟩
    simp only [Citation.getJournalElement, hI, hJ, hA, JSVal.neEmpty, ne_eq, ha,
      not_false_eq_true, decide_True, if_true, JSVal.toStr]
  · intro r book p hI hB hP
    refine ⟨if book.yearOfPublication.neNull then "[" ++ book.yearOfPublication.toStr ++ "]"
      else "", ?_⟩
    simp only [Citation.getJournalElement, hI, hB, hP, JSVal.neEmpty, JSVal.neNull, ne_eq,
      not_true_eq_false, decide_False, Bool.false_eq_true, if_false, if_true, JSVal.toStr]
    split_ifs
    · simp only [String.append_assoc]
    · simp only [String.append_empty_right]
  · intro self env resp r rest authors t hr hF hO hA ht
    obtain ⟨s, hs, hT, _⟩ := Citation.record_full
      { self with _innerWidth := self.opt.width.getD 0 + 17 } env r authors hF hO hA
    refine ⟨s, ?_, ?_⟩
    · simp only [Citation.buildPanel, hr]
      exact hs
    · rw [hT, ht]
      rfl

/-- C17, amended, for a journal named `A&B`: the ampersand goes into the link as it is. -/
theorem links_not_escaped_witness :
    ∃ after : String,
      Citation.getJournalElement
        { sampleRecord with
          journalInfo := some
            { journal := some { medlineAbbreviation := JSVal.str "A&B" },
              yearOfPublication := JSVal.undefined, issue := JSVal.undefined,
              volume := JSVal.undefined } }
        = "<a class=\"epmc_citation_link\" href=\"http://europepmc.org/search?query="
          ++ ("JOURNAL:&quot;" ++ "A&B" ++ "&quot;") ++ "&page=1\">" ++ "A&B" ++ "</a>" ++ after :=
  links_not_escaped.2.2.1 _ _ _ "A&B" rfl rfl rfl (by decide)

/-! ## The abstract -/

theorem Citation.compactCheck_panel (self : Citation) (s : RenderState) :
    (Citation.buildPanel.compactCheck self s).panel = s.panel := by
  unfold Citation.buildPanel.compactCheck
  split_ifs <;> rfl

theorem Citation.titleInfo_abstract (self : Citation) (env : Env) (r : ResultElement)
    (s s' : RenderState) (h : Citation.buildPanel.titleInfo self env r s = some s') :
    s'.panel.abstract = s.panel.abstract := by
  unfold Citation.buildPanel.titleInfo at h
  split_ifs at h
  · cases hl : Citation.getLabelTitle self env r env.titleFontSize s.numCurrentRows
        env.titleFontFamily with
    | none => simp [hl] at h
    | some l =>
      simp only [hl, Option.some.injEq] at h
      subst h
      rfl
  · simp only [Option.some.injEq] at h
    subst h
    rfl

theorem Citation.authorInfo_abstract (self : Citation) (env : Env) (r : ResultElement)
    (s s' : RenderState) (h : Citation.buildPanel.authorInfo self env r s = some s') :
    s'.panel.abstract = s.panel.abstract := by
  unfold Citation.buildPanel.authorInfo at h
  split_ifs at h
  · cases hl : Citation.getAuthorsElement self env r env.authorsFontSize s.numCurrentRows
        env.authorsFontFamily with
    | none => simp [hl] at h
    | some l =>
      simp only [hl, Option.some.injEq] at h
      subst h
      rfl
  · simp only [Option.some.injEq] at h
    subst h
    rfl

theorem Citation.journalInfo_abstract (r : ResultElement) (s : RenderState) :
    (Citation.buildPanel.journalInfo r s).panel.abstract = s.panel.abstract := by
  unfold Citation.buildPanel.journalInfo
  split_ifs <;> rfl

theorem Citation.sourceInfo_abstract (r : ResultElement) (s : RenderState) :
    (Citation.buildPanel.sourceInfo r s).panel.abstract = s.panel.abstract := by
  unfold Citation.buildPanel.sourceInfo
  split_ifs <;> rfl

theorem Citation.authorsFirst_abstract (self : Citation) (env : Env) (r : ResultElement)
    (s s' : RenderState) (h : Citation.buildPanel.authorsFirst self env r s = some s') :
    s'.panel.abstract = s.panel.abstract := by
  unfold Citation.buildPanel.authorsFirst Citation.buildPanel.authorsFirstHead at h
  simp only [Option.bind_eq_some, Option.some.injEq] at h
  obtain ⟨s2, ⟨s1, h1, h2⟩, h3⟩ := h
  subst h3
  rw [Citation.journalInfo_abstract, Citation.compactCheck_panel, Citation.sourceInfo_abstract,
    Citation.compactCheck_panel, Citation.titleInfo_abstract self env r _ s2 h2,
    Citation.compactCheck_panel, Citation.authorInfo_abstract self env r s s1 h1]

theorem Citation.titleFirst_abstract (self : Citation) (env : Env) (r : ResultElement)
    (s s' : RenderState) (h : Citation.buildPanel.titleFirst self env r s = some s') :
    s'.panel.abstract = s.panel.abstract := by
  unfold Citation.buildPanel.titleFirst Citation.buildPanel.titleFirstHead at h
  simp only [Option.bind_eq_some, Option.some.injEq] at h
  obtain ⟨s2, ⟨s1, h1, h2⟩, h3⟩ := h
  subst h3
  rw [Citation.sourceInfo_abstract, Citation.compactCheck_panel, Citation.journalInfo_abstract,
    Citation.compactCheck_panel, Citation.authorInfo_abstract self env r _ s2 h2,
    Citation.compactCheck_panel, Citation.titleInfo_abstract self env r s s1 h1]

theorem Citation.record_abstract (self : Citation) (env : Env) (r : ResultElement)
    (s : RenderState) (h : Citation.buildPanel.record self env r = some s) :
    s.panel.abstract =
      if r.abstractText.neNull && self.opt.showAbstract
          && decide (self.opt.displayStyle ≠ Citation.TITLE_ONLY_STYLE) then
        "<div class=\"epmc_Citation_abstract_text\">" ++ r.abstractText.toStr ++ "</div>"
      else "" := by
  unfold Citation.buildPanel.record at h
  simp only [Option.bind_eq_some, Option.some.injEq] at h
  obtain ⟨s1, h1, h2⟩ := h
  have hE : s1.panel.abstract = "" := by
    split_ifs at h1
    · simp only [Option.some.injEq] at h1
      subst h1
      rfl
    · exact Citation.authorsFirst_abstract self env r _ s1 h1
    · exact Citation.titleFirst_abstract self env r _ s1 h1
    · simp only [Option.some.injEq] at h1
      subst h1
      rfl
  subst h2
  unfold Citation.buildPanel.abstractInfo
  split_ifs
  · rfl
  · exact hE

/-- C18 (amended): whenever `Citation.buildPanel` completes, for every record and option, the
abstract container holds the whole `abstractText` (in its `div`) if and only if `showAbstract`
is on, the style is not `TITLE_ONLY_STYLE` and `abstractText` is not null; otherwise it stays
empty.  Neither the row budget nor the rows the other fields used enter the condition, so this
is so in the compact style too.  `buildPanel` completes on every record with a title string and
an author list. -/
theorem abstract_field (self : Citation) (env : Env) (resp : Response) (r : ResultElement)
    (rest : List ResultElement) (hr : resp.result = r :: rest) :
    (∀ s, Citation.buildPanel self env resp = some s →
      ((self.opt.showAbstract = true ∧ self.opt.displayStyle ≠ "TITLE_ONLY_STYLE"
          ∧ r.abstractText.neNull = true) →
        s.panel.abstract = "<div class=\"epmc_Citation_abstract_text\">"
          ++ r.abstractText.toStr ++ "</div>") ∧
      (¬ (self.opt.showAbstract = true ∧ self.opt.displayStyle ≠ "TITLE_ONLY_STYLE"
          ∧ r.abstractText.neNull = true) → s.panel.abstract = "") ∧
      (s.panel.abstract ≠ "" ↔
        (self.opt.showAbstract = true ∧ self.opt.displayStyle ≠ "TITLE_ONLY_STYLE"
          ∧ r.abstractText.neNull = true))) ∧
    (r.wellFormed = true → ∃ s, Citation.buildPanel self env resp = some s) := by
  have hb : Citation.buildPanel self env resp
      = Citation.buildPanel.record { self with _innerWidth := self.opt.width.getD 0 + 17 }
          env r := by
    simp only [Citation.buildPanel, hr]
  refine ⟨?_, ?_⟩
  · intro s hs
    rw [hb] at hs
    have hab := Citation.record_abstract _ env r s hs
    have hyes : (self.opt.showAbstract = true ∧ self.opt.displayStyle ≠ "TITLE_ONLY_STYLE"
        ∧ r.abstractText.neNull = true) →
        s.panel.abstract = "<div class=\"epmc_Citation_abstract_text\">"
          ++ r.abstractText.toStr ++ "</div>" := by
      rintro ⟨h1, h2, h3⟩
      rw [hab]
      simp [h1, h2, h3, Citation.TITLE_ONLY_STYLE]
    have hno : ¬ (self.opt.showAbstract = true ∧ self.opt.displayStyle ≠ "TITLE_ONLY_STYLE"
        ∧ r.abstractText.neNull = true) → s.panel.abstract = "" := by
      intro hn
      rw [hab]
      split_ifs with hc
      · exfalso
        apply hn
        simp only [Bool.and_eq_true, decide_eq_true_eq] at hc
        exact ⟨hc.1.2, hc.2, hc.1.1⟩
      · rfl
    refine ⟨hyes, hno, ?_⟩
    constructor
    · intro hne
      by_contra hn
      exact hne (hno hn)
    · intro hc
      rw [hyes hc, String.append_assoc]
      exact String.append_left_ne_empty _ _ (by decide)
  · intro hwf
    obtain ⟨s, hs⟩ := Citation.record_of_wellFormed
      { self with _innerWidth := self.opt.width.getD 0 + 17 } env r hwf
    exact ⟨s, by rw [hb]; exact hs⟩

/-- C18 (amended) on the sample record in the compact style with a budget of one row, which the
authors alone exceed: the abstract is displayed all the same. -/
theorem abstract_field_witness :
    ∃ s, Citation.buildPanel sampleCompactCitation sampleEnv sampleResponse = some s ∧
      s.panel.abstract = "<div class=\"epmc_Citation_abstract_text\">"
        ++ sampleRecord.abstractText.toStr ++ "</div>" := by
  obtain ⟨s, hs⟩ :=
    (abstract_field sampleCompactCitation sampleEnv sampleResponse sampleRecord [] rfl).2
      (by decide)
  exact ⟨s, hs,
    ((abstract_field sampleCompactCitation sampleEnv sampleResponse sampleRecord [] rfl).1
      s hs).1 ⟨rfl, by decide, rfl⟩⟩

/-! ## The link to all results -/

/-- C19 (amended): for every response and every `numberResults` in force, the panel that
`CitationList.buildPanel` completes ends with the link `See All Results...`, pointing to the
Europe PMC search for the query, if and only if `hitCount > numberResults`; and `buildPanel`
completes on every response whose records carry a title string and an author list. -/
theorem see_all_results (self : CitationList) (env : Env) (resp : Response) :
    (∀ p, CitationList.buildPanel self env resp = some p →
      (resp.hitCount > self.opt.numberResults →
        p.seeAllResults = some
          ("<div class=\"epmc_more_resuts\"><a class=\"epmc_citation_link\" href=\"http://europepmc.org/search?query="
            ++ jsOptStr self.opt.query ++ "&page=1\">See All Results...</a></div>")) ∧
      (¬ resp.hitCount > self.opt.numberResults → p.seeAllResults = none) ∧
      (p.seeAllResults.isSome = true ↔ resp.hitCount > self.opt.numberResults)) ∧
    (resp.allWellFormed = true → ∃ p, CitationList.buildPanel self env resp = some p) := by
  refine ⟨?_, CitationList.buildPanel_of_allWellFormed self env resp⟩
  intro p hp
  unfold CitationList.buildPanel at hp
  simp only at hp
  cases hl : CitationList.buildPanel.loop { self with _innerWidth := self.opt.width.getD 0 + 17 }
      env (resp.result.take (CitationList.buildPanel.numCitations self resp).toNat) 0 "" with
  | none => simp [hl] at hp
  | some ps =>
    simp only [hl, Option.some.injEq] at hp
    subst hp
    by_cases h : resp.hitCount > self.opt.numberResults
    · simp [h]
    · simp [h]

/-- C19 (amended) on a response that reports 100 hits to a list showing at most 25: the link is
there. -/
theorem see_all_results_witness :
    ∃ p, CitationList.buildPanel sampleFullCitationList sampleEnv sampleManyHitsResponse = some p ∧
      p.seeAllResults.isSome = true := by
  obtain ⟨p, hp⟩ := (see_all_results sampleFullCitationList sampleEnv sampleManyHitsResponse).2
    (by decide)
  exact ⟨p, hp,
    ((see_all_results sampleFullCitationList sampleEnv sampleManyHitsResponse).1 p hp).2.2.2
      (by decide)⟩

/-! ## The rows a field adds -/

theorem Citation.record_full_rows (self : Citation) (env : Env) (r : ResultElement)
    (authors : List Author) (hF : self.opt.displayStyle = "FULL_STYLE")
    (hO : self.opt.elementOrder = "TITLE_FIRST" ∨ self.opt.elementOrder = "AUTHORS_FIRST")
    (hA : r.authorList = some authors) :
    ∃ s, Citation.buildPanel.record self env r = some s ∧
      s.numCurrentRows =
        ceilDiv (env.textWidth env.titleFontFamily env.titleFontSize r.title.toStr)
          self._innerWidth
        + ceilDiv (env.textWidth env.authorsFontFamily env.authorsFontSize
            (fullStyleLabel authors 0)) self._innerWidth
        + 1 + 1 := by
  have hT : ¬ (self.opt.displayStyle = Citation.TITLE_ONLY_STYLE) := by rw [hF]; decide
  unfold Citation.buildPanel.record
  simp only [if_neg hT]
  rcases hO with hO | hO
  · have hAF : ¬ (self.opt.elementOrder = Citation.AUTHORS_FIRST) := by rw [hO]; decide
    have hTF : self.opt.elementOrder = Citation.TITLE_FIRST := hO
    simp only [if_neg hAF, if_pos hTF, Citation.buildPanel.titleFirst,
      Citation.buildPanel.titleFirstHead, Citation.buildPanel.titleInfo,
      Citation.buildPanel.authorInfo, Citation.buildPanel.journalInfo,
      Citation.buildPanel.sourceInfo, Citation.compactCheck_full self _ hF,
      Citation.getLabelTitle_full self env r _ _ _ hF,
      Citation.getAuthorsElement_full self env r _ _ _ authors hF hA,
      Option.some_bind, if_true]
    refine ⟨_, rfl, ?_⟩
    rw [Citation.abstractInfo_rows]
    simp only [zero_add]
  · have hAF : self.opt.elementOrder = Citation.AUTHORS_FIRST := hO
    simp only [if_pos hAF, Citation.buildPanel.authorsFirst,
      Citation.buildPanel.authorsFirstHead, Citation.buildPanel.titleInfo,
      Citation.buildPanel.authorInfo, Citation.buildPanel.journalInfo,
      Citation.buildPanel.sourceInfo, Citation.compactCheck_full self _ hF,
      Citation.getLabelTitle_full self env r _ _ _ hF,
      Citation.getAuthorsElement_full self env r _ _ _ authors hF hA,
      Option.some_bind, if_true]
    refine ⟨_, rfl, ?_⟩
    rw [Citation.abstractInfo_rows]
    simp only [zero_add]
    ring

/-- C20, as stated, fails for the source field: for the sample record it is the text
`PMID:123 PMCID:PMC456`, which at 10 pixels a character measures 210 pixels, two rows of a
container of width 100 (117 with the margin), yet the field adds one row. -/
theorem rows_added_counterexample :
    (Citation.buildPanel.sourceInfo sampleRecord RenderState.initial).panel.source
      = "PMID:123 PMCID:PMC456" ∧
    (Citation.buildPanel.sourceInfo sampleRecord RenderState.initial).numCurrentRows
      = RenderState.initial.numCurrentRows + 1 ∧
    ceilDiv (sampleEnv.textWidth "monospace" "12px" "PMID:123 PMCID:PMC456") (100 + 17) = 2 ∧
    (Citation.buildPanel.sourceInfo sampleRecord RenderState.initial).numCurrentRows
      ≠ RenderState.initial.numCurrentRows
        + ceilDiv (sampleEnv.textWidth "monospace" "12px"
            (Citation.buildPanel.sourceInfo sampleRecord RenderState.initial).panel.source)
          (100 + 17) := by
  refine ⟨by rfl, by rfl, by rfl, by decide⟩

/-- C20, amended: a title or authors field that is produced adds
`ceil(width(label) / (containerWidth + 17))` rows, where `label` is the title text as emitted,
respectively the plain text of the authors as emitted (`_tempLabel`), measured in the font of
its container; a journal or source field that is produced adds exactly one row, whatever its
text measures.  In the full style the final count is the sum of these four amounts. -/
theorem rows_added (self : Citation) (env : Env) (r : ResultElement) (s : RenderState)
    (hc : s.continueCitation = true) :
    (∀ s', Citation.buildPanel.titleInfo self env r s = some s' →
      ∃ labelTitle : JSVal,
        Citation.getLabelTitle self env r env.titleFontSize s.numCurrentRows env.titleFontFamily
          = some labelTitle ∧
        s'.panel.title = "<a class=\"epmc_citation_link\" href=\"" ++ Citation.getAbstractUrl r
          ++ "\">" ++ labelTitle.toStr ++ "</a>" ∧
        s'.numCurrentRows = s.numCurrentRows
          + ceilDiv (env.textWidth env.titleFontFamily env.titleFontSize labelTitle.toStr)
              self._innerWidth) ∧
    (∀ s', Citation.buildPanel.authorInfo self env r s = some s' →
      Citation.getAuthorsElement self env r env.authorsFontSize s.numCurrentRows
          env.authorsFontFamily = some (s'.panel.authors, s'._tempLabel) ∧
      s'.numCurrentRows = s.numCurrentRows
        + ceilDiv (env.textWidth env.authorsFontFamily env.authorsFontSize s'._tempLabel)
            self._innerWidth) ∧
    ((Citation.buildPanel.journalInfo r s).panel.journal = Citation.getJournalElement r ∧
      (Citation.buildPanel.journalInfo r s).numCurrentRows = s.numCurrentRows + 1) ∧
    ((Citation.buildPanel.sourceInfo r s).panel.source = Citation.getSourceElement r ∧
      (Citation.buildPanel.sourceInfo r s).numCurrentRows = s.numCurrentRows + 1) ∧
    (∀ (resp : Response) (rest : List ResultElement) (authors : List Author) (w : Nat),
      resp.result = r :: rest → self.opt.displayStyle = "FULL_STYLE" →
      (self.opt.elementOrder = "TITLE_FIRST" ∨ self.opt.elementOrder = "AUTHORS_FIRST") →
      r.authorList = some authors → self.opt.width = some w →
      ∃ final, Citation.buildPanel self env resp = some final ∧
        final.numCurrentRows =
          ceilDiv (env.textWidth env.titleFontFamily env.titleFontSize r.title.toStr) (w + 17)
          + ceilDiv (env.textWidth env.authorsFontFamily env.authorsFontSize
              (fullStyleLabel authors 0)) (w + 17)
          + 1 + 1) := by
  refine ⟨?_, ?_, ?_, ?_, ?_⟩
  · intro s' h
    unfold Citation.buildPanel.titleInfo at h
    simp only [hc, if_true] at h
    cases hl : Citation.getLabelTitle self env r env.titleFontSize s.numCurrentRows
        env.titleFontFamily with
    | none => simp [hl] at h
    | some l =>
      simp only [hl, Option.some.injEq] at h
      subst h
      exact ⟨l, rfl, rfl, rfl⟩
  · intro s' h
    unfold Citation.buildPanel.authorInfo at h
    simp only [hc, if_true] at h
    cases hl : Citation.getAuthorsElement self env r env.authorsFontSize s.numCurrentRows
        env.authorsFontFamily with
    | none => simp [hl] at h
    | some l =>
      simp only [hl, Option.some.injEq] at h
      subst h
      exact ⟨rfl, rfl⟩
  · simp only [Citation.buildPanel.journalInfo, hc, if_true, and_self]
  · simp only [Citation.buildPanel.sourceInfo, hc, if_true, and_self]
  · intro resp rest authors w hr hF hO hA hw
    obtain ⟨final, hfin, hrows⟩ := Citation.record_full_rows
      { self with _innerWidth := self.opt.width.getD 0 + 17 } env r authors hF hO hA
    refine ⟨final, ?_, ?_⟩
    · simp only [Citation.buildPanel, hr]
      exact hfin
    · rw [hrows]
      simp only [hw, Option.getD_some]

/-- C20, amended, on the sample record in a container of width 100, full style: the title
adds 1 row, the authors 2, journal and source one each. -/
theorem rows_added_witness :
    ∃ final, Citation.buildPanel sampleNarrowCitation sampleEnv sampleResponse = some final ∧
      final.numCurrentRows = 1 + 2 + 1 + 1 := by
  obtain ⟨final, hfin, hrows⟩ :=
    (rows_added sampleNarrowCitation sampleEnv sampleRecord RenderState.initial rfl).2.2.2.2
      sampleResponse []
      [{ fullName := JSVal.str "Aaaaaaaaaa", lastName := JSVal.str "Aaaaaaaaaa",
         collectiveName := JSVal.undefined },
       { fullName := JSVal.str "Bbbbbbbbbb", lastName := JSVal.str "Bbbbbbbbbb",
         collectiveName := JSVal.undefined }] 100 rfl rfl (Or.inl rfl) rfl rfl
  refine ⟨final, hfin, ?_⟩
  rw [hrows]
  rfl

/-! ## Strings in UTF-16 code units -/

theorem Char.toNat_ofNat_of_valid (n : Nat) (h : n.isValidChar) : (Char.ofNat n).toNat = n := by
  unfold Char.ofNat
  rw [dif_pos h]
  unfold Char.ofNatAux Char.toNat
  have hlt : n < UInt32.size := by
    rcases h with h | ⟨-, h⟩ <;> simp [UInt32.size] <;> omega
  simp [UInt32.toNat, Nat.mod_eq_of_lt hlt]

theorem Char.toNat_valid (c : Char) : c.toNat < 55296 ∨ 57343 < c.toNat ∧ c.toNat < 1114112 :=
  c.valid

theorem utf16Char_lt (c : Char) (u : Nat) (h : u ∈ utf16Char c) : u < 65536 := by
  unfold utf16Char at h
  have hv := Char.toNat_valid c
  split_ifs at h with hc
  · simp only [List.mem_singleton] at h
    omega
  · simp only [List.mem_cons, List.mem_singleton, List.not_mem_nil, or_false] at h
    rcases h with h | h <;> omega

theorem utf16Char_length_pos (c : Char) : 0 < (utf16Char c).length := by
  unfold utf16Char
  split_ifs <;> simp

theorem utf16Units_lt (s : String) (u : Nat) (h : u ∈ utf16Units s) : u < 65536 := by
  unfold utf16Units at h
  rw [List.mem_flatMap] at h
  obtain ⟨c, -, hc⟩ := h
  exact utf16Char_lt c u hc

theorem utf16Units_append (a b : String) : utf16Units (a ++ b) = utf16Units a ++ utf16Units b := by
  unfold utf16Units
  rw [String.data_append, List.flatMap_append]

theorem jsLength_append (a b : String) : jsLength (a ++ b) = jsLength a + jsLength b := by
  unfold jsLength
  rw [utf16Units_append, List.length_append]

theorem jsLength_pos (t : String) (h : t ≠ "") : 0 < jsLength t := by
  rcases t with ⟨l⟩
  cases l with
  | nil => exact absurd rfl h
  | cons c rest =>
    unfold jsLength utf16Units
    simp only [List.flatMap_cons, List.length_append]
    have := utf16Char_length_pos c
    omega

theorem utf16Char_ofNat_unit (u : Nat) (hu : u < 65536) (hs : ¬ (55296 ≤ u ∧ u < 57344)) :
    (utf16Char (Char.ofNat u)).length = 1 := by
  have hv : u.isValidChar := by
    unfold Nat.isValidChar
    omega
  unfold utf16Char
  rw [Char.toNat_ofNat_of_valid u hv, if_pos hu]
  rfl

theorem utf16Char_ofNat_pair (u v : Nat)
    (h : 55296 ≤ u ∧ u < 56320 ∧ 56320 ≤ v ∧ v < 57344) :
    (utf16Char (Char.ofNat (65536 + (u - 55296) * 1024 + (v - 56320)))).length = 2 := by
  have hv : (65536 + (u - 55296) * 1024 + (v - 56320)).isValidChar := by
    unfold Nat.isValidChar
    omega
  unfold utf16Char
  rw [Char.toNat_ofNat_of_valid _ hv, if_neg (by omega)]
  rfl

theorem utf16Text_units_length : ∀ (us : List Nat), (∀ u ∈ us, u < 65536) →
    ((utf16Text us).flatMap utf16Char).length = us.length
  | [], _ => rfl
  | [u], h => by
    have hu := h u (List.mem_singleton_self u)
    unfold utf16Text
    split_ifs with hs
    · rfl
    · simp only [List.flatMap_cons, List.flatMap_nil, List.append_nil, List.length_singleton]
      exact utf16Char_ofNat_unit u hu hs
  | u :: v :: rest, h => by
    have hu := h u (List.mem_cons_self _ _)
    have hrest : ∀ w ∈ rest, w < 65536 :=
      fun w hw => h w (List.mem_cons_of_mem _ (List.mem_cons_of_mem _ hw))
    have hvrest : ∀ w ∈ v :: rest, w < 65536 := fun w hw => h w (List.mem_cons_of_mem _ hw)
    unfold utf16Text
    split_ifs with hp hs
    · simp only [List.flatMap_cons, List.length_append, List.length_cons]
      rw [utf16Char_ofNat_pair u v hp, utf16Text_units_length rest hrest]
      omega
    · simp only [List.flatMap_cons, List.length_append, List.length_cons]
      rw [utf16Text_units_length (v :: rest) hvrest]
      have : (utf16Char (Char.ofNat 65533)).length = 1 := by decide
      rw [this, List.length_cons]
      omega
    · simp only [List.flatMap_cons, List.length_append, List.length_cons]
      rw [utf16Char_ofNat_unit u hu hs, utf16Text_units_length (v :: rest) hvrest,
        List.length_cons]
      omega

theorem jsLength_utf16Text (us : List Nat) (h : ∀ u ∈ us, u < 65536) :
    jsLength (String.mk (utf16Text us)) = us.length :=
  utf16Text_units_length us h

theorem utf16Text_cons_unit (c : Char) (hc : c.toNat < 65536) (us : List Nat) :
    utf16Text (c.toNat :: us) = c :: utf16Text us := by
  have hv := Char.toNat_valid c
  have hs : ¬ (55296 ≤ c.toNat ∧ c.toNat < 57344) := by omega
  cases us with
  | nil =>
    simp only [utf16Text, if_neg hs, Char.ofNat_toNat]
  | cons v rest =>
    have hp : ¬ (55296 ≤ c.toNat ∧ c.toNat < 56320 ∧ 56320 ≤ v ∧ v < 57344) := by omega
    simp only [utf16Text, if_neg hp, if_neg hs, Char.ofNat_toNat]

theorem utf16Text_cons_pair (c : Char) (hc : ¬ c.toNat < 65536) (us : List Nat) :
    utf16Text ((55296 + (c.toNat - 65536) / 1024) :: (56320 + (c.toNat - 65536) % 1024) :: us)
      = c :: utf16Text us := by
  have hv := Char.toNat_valid c
  have hd := Nat.div_add_mod (c.toNat - 65536) 1024
  have hm := Nat.mod_lt (c.toNat - 65536) (by decide : 0 < 1024)
  have hq : (c.toNat - 65536) / 1024 < 1024 := by
    apply Nat.div_lt_of_lt_mul
    omega
  have hp : 55296 ≤ 55296 + (c.toNat - 65536) / 1024 ∧ 55296 + (c.toNat - 65536) / 1024 < 56320
      ∧ 56320 ≤ 56320 + (c.toNat - 65536) % 1024 ∧ 56320 + (c.toNat - 65536) % 1024 < 57344 := by
    omega
  have e : 65536 + (55296 + (c.toNat - 65536) / 1024 - 55296) * 1024
      + (56320 + (c.toNat - 65536) % 1024 - 56320) = c.toNat := by omega
  simp only [utf16Text, if_pos hp, e, Char.ofNat_toNat]

/-- The characters of the code units of a string are the characters of the string. -/
theorem utf16Text_utf16Units : ∀ (l : List Char), utf16Text (l.flatMap utf16Char) = l
  | [] => rfl
  | c :: rest => by
    rw [List.flatMap_cons]
    by_cases hc : c.toNat < 65536
    · have e : utf16Char c = [c.toNat] := by
        unfold utf16Char
        rw [if_pos hc]
      rw [e, List.singleton_append, utf16Text_cons_unit c hc, utf16Text_utf16Units rest]
    · have e : utf16Char c
          = [55296 + (c.toNat - 65536) / 1024, 56320 + (c.toNat - 65536) % 1024] := by
        unfold utf16Char
        rw [if_neg hc]
      rw [e, List.cons_append, List.singleton_append, utf16Text_cons_pair c hc,
        utf16Text_utf16Units rest]

theorem utf16Units_of_bmp (l : List Char) (h : ∀ c ∈ l, c.toNat < 65536) :
    l.flatMap utf16Char = l.map Char.toNat := by
  induction l with
  | nil => rfl
  | cons c rest ih =>
    rw [List.flatMap_cons, List.map_cons, ih (fun d hd => h d (List.mem_cons_of_mem _ hd))]
    unfold utf16Char
    rw [if_pos (h c (List.mem_cons_self _ _))]
    rfl

/-- Within the Basic Multilingual Plane the code units are the characters: the first `k` units
of a string are its first `k` characters. -/
theorem utf16Text_take_of_bmp (l : List Char) (h : ∀ c ∈ l, c.toNat < 65536) (k : Nat) :
    utf16Text ((l.flatMap utf16Char).take k) = l.take k := by
  have htake : ∀ c ∈ l.take k, c.toNat < 65536 := fun c hc => h c (List.mem_of_mem_take hc)
  rw [utf16Units_of_bmp l h, ← List.map_take, ← utf16Units_of_bmp (l.take k) htake,
    utf16Text_utf16Units]

theorem jsLength_of_bmp (t : String) (h : ∀ c ∈ t.data, c.toNat < 65536) :
    jsLength t = t.length := by
  unfold jsLength utf16Units
  rw [utf16Units_of_bmp t.data h, List.length_map]
  rfl

/-! ## Shortening a title -/

theorem ceilDiv_eq_ceil (a b : Nat) (hb : 0 < b) : ceilDiv a b = ⌈(a : ℚ) / (b : ℚ)⌉ := by
  symm
  rw [Int.ceil_eq_iff]
  unfold ceilDiv
  have hbq : (0 : ℚ) < (b : ℚ) := by exact_mod_cast hb
  have h1 : b * ((a + b - 1) / b) ≤ a + b - 1 := Nat.mul_div_le _ _
  have h2 : a + b - 1 < b * ((a + b - 1) / b) + b := by
    have := Nat.lt_div_mul_add (a := a + b - 1) hb
    rw [Nat.mul_comm]
    exact this
  set q := (a + b - 1) / b with hq
  set m := b * q with hm
  have h3 : m < a + b := by omega
  have h4 : a ≤ m := by omega
  have hmq : ((m : ℕ) : ℚ) = (b : ℚ) * (q : ℚ) := by rw [hm]; push_cast; ring
  constructor
  · rw [lt_div_iff₀ hbq]
    push_cast
    have : ((m : ℕ) : ℚ) < (a : ℚ) + (b : ℚ) := by exact_mod_cast h3
    nlinarith
  · rw [div_le_iff₀ hbq]
    push_cast
    have : (a : ℚ) ≤ ((m : ℕ) : ℚ) := by exact_mod_cast h4
    nlinarith

theorem ceilDiv_eq_ceil_width (a w : Nat) :
    ceilDiv a (w + 17) = ⌈(a : ℚ) / ((w : ℚ) + 17)⌉ := by
  rw [ceilDiv_eq_ceil a (w + 17) (by omega)]
  push_cast
  rfl

theorem ceilDiv_nonneg (a b : Nat) : 0 ≤ ceilDiv a b := by
  unfold ceilDiv
  exact Int.natCast_nonneg _

theorem floor_div_ceilDiv (len : Nat) (b : Int) (a iw : Nat) :
    ⌊((len : ℚ) * (b : ℚ)) / ((ceilDiv a iw : ℤ) : ℚ)⌋ = ((len : Int) * b) / ceilDiv a iw := by
  unfold ceilDiv
  have e : ((len : ℚ) * (b : ℚ)) / (((((a + iw - 1) / iw : ℕ) : ℤ)) : ℚ)
      = ((((len : ℤ) * b : ℤ)) : ℚ) / ((((a + iw - 1) / iw : ℕ)) : ℚ) := by
    simp only [Int.cast_mul, Int.cast_natCast]
  rw [e, Rat.floor_intCast_div_natCast]

theorem Citation.getLabelTitle_compact_eq (self : Citation) (env : Env) (r : ResultElement)
    (t fontsize fontfamily : String) (rowsUsed : Int) (ht : r.title = JSVal.str t)
    (hC : self.opt.displayStyle = "COMPACT_STYLE") :
    Citation.getLabelTitle self env r fontsize rowsUsed fontfamily =
      some (JSVal.str
        (if ceilDiv (env.textWidth fontfamily fontsize t) self._innerWidth
            > self.opt.numRowCompact - rowsUsed then
          String.mk (utf16Text ((utf16Units t).take
            (((jsLength t : Int) * (self.opt.numRowCompact - rowsUsed))
              / ceilDiv (env.textWidth fontfamily fontsize t) self._innerWidth - 3).toNat))
            ++ "..."
        else t)) := by
  have hC' : self.opt.displayStyle = Citation.COMPACT_STYLE := hC
  unfold Citation.getLabelTitle
  simp only [ht, if_pos hC', JSVal.toStr, jsSubstring0]
  split_ifs <;> rfl

theorem CitationList.list_getLabelTitle_compact_eq (self : CitationList) (env : Env)
    (r : ResultElement) (t fontsize fontfamily : String) (rowsUsed : Int)
    (ht : r.title = JSVal.str t) (hC : self.opt.displayStyle = some "COMPACT_STYLE") :
    CitationList.getLabelTitle self env r fontsize rowsUsed fontfamily =
      some (JSVal.str
        (if ceilDiv (env.textWidth fontfamily fontsize t) self._innerWidth
            > self.opt.numRowCompact - rowsUsed then
          String.mk (utf16Text ((utf16Units t).take
            (((jsLength t : Int) * (self.opt.numRowCompact - rowsUsed))
              / ceilDiv (env.textWidth fontfamily fontsize t) self._innerWidth - 3).toNat))
            ++ "..."
        else t)) := by
  have hC' : self.opt.displayStyle = some CitationList.COMPACT_STYLE := hC
  unfold CitationList.getLabelTitle
  simp only [ht, if_pos hC', JSVal.toStr, jsSubstring0]
  split_ifs <;> rfl

/-- C21: in the compact style, with a title string `t`, a container of width `w` and any
measurement, budget and rows used, `getLabelTitle` of both widgets returns `t` unchanged when
`ceil(width(t) / (w + 17))` is at most `rowBudget - rowsUsed`, and otherwise the first
`floor(length * (rowBudget - rowsUsed) / estimatedRows) - 3` characters of `t` (none when that
number is not positive) followed by `...`.  Length and characters are those of JavaScript, the
UTF-16 code units of the title; for a title within the Basic Multilingual Plane they are the
characters of the title. -/
theorem getLabelTitle_compact (c : Citation) (l : CitationList) (env : Env) (r : ResultElement)
    (t fontsize fontfamily : String) (rowsUsed : Int) (w : Nat)
    (ht : r.title = JSVal.str t)
    (hc : c.opt.displayStyle = "COMPACT_STYLE") (hcw : c._innerWidth = w + 17)
    (hl : l.opt.displayStyle = some "COMPACT_STYLE") (hlw : l._innerWidth = w + 17) :
    (⌈(env.textWidth fontfamily fontsize t : ℚ) / ((w : ℚ) + 17)⌉
        ≤ c.opt.numRowCompact - rowsUsed →
      Citation.getLabelTitle c env r fontsize rowsUsed fontfamily = some (JSVal.str t)) ∧
    (c.opt.numRowCompact - rowsUsed
        < ⌈(env.textWidth fontfamily fontsize t : ℚ) / ((w : ℚ) + 17)⌉ →
      Citation.getLabelTitle c env r fontsize rowsUsed fontfamily =
        some (JSVal.str (String.mk (utf16Text ((utf16Units t).take
          (⌊((jsLength t : ℚ) * ((c.opt.numRowCompact - rowsUsed : ℤ) : ℚ))
              / ((⌈(env.textWidth fontfamily fontsize t : ℚ) / ((w : ℚ) + 17)⌉ : ℤ) : ℚ)⌋
            - 3).toNat)) ++ "..."))) ∧
    (⌈(env.textWidth fontfamily fontsize t : ℚ) / ((w : ℚ) + 17)⌉
        ≤ l.opt.numRowCompact - rowsUsed →
      CitationList.getLabelTitle l env r fontsize rowsUsed fontfamily = some (JSVal.str t)) ∧
    (l.opt.numRowCompact - rowsUsed
        < ⌈(env.textWidth fontfamily fontsize t : ℚ) / ((w : ℚ) + 17)⌉ →
      CitationList.getLabelTitle l env r fontsize rowsUsed fontfamily =
        some (JSVal.str (String.mk (utf16Text ((utf16Units t).take
          (⌊((jsLength t : ℚ) * ((l.opt.numRowCompact - rowsUsed : ℤ) : ℚ))
              / ((⌈(env.textWidth fontfamily fontsize t : ℚ) / ((w : ℚ) + 17)⌉ : ℤ) : ℚ)⌋
            - 3).toNat)) ++ "..."))) ∧
    ((∀ ch ∈ t.data, ch.toNat < 65536) →
      jsLength t = t.length ∧
      ∀ k : Nat, String.mk (utf16Text ((utf16Units t).take k)) = String.mk (t.data.take k)) := by
  have hC := Citation.getLabelTitle_compact_eq c env r t fontsize fontfamily rowsUsed ht hc
  have hL := CitationList.list_getLabelTitle_compact_eq l env r t fontsize fontfamily rowsUsed ht hl
  rw [hcw] at hC
  rw [hlw] at hL
  rw [← ceilDiv_eq_ceil_width]
  refine ⟨?_, ?_, ?_, ?_, ?_⟩
  · intro h
    rw [hC, if_neg (not_lt.2 h)]
  · intro h
    rw [hC, if_pos h, floor_div_ceilDiv]
  · intro h
    rw [hL, if_neg (not_lt.2 h)]
  · intro h
    rw [hL, if_pos h, floor_div_ceilDiv]
  · intro hb
    refine ⟨jsLength_of_bmp t hb, ?_⟩
    intro k
    unfold utf16Units
    rw [utf16Text_take_of_bmp t.data hb k]

theorem getLabelTitle_compact_witness :
    sampleBetaTitleRecord.title
      = JSVal.str (String.mk (Char.ofNat 120573 :: "-catenin signalling in the mouse".data)) ∧
    sampleSizedCitation.opt.displayStyle = "COMPACT_STYLE" ∧
    sampleSizedCitation._innerWidth = 100 + 17 ∧
    sampleSizedCitationList.opt.displayStyle = some "COMPACT_STYLE" ∧
    sampleSizedCitationList._innerWidth = 100 + 17 ∧
    Citation.getLabelTitle sampleSizedCitation sampleEnv sampleBetaTitleRecord "12px" 0 "Arial"
      = some (JSVal.str (String.mk (Char.ofNat 120573 :: "-caten...".data))) ∧
    CitationList.getLabelTitle sampleSizedCitationList sampleEnv sampleBetaTitleRecord "12px" 0
        "Arial"
      = some (JSVal.str
          (String.mk (Char.ofNat 120573 :: "-catenin signalling in the mouse".data))) := by
  have hT := getLabelTitle_compact sampleSizedCitation sampleSizedCitationList sampleEnv
    sampleBetaTitleRecord
    (String.mk (Char.ofNat 120573 :: "-catenin signalling in the mouse".data))
    "12px" "Arial" 0 100 rfl rfl rfl rfl rfl
  have hw : sampleEnv.textWidth "Arial" "12px"
      (String.mk (Char.ofNat 120573 :: "-catenin signalling in the mouse".data)) = 330 := by
    decide
  have hceil : ⌈((330 : ℕ) : ℚ) / (((100 : ℕ) : ℚ) + 17)⌉ = 3 := by
    rw [Int.ceil_eq_iff]
    norm_num
  have hn : sampleSizedCitation.opt.numRowCompact = 1 := rfl
  have hm : sampleSizedCitationList.opt.numRowCompact = 3 := rfl
  have hlen : jsLength
      (String.mk (Char.ofNat 120573 :: "-catenin signalling in the mouse".data)) = 34 := by
    decide
  rw [hw, hceil, hn, hm, hlen] at hT
  have hfloor : ⌊(((34 : ℕ) : ℚ) * (((1 - 0 : ℤ)) : ℚ)) / (((3 : ℤ)) : ℚ)⌋ = 11 := by
    rw [Int.floor_eq_iff]
    norm_num
  rw [hfloor] at hT
  refine ⟨rfl, rfl, rfl, rfl, rfl, ?_, ?_⟩
  · rw [hT.2.1 (by decide)]
    decide
  · exact hT.2.2.1 (by decide)

/-! ## The shortened title -/

theorem truncation_index_le (len : Nat) (b rows : Int) (hr : 0 ≤ rows) (h : b < rows) :
    (len : Int) * b / rows ≤ len := by
  rcases hr.eq_or_lt with h0 | hpos
  · rw [← h0, Int.ediv_zero]
    exact Int.natCast_nonneg _
  · apply Int.ediv_le_of_le_mul hpos
    exact Int.mul_le_mul_of_nonneg_left h.le (Int.natCast_nonneg _)

theorem truncation_facts (t : String) (b rows : Int) (hr : 0 ≤ rows) (h : b < rows) :
    (utf16Units t).take ((jsLength t : Int) * b / rows - 3).toNat <+: utf16Units t ∧
    (t ≠ "" → (utf16Units t).take ((jsLength t : Int) * b / rows - 3).toNat ≠ utf16Units t) ∧
    (((utf16Units t).take ((jsLength t : Int) * b / rows - 3).toNat).length : Int)
      = max 0 ((jsLength t : Int) * b / rows - 3) ∧
    jsLength (String.mk (utf16Text
        ((utf16Units t).take ((jsLength t : Int) * b / rows - 3).toNat)) ++ "...")
      ≤ max 3 (jsLength t) := by
  have hle := truncation_index_le (jsLength t) b rows hr h
  have hk : ((jsLength t : Int) * b / rows - 3).toNat ≤ jsLength t := by omega
  have hlen : ((utf16Units t).take ((jsLength t : Int) * b / rows - 3).toNat).length
      = ((jsLength t : Int) * b / rows - 3).toNat := by
    rw [List.length_take]
    exact Nat.min_eq_left hk
  refine ⟨ List.take_prefix _ _, ?_, ?_, ?_⟩
  · intro hne heq
    have hpos := jsLength_pos t hne
    have := congrArg List.length heq
    have hl : (utf16Units t).length = jsLength t := rfl
    rw [hlen, hl] at this
    omega
  · rw [hlen]
    omega
  · have hunits : ∀ u ∈ (utf16Units t).take ((jsLength t : Int) * b / rows - 3).toNat,
        u < 65536 := fun u hu => utf16Units_lt t u (List.mem_of_mem_take hu)
    have hdots : jsLength "..." = 3 := by decide
    rw [jsLength_append, jsLength_utf16Text _ hunits, hlen, hdots]
    omega

/-- C27 (amended): whenever `getLabelTitle` of either widget shortens a title in the compact
style, the result is a prefix of the title followed by `...`; the prefix is a proper one whenever
the title is not empty, its length is `max(0, floor(length * (rowBudget - rowsUsed) /
estimatedRows) - 3)`, and the whole result has length at most `max(3, length)`, also when the
remaining budget is zero or negative.  Prefix and lengths are those of JavaScript, in UTF-16
code units; for a title within the Basic Multilingual Plane the units kept are characters of
the title. -/
theorem getLabelTitle_truncation (c : Citation) (l : CitationList) (env : Env)
    (r : ResultElement) (t fontsize fontfamily : String) (rowsUsed : Int) (w : Nat)
    (ht : r.title = JSVal.str t)
    (hc : c.opt.displayStyle = "COMPACT_STYLE") (hcw : c._innerWidth = w + 17)
    (hl : l.opt.displayStyle = some "COMPACT_STYLE") (hlw : l._innerWidth = w + 17) :
    (c.opt.numRowCompact - rowsUsed
        < ⌈(env.textWidth fontfamily fontsize t : ℚ) / ((w : ℚ) + 17)⌉ →
      ∃ kept : List Nat,
        Citation.getLabelTitle c env r fontsize rowsUsed fontfamily
          = some (JSVal.str (String.mk (utf16Text kept) ++ "...")) ∧
        kept <+: utf16Units t ∧ (t ≠ "" → kept ≠ utf16Units t) ∧
        (kept.length : Int)
          = max 0 (⌊((jsLength t : ℚ) * ((c.opt.numRowCompact - rowsUsed : ℤ) : ℚ))
              / ((⌈(env.textWidth fontfamily fontsize t : ℚ) / ((w : ℚ) + 17)⌉ : ℤ) : ℚ)⌋ - 3) ∧
        jsLength (String.mk (utf16Text kept) ++ "...") ≤ max 3 (jsLength t) ∧
        ((∀ ch ∈ t.data, ch.toNat < 65536) → utf16Text kept <+: t.data)) ∧
    (l.opt.numRowCompact - rowsUsed
        < ⌈(env.textWidth fontfamily fontsize t : ℚ) / ((w : ℚ) + 17)⌉ →
      ∃ kept : List Nat,
        CitationList.getLabelTitle l env r fontsize rowsUsed fontfamily
          = some (JSVal.str (String.mk (utf16Text kept) ++ "...")) ∧
        kept <+: utf16Units t ∧ (t ≠ "" → kept ≠ utf16Units t) ∧
        (kept.length : Int)
          = max 0 (⌊((jsLength t : ℚ) * ((l.opt.numRowCompact - rowsUsed : ℤ) : ℚ))
              / ((⌈(env.textWidth fontfamily fontsize t : ℚ) / ((w : ℚ) + 17)⌉ : ℤ) : ℚ)⌋ - 3) ∧
        jsLength (String.mk (utf16Text kept) ++ "...") ≤ max 3 (jsLength t) ∧
        ((∀ ch ∈ t.data, ch.toNat < 65536) → utf16Text kept <+: t.data)) := by
  have hC := Citation.getLabelTitle_compact_eq c env r t fontsize fontfamily rowsUsed ht hc
  have hL := CitationList.list_getLabelTitle_compact_eq l env r t fontsize fontfamily rowsUsed ht hl
  rw [hcw] at hC
  rw [hlw] at hL
  rw [← ceilDiv_eq_ceil_width]
  have hbmp : ∀ k : Nat, (∀ ch ∈ t.data, ch.toNat < 65536) →
      utf16Text ((utf16Units t).take k) <+: t.data := by
    intro k hb
    unfold utf16Units
    rw [utf16Text_take_of_bmp t.data hb k]
    exact List.take_prefix _ _
  constructor
  · intro h
    have hf := truncation_facts t _ _ (ceilDiv_nonneg _ _) h
    refine ⟨_, ?_, hf.1, hf.2.1, ?_, hf.2.2.2, hbmp _⟩
    · rw [hC, if_pos h]
    · rw [floor_div_ceilDiv]
      exact hf.2.2.1
  · intro h
    have hf := truncation_facts t _ _ (ceilDiv_nonneg _ _) h
    refine ⟨_, ?_, hf.1, hf.2.1, ?_, hf.2.2.2, hbmp _⟩
    · rw [hL, if_pos h]
    · rw [floor_div_ceilDiv]
      exact hf.2.2.1

theorem getLabelTitle_truncation_witness :
    sampleBetaTitleRecord.title
      = JSVal.str (String.mk (Char.ofNat 120573 :: "-catenin signalling in the mouse".data)) ∧
    sampleSizedCitation.opt.displayStyle = "COMPACT_STYLE" ∧
    sampleSizedCitation._innerWidth = 100 + 17 ∧
    sampleSizedCitationList.opt.displayStyle = some "COMPACT_STYLE" ∧
    sampleSizedCitationList._innerWidth = 100 + 17 ∧
    ∃ kept : List Nat,
      Citation.getLabelTitle sampleSizedCitation sampleEnv sampleBetaTitleRecord "12px" 0 "Arial"
        = some (JSVal.str (String.mk (utf16Text kept) ++ "...")) ∧
      kept <+: utf16Units
        (String.mk (Char.ofNat 120573 :: "-catenin signalling in the mouse".data)) ∧
      kept ≠ utf16Units
        (String.mk (Char.ofNat 120573 :: "-catenin signalling in the mouse".data)) ∧
      (kept.length : Int) = 8 ∧
      jsLength (String.mk (utf16Text kept) ++ "...")
        ≤ max 3 (jsLength
          (String.mk (Char.ofNat 120573 :: "-catenin signalling in the mouse".data))) := by
  have hT := (getLabelTitle_truncation sampleSizedCitation sampleSizedCitationList sampleEnv
    sampleBetaTitleRecord
    (String.mk (Char.ofNat 120573 :: "-catenin signalling in the mouse".data))
    "12px" "Arial" 0 100 rfl rfl rfl rfl rfl).1
  have hw : sampleEnv.textWidth "Arial" "12px"
      (String.mk (Char.ofNat 120573 :: "-catenin signalling in the mouse".data)) = 330 := by
    decide
  have hceil : ⌈((330 : ℕ) : ℚ) / (((100 : ℕ) : ℚ) + 17)⌉ = 3 := by
    rw [Int.ceil_eq_iff]
    norm_num
  have hn : sampleSizedCitation.opt.numRowCompact = 1 := rfl
  have hlen : jsLength
      (String.mk (Char.ofNat 120573 :: "-catenin signalling in the mouse".data)) = 34 := by
    decide
  have hfloor : ⌊(((34 : ℕ) : ℚ) * (((1 - 0 : ℤ)) : ℚ)) / (((3 : ℤ)) : ℚ)⌋ = 11 := by
    rw [Int.floor_eq_iff]
    norm_num
  rw [hw, hceil, hn] at hT
  obtain ⟨kept, h1, h2, h3, h4, h5, -⟩ := hT (by decide)
  rw [hlen, hfloor] at h4
  exact ⟨rfl, rfl, rfl, rfl, rfl, kept, h1, h2, h3 (by decide), by simpa using h4, h5⟩

/-- C27 (counterexample): with `numRowCompact` -1 and the empty title, `getLabelTitle` shortens
the title (0 estimated rows exceed the budget of -1) to `...`, whose retained part is the whole
title: there is no proper prefix of the title that the result could start with. -/
theorem getLabelTitle_truncation_counterexample :
    sampleEmptyTitleRecord.title = JSVal.str "" ∧
    sampleNegativeBudgetCitation.opt.numRowCompact - 0
      < ceilDiv (sampleEnv.textWidth "Arial" "12px" "") sampleNegativeBudgetCitation._innerWidth ∧
    Citation.getLabelTitle sampleNegativeBudgetCitation sampleEnv sampleEmptyTitleRecord "12px" 0
        "Arial" = some (JSVal.str "...") ∧
    ¬ ∃ kept : List Nat, kept <+: utf16Units "" ∧ kept ≠ utf16Units "" ∧
        Citation.getLabelTitle sampleNegativeBudgetCitation sampleEnv sampleEmptyTitleRecord
          "12px" 0 "Arial" = some (JSVal.str (String.mk (utf16Text kept) ++ "...")) := by
  refine ⟨rfl, by decide, by rfl, ?_⟩
  rintro ⟨kept, hp, hne, -⟩
  apply hne
  have e : utf16Units "" = [] := rfl
  rw [e] at hp ⊢
  exact List.prefix_nil.1 hp

/-! ## The author list of the compact style -/

theorem joinComma_snoc : ∀ (l : List String) (x : String),
    joinComma (l ++ [x]) = (if l.length > 0 then joinComma l ++ ", " else joinComma l) ++ x
  | [], x => by
    simp [joinComma, String.empty_append_left]
  | [a], x => by
    simp [joinComma]
  | a :: b :: rest, x => by
    have ih := joinComma_snoc (b :: rest) x
    simp only [List.length_cons, gt_iff_lt, Nat.zero_lt_succ, if_true] at ih
    show a ++ ", " ++ joinComma ((b :: rest) ++ [x])
      = (a ++ ", " ++ joinComma (b :: rest)) ++ ", " ++ x
    rw [ih]
    simp only [String.append_assoc]

theorem Citation.loop_compact_step (self : Citation) (env : Env) (fontSize : String)
    (cur : Int) (fontfamily : String) (hC : self.opt.displayStyle = "COMPACT_STYLE")
    (a : Author) (hN : a.isLinked = true) (rest : List Author) (i : Nat)
    (html label : String) :
    Citation.getAuthorsElement.loop self env fontSize cur fontfamily (a :: rest) i html label =
      if ceilDiv (env.textWidth fontfamily fontSize
            ((if i > 0 then label ++ ", " else label)
              ++ (Citation.getAuthorsElement.authorName a).toStr)) self._innerWidth
          > self.opt.numRowCompact - cur then
        ((if i > 0 then html ++ ", " else html) ++ "...",
          (if i > 0 then label ++ ", " else label) ++ "...")
      else
        Citation.getAuthorsElement.loop self env fontSize cur fontfamily rest (i + 1)
          ((if i > 0 then html ++ ", " else html)
            ++ authorLink (Citation.getAuthorsElement.authorName a).toStr)
          ((if i > 0 then label ++ ", " else label)
            ++ (Citation.getAuthorsElement.authorName a).toStr) := by
  have hC' : self.opt.displayStyle = Citation.COMPACT_STYLE := hC
  have hN' := (Author.isLinked_iff a).1 hN
  rw [Citation.getAuthorsElement.loop]
  simp only [hN', if_true, if_pos hC', authorLink, String.append_assoc]


theorem compactNames_append (x y : List Author) :
    compactNames (x ++ y) = compactNames x ++ compactNames y := by
  simp [compactNames]

theorem compactNames_length (x : List Author) : (compactNames x).length = x.length := by
  simp [compactNames]

theorem compactNames_take_left (done rest : List Author) :
    (compactNames (done ++ rest)).take done.length = compactNames done := by
  rw [compactNames_append]
  exact List.take_left' (compactNames_length done)

theorem compactNames_snoc (done : List Author) (a : Author) :
    compactNames (done ++ [a])
      = compactNames done ++ [(Citation.getAuthorsElement.authorName a).toStr] := by
  simp [compactNames]

theorem compactNames_take_succ (done rest : List Author) (a : Author) :
    (compactNames (done ++ a :: rest)).take (done.length + 1) = compactNames (done ++ [a]) := by
  have h : done ++ a :: rest = (done ++ [a]) ++ rest := by simp
  rw [h, compactNames_append]
  exact List.take_left' (by simp [compactNames])

theorem joinComma_label_snoc (done : List Author) (a : Author) :
    (if done.length > 0 then joinComma (compactNames done) ++ ", "
      else joinComma (compactNames done)) ++ (Citation.getAuthorsElement.authorName a).toStr
      = joinComma (compactNames (done ++ [a])) := by
  rw [compactNames_snoc, joinComma_snoc, compactNames_length]

theorem joinComma_html_snoc (done : List Author) (a : Author) :
    (if done.length > 0 then joinComma ((compactNames done).map authorLink) ++ ", "
      else joinComma ((compactNames done).map authorLink))
        ++ authorLink (Citation.getAuthorsElement.authorName a).toStr
      = joinComma ((compactNames (done ++ [a])).map authorLink) := by
  rw [compactNames_snoc, List.map_append, List.map_singleton, joinComma_snoc, List.length_map,
    compactNames_length]

theorem Citation.loop_compact_overflow (self : Citation) (env : Env) (fontSize : String)
    (cur : Int) (fontfamily : String) (hC : self.opt.displayStyle = "COMPACT_STYLE")
    (all : List Author) (k : Nat)
    (hk : labelOverflows env fontfamily fontSize self._innerWidth (self.opt.numRowCompact - cur)
      (compactNames all) k = true) :
    ∀ (rest done : List Author), all = done ++ rest → (∀ a ∈ rest, a.isLinked = true) →
      done.length ≤ k → k < all.length →
      (∀ j, done.length ≤ j → j < k →
        labelOverflows env fontfamily fontSize self._innerWidth (self.opt.numRowCompact - cur)
          (compactNames all) j = false) →
      Citation.getAuthorsElement.loop self env fontSize cur fontfamily rest done.length
          (joinComma ((compactNames done).map authorLink)) (joinComma (compactNames done))
        = (joinComma (((compactNames all).take k).map authorLink ++ ["..."]),
            joinComma ((compactNames all).take k ++ ["..."])) := by
  intro rest
  induction rest with
  | nil =>
    intro done hall _ hle hlt _
    rw [hall, List.append_nil] at hlt
    omega
  | cons a rest ih =>
    intro done hall hN hle hlt hfirst
    have hNa : a.isLinked = true := hN a (List.mem_cons_self _ _)
    have htake := compactNames_take_succ done rest a
    rw [← hall] at htake
    rw [Citation.loop_compact_step self env fontSize cur fontfamily hC a hNa,
      joinComma_label_snoc, joinComma_html_snoc]
    rcases Nat.eq_or_lt_of_le hle with heq | hlt'
    · subst heq
      have hov : ceilDiv (env.textWidth fontfamily fontSize
          (joinComma (compactNames (done ++ [a])))) self._innerWidth
            > self.opt.numRowCompact - cur := by
        have h := hk
        unfold labelOverflows at h
        rw [htake] at h
        exact of_decide_eq_true h
      rw [if_pos hov]
      have htk : (compactNames all).take done.length = compactNames done := by
        rw [hall]
        exact compactNames_take_left done (a :: rest)
      rw [htk, joinComma_snoc, joinComma_snoc, List.length_map, compactNames_length]
    · have hnov : ¬ (ceilDiv (env.textWidth fontfamily fontSize
          (joinComma (compactNames (done ++ [a])))) self._innerWidth
            > self.opt.numRowCompact - cur) := by
        have h := hfirst done.length le_rfl hlt'
        unfold labelOverflows at h
        rw [htake] at h
        exact of_decide_eq_false h
      rw [if_neg hnov]
      have h := ih (done ++ [a]) (by rw [hall]; simp)
        (fun b hb => hN b (List.mem_cons_of_mem _ hb))
        (by rw [List.length_append, List.length_singleton]; omega) hlt
        (fun j hj hjk => hfirst j
          (by rw [List.length_append, List.length_singleton] at hj; omega) hjk)
      rw [List.length_append, List.length_singleton] at h
      exact h

theorem Citation.loop_compact_all (self : Citation) (env : Env) (fontSize : String)
    (cur : Int) (fontfamily : String) (hC : self.opt.displayStyle = "COMPACT_STYLE")
    (all : List Author) :
    ∀ (rest done : List Author), all = done ++ rest → (∀ a ∈ rest, a.isLinked = true) →
      (∀ j, done.length ≤ j → j < all.length →
        labelOverflows env fontfamily fontSize self._innerWidth (self.opt.numRowCompact - cur)
          (compactNames all) j = false) →
      Citation.getAuthorsElement.loop self env fontSize cur fontfamily rest done.length
          (joinComma ((compactNames done).map authorLink)) (joinComma (compactNames done))
        = (joinComma ((compactNames all).map authorLink), joinComma (compactNames all)) := by
  intro rest
  induction rest with
  | nil =>
    intro done hall _ _
    rw [hall, List.append_nil]
    rfl
  | cons a rest ih =>
    intro done hall hN hfirst
    have hNa : a.isLinked = true := hN a (List.mem_cons_self _ _)
    have htake := compactNames_take_succ done rest a
    rw [← hall] at htake
    rw [Citation.loop_compact_step self env fontSize cur fontfamily hC a hNa,
      joinComma_label_snoc, joinComma_html_snoc]
    have hlt : done.length < all.length := by
      rw [hall, List.length_append, List.length_cons]
      omega
    have hnov : ¬ (ceilDiv (env.textWidth fontfamily fontSize
        (joinComma (compactNames (done ++ [a])))) self._innerWidth
          > self.opt.numRowCompact - cur) := by
      have h := hfirst done.length le_rfl hlt
      unfold labelOverflows at h
      rw [htake] at h
      exact of_decide_eq_false h
    rw [if_neg hnov]
    have h := ih (done ++ [a]) (by rw [hall]; simp)
      (fun b hb => hN b (List.mem_cons_of_mem _ hb))
      (fun j hj hjk => hfirst j
        (by rw [List.length_append, List.length_singleton] at hj; omega) hjk)
    rw [List.length_append, List.length_singleton] at h
    exact h

theorem CitationList.list_loop_eq (l : CitationList) (c : Citation) (env : Env)
    (fontSize : String) (cur : Int) (fontfamily : String)
    (hd : l.opt.displayStyle = some c.opt.displayStyle)
    (hn : l.opt.numRowCompact = c.opt.numRowCompact) (hw : l._innerWidth = c._innerWidth) :
    ∀ (authors : List Author) (i : Nat) (html label : String),
      CitationList.getAuthorsElement.loop l env fontSize cur fontfamily authors i html label
        = Citation.getAuthorsElement.loop c env fontSize cur fontfamily authors i html label
  | [], _, _, _ => by
    rw [CitationList.getAuthorsElement.loop, Citation.getAuthorsElement.loop]
  | a :: rest, i, html, label => by
    have hname : CitationList.getAuthorsElement.authorName a
        = Citation.getAuthorsElement.authorName a := rfl
    have hstyle : (l.opt.displayStyle = some CitationList.COMPACT_STYLE)
        = (c.opt.displayStyle = Citation.COMPACT_STYLE) := by
      rw [hd]
      simp [CitationList.COMPACT_STYLE, Citation.COMPACT_STYLE]
    rw [CitationList.getAuthorsElement.loop, Citation.getAuthorsElement.loop]
    simp only [hname, hstyle, hn, hw,
      CitationList.list_loop_eq l c env fontSize cur fontfamily hd hn hw rest]


theorem CitationList.list_getAuthorsElement_eq (l : CitationList) (c : Citation) (env : Env)
    (r : ResultElement) (fontSize : String) (cur : Int) (fontfamily : String)
    (hd : l.opt.displayStyle = some c.opt.displayStyle)
    (hn : l.opt.numRowCompact = c.opt.numRowCompact) (hw : l._innerWidth = c._innerWidth) :
    CitationList.getAuthorsElement l env r fontSize cur fontfamily
      = Citation.getAuthorsElement c env r fontSize cur fontfamily := by
  unfold CitationList.getAuthorsElement Citation.getAuthorsElement
  cases r.authorList with
  | none => rfl
  | some authors =>
    simp only [CitationList.list_loop_eq l c env fontSize cur fontfamily hd hn hw]

theorem Citation.getAuthorsElement_overflow (self : Citation) (env : Env) (r : ResultElement)
    (authors : List Author) (fontSize fontfamily : String) (rowsUsed : Int)
    (hA : r.authorList = some authors) (hN : ∀ a ∈ authors, a.isLinked = true)
    (hC : self.opt.displayStyle = "COMPACT_STYLE") (k : Nat) (hlt : k < authors.length)
    (hk : labelOverflows env fontfamily fontSize self._innerWidth
      (self.opt.numRowCompact - rowsUsed) (compactNames authors) k = true)
    (hfirst : ∀ j, j < k → labelOverflows env fontfamily fontSize self._innerWidth
      (self.opt.numRowCompact - rowsUsed) (compactNames authors) j = false) :
    Citation.getAuthorsElement self env r fontSize rowsUsed fontfamily
      = some (joinComma (((compactNames authors).take k).map authorLink ++ ["..."]),
          joinComma ((compactNames authors).take k ++ ["..."])) := by
  unfold Citation.getAuthorsElement
  rw [hA]
  exact congrArg some
    (Citation.loop_compact_overflow self env fontSize rowsUsed fontfamily hC authors k hk
      authors [] rfl hN (Nat.zero_le _) hlt (fun j _ hjk => hfirst j hjk))

theorem Citation.getAuthorsElement_all (self : Citation) (env : Env) (r : ResultElement)
    (authors : List Author) (fontSize fontfamily : String) (rowsUsed : Int)
    (hA : r.authorList = some authors) (hN : ∀ a ∈ authors, a.isLinked = true)
    (hC : self.opt.displayStyle = "COMPACT_STYLE")
    (hfirst : ∀ j, j < authors.length → labelOverflows env fontfamily fontSize self._innerWidth
      (self.opt.numRowCompact - rowsUsed) (compactNames authors) j = false) :
    Citation.getAuthorsElement self env r fontSize rowsUsed fontfamily
      = some (joinComma ((compactNames authors).map authorLink),
          joinComma (compactNames authors)) := by
  unfold Citation.getAuthorsElement
  rw [hA]
  exact congrArg some
    (Citation.loop_compact_all self env fontSize rowsUsed fontfamily hC authors
      authors [] rfl hN (fun j _ hjk => hfirst j hjk))

/-- In the compact style, for an author list in which the loop links every author,
`getAuthorsElement` of both widgets joins the authors by a comma and a blank and measures the
label after each: if `k` is the first index at which the label of the authors `0..k` has more
estimated rows than `rowBudget - rowsUsed`, the HTML is the links of the authors `0..k-1`
followed by `...` in place of the author `k` and all later ones, and the label left in
`_tempLabel` is the same with the names as plain text; if there is no such `k`, all authors are
included and nothing is appended. -/
theorem getAuthorsElement_compact (c : Citation) (l : CitationList) (env : Env)
    (r : ResultElement) (authors : List Author) (fontSize fontfamily : String) (rowsUsed : Int)
    (w : Nat) (hA : r.authorList = some authors) (hN : ∀ a ∈ authors, a.isLinked = true)
    (hc : c.opt.displayStyle = "COMPACT_STYLE") (hcw : c._innerWidth = w + 17)
    (hl : l.opt.displayStyle = some "COMPACT_STYLE") (hlw : l._innerWidth = w + 17) :
    (∀ k, k < authors.length →
      labelOverflows env fontfamily fontSize (w + 17) (c.opt.numRowCompact - rowsUsed)
        (compactNames authors) k = true →
      (∀ j, j < k → labelOverflows env fontfamily fontSize (w + 17)
        (c.opt.numRowCompact - rowsUsed) (compactNames authors) j = false) →
      Citation.getAuthorsElement c env r fontSize rowsUsed fontfamily
        = some (joinComma (((compactNames authors).take k).map authorLink ++ ["..."]),
            joinComma ((compactNames authors).take k ++ ["..."]))) ∧
    ((∀ j, j < authors.length → labelOverflows env fontfamily fontSize (w + 17)
        (c.opt.numRowCompact - rowsUsed) (compactNames authors) j = false) →
      Citation.getAuthorsElement c env r fontSize rowsUsed fontfamily
        = some (joinComma ((compactNames authors).map authorLink),
            joinComma (compactNames authors))) ∧
    (∀ k, k < authors.length →
      labelOverflows env fontfamily fontSize (w + 17) (l.opt.numRowCompact - rowsUsed)
        (compactNames authors) k = true →
      (∀ j, j < k → labelOverflows env fontfamily fontSize (w + 17)
        (l.opt.numRowCompact - rowsUsed) (compactNames authors) j = false) →
      CitationList.getAuthorsElement l env r fontSize rowsUsed fontfamily
        = some (joinComma (((compactNames authors).take k).map authorLink ++ ["..."]),
            joinComma ((compactNames authors).take k ++ ["..."]))) ∧
    ((∀ j, j < authors.length → labelOverflows env fontfamily fontSize (w + 17)
        (l.opt.numRowCompact - rowsUsed) (compactNames authors) j = false) →
      CitationList.getAuthorsElement l env r fontSize rowsUsed fontfamily
        = some (joinComma ((compactNames authors).map authorLink),
            joinComma (compactNames authors))) := by
  have hEq := CitationList.list_getAuthorsElement_eq l
    { opt := { Citation.defaultOpt with
        displayStyle := "COMPACT_STYLE", numRowCompact := l.opt.numRowCompact },
      _proxyUrl := "", _innerWidth := l._innerWidth }
    env r fontSize rowsUsed fontfamily hl rfl rfl
  refine ⟨?_, ?_, ?_, ?_⟩
  · intro k hlt hk hfirst
    rw [← hcw] at hk hfirst
    exact Citation.getAuthorsElement_overflow c env r authors fontSize fontfamily rowsUsed hA hN
      hc k hlt hk hfirst
  · intro hfirst
    rw [← hcw] at hfirst
    exact Citation.getAuthorsElement_all c env r authors fontSize fontfamily rowsUsed hA hN hc
      hfirst
  · intro k hlt hk hfirst
    rw [← hlw] at hk hfirst
    rw [hEq]
    exact Citation.getAuthorsElement_overflow _ env r authors fontSize fontfamily rowsUsed hA hN
      rfl k hlt hk hfirst
  · intro hfirst
    rw [← hlw] at hfirst
    rw [hEq]
    exact Citation.getAuthorsElement_all _ env r authors fontSize fontfamily rowsUsed hA hN rfl
      hfirst

theorem getAuthorsElement_compact_witness :
    sampleRecord.authorList = some
      [{ fullName := JSVal.str "Aaaaaaaaaa", lastName := JSVal.str "Aaaaaaaaaa",
         collectiveName := JSVal.undefined },
       { fullName := JSVal.str "Bbbbbbbbbb", lastName := JSVal.str "Bbbbbbbbbb",
         collectiveName := JSVal.undefined }] ∧
    sampleSizedCitation.opt.displayStyle = "COMPACT_STYLE" ∧
    sampleSizedCitation._innerWidth = 100 + 17 ∧
    sampleSizedCitationList.opt.displayStyle = some "COMPACT_STYLE" ∧
    sampleSizedCitationList._innerWidth = 100 + 17 ∧
    Citation.getAuthorsElement sampleSizedCitation sampleEnv sampleRecord "12px" 0 "Arial"
      = some (authorLink "Aaaaaaaaaa" ++ ", ...", "Aaaaaaaaaa, ...") ∧
    CitationList.getAuthorsElement sampleSizedCitationList sampleEnv sampleRecord "12px" 0 "Arial"
      = some (authorLink "Aaaaaaaaaa" ++ ", " ++ authorLink "Bbbbbbbbbb",
          "Aaaaaaaaaa, Bbbbbbbbbb") := by
  have hT := getAuthorsElement_compact sampleSizedCitation sampleSizedCitationList sampleEnv
    sampleRecord _ "12px" "Arial" 0 100 rfl (by decide) rfl rfl rfl rfl
  refine ⟨rfl, rfl, rfl, rfl, rfl, ?_, ?_⟩
  · rw [hT.1 1 (by decide) (by decide) (by decide)]
    rfl
  · rw [hT.2.2.2 (by decide)]
    rfl


/-! ## A record without a title -/

theorem Citation.record_title_only (self : Citation) (env : Env) (r : ResultElement)
    (hS : self.opt.displayStyle = "TITLE_ONLY_STYLE") :
    Citation.buildPanel.record self env r
      = some { panel := titleOnlyPanel (Citation.getAbstractUrl r) r.title,
               numCurrentRows := 0, continueCitation := true, _tempLabel := "" } := by
  simp [Citation.buildPanel.record, hS, Citation.TITLE_ONLY_STYLE,
    Citation.buildPanel.abstractInfo, titleOnlyPanel, Panel.empty]

/-- C24 (amended): for a record whose title is missing, the title field of the full and of the
title-only style is an anchor whose `href` is `getAbstractUrl` of the record and whose text is
the word `undefined` when the property is absent and `null` when it is null; the anchor is
empty only when the title is the empty string. -/
theorem missing_title (c : Citation) (env : Env) (resp : Response) (r : ResultElement)
    (rest : List ResultElement) (text : String)
    (hr : resp.result = r :: rest)
    (hS : c.opt.displayStyle = "TITLE_ONLY_STYLE" ∨
      (c.opt.displayStyle = "FULL_STYLE" ∧ r.authorList.isSome = true ∧
        (c.opt.elementOrder = "TITLE_FIRST" ∨ c.opt.elementOrder = "AUTHORS_FIRST")))
    (ht : (r.title = JSVal.undefined ∧ text = "undefined") ∨
      (r.title = JSVal.null ∧ text = "null") ∨
      (r.title = JSVal.str "" ∧ text = "")) :
    ∃ s, Citation.buildPanel c env resp = some s ∧
      s.panel.title = "<a class=\"epmc_citation_link\" href=\"" ++ Citation.getAbstractUrl r
        ++ "\">" ++ text ++ "</a>" := by
  have hText : r.title.toStr = text := by
    rcases ht with ⟨h, e⟩ | ⟨h, e⟩ | ⟨h, e⟩ <;> rw [h, e] <;> rfl
  unfold Citation.buildPanel
  simp only [hr]
  rcases hS with hS | ⟨hF, hA, hO⟩
  · refine ⟨_, Citation.record_title_only
      { c with _innerWidth := c.opt.width.getD 0 + 17 } env r hS, ?_⟩
    simp only [titleOnlyPanel, hText]
  · cases hAuth : r.authorList with
    | none => rw [hAuth] at hA; cases hA
    | some authors =>
      obtain ⟨s, hs, hTitle, -⟩ := Citation.record_full
        { c with _innerWidth := c.opt.width.getD 0 + 17 } env r authors hF hO hAuth
      exact ⟨s, hs, by rw [hTitle, hText]⟩

theorem missing_title_witness :
    sampleUntitledRecord.title = JSVal.undefined ∧
    sampleFullCitation.opt.displayStyle = "FULL_STYLE" ∧
    ∃ s, Citation.buildPanel sampleFullCitation sampleEnv
        { hitCount := 1, result := [sampleUntitledRecord] } = some s ∧
      s.panel.title = "<a class=\"epmc_citation_link\" href=\""
        ++ Citation.getAbstractUrl sampleUntitledRecord ++ "\">" ++ "undefined" ++ "</a>" :=
  ⟨rfl, rfl, missing_title sampleFullCitation sampleEnv
    { hitCount := 1, result := [sampleUntitledRecord] } sampleUntitledRecord [] "undefined" rfl
    (Or.inr ⟨rfl, rfl, Or.inl rfl⟩) (Or.inl ⟨rfl, rfl⟩)⟩

/-- C24 (counterexample): the sample record without a title, in the full style and in the
title-only style, gets a title anchor whose text is the word `undefined`, not the empty
string. -/
theorem missing_title_counterexample :
    sampleUntitledRecord.title = JSVal.undefined ∧
    (Citation.buildPanel sampleFullCitation sampleEnv
        { hitCount := 1, result := [sampleUntitledRecord] }).map (fun s => s.panel.title)
      = some "<a class=\"epmc_citation_link\" href=\"http://europepmc.org/abstract/med/123\">undefined</a>" ∧
    (Citation.buildPanel sampleTitleOnlyCitation sampleEnv
        { hitCount := 1, result := [sampleUntitledRecord] }).map (fun s => s.panel.title)
      = some "<a class=\"epmc_citation_link\" href=\"http://europepmc.org/abstract/med/123\">undefined</a>" ∧
    "<a class=\"epmc_citation_link\" href=\"http://europepmc.org/abstract/med/123\">undefined</a>"
      ≠ "<a class=\"epmc_citation_link\" href=\"http://europepmc.org/abstract/med/123\"></a>" := by
  refine ⟨rfl, by rfl, by rfl, by decide⟩


/-! ## The budget check between the fields -/

theorem fieldTrace_eq_some (check : RenderState → RenderState)
    (f1 f2 f3 f4 : RenderState → Option RenderState) (s : RenderState) (tr : FieldTrace)
    (h : fieldTrace check f1 f2 f3 f4 s = some tr) :
    ∃ s1 s2 s3 s4, f1 s = some s1 ∧ f2 (check s1) = some s2 ∧ f3 (check s2) = some s3 ∧
      f4 (check s3) = some s4 ∧
      tr = { entry1 := s, entry2 := check s1, entry3 := check s2, entry4 := check s3,
             final := s4 } := by
  unfold fieldTrace at h
  simp only [Option.bind_eq_some] at h
  obtain ⟨s1, h1, s2, h2, s3, h3, s4, h4, heq⟩ := h
  exact ⟨s1, s2, s3, s4, h1, h2, h3, h4, (Option.some.inj heq).symm⟩

theorem fieldTrace_of_total (check : RenderState → RenderState)
    (f1 f2 f3 f4 : RenderState → Option RenderState)
    (t1 : ∀ s, ∃ s', f1 s = some s') (t2 : ∀ s, ∃ s', f2 s = some s')
    (t3 : ∀ s, ∃ s', f3 s = some s') (t4 : ∀ s, ∃ s', f4 s = some s') (s : RenderState) :
    ∃ tr, fieldTrace check f1 f2 f3 f4 s = some tr := by
  obtain ⟨s1, h1⟩ := t1 s
  obtain ⟨s2, h2⟩ := t2 (check s1)
  obtain ⟨s3, h3⟩ := t3 (check s2)
  obtain ⟨s4, h4⟩ := t4 (check s3)
  refine ⟨{ entry1 := s, entry2 := check s1, entry3 := check s2, entry4 := check s3,
            final := s4 }, ?_⟩
  simp only [fieldTrace, h1, h2, h3, h4, Option.some_bind]

theorem CompactCheck.rows {check : RenderState → RenderState} {n : Int}
    (h : CompactCheck check n) (s : RenderState) :
    (check s).numCurrentRows = s.numCurrentRows := by
  rw [h s]

theorem CompactCheck.panel {check : RenderState → RenderState} {n : Int}
    (h : CompactCheck check n) (s : RenderState) : (check s).panel = s.panel := by
  rw [h s]

theorem CompactCheck.flag {check : RenderState → RenderState} {n : Int}
    (h : CompactCheck check n) (s : RenderState) :
    (check s).continueCitation = decide ((check s).numCurrentRows + 1 ≤ n) := by
  rw [h s]

theorem CompactCheck.idem {check : RenderState → RenderState} {n : Int}
    (h : CompactCheck check n) (s : RenderState) : check (check s) = check s := by
  rw [h (check s), h s]

theorem FieldBlock.rows_le {f : RenderState → Option RenderState} {set : Panel → String → Panel}
    (h : FieldBlock f set) (s s' : RenderState) (hs : f s = some s') :
    s.numCurrentRows ≤ s'.numCurrentRows := by
  rcases (h s).2 s' hs with e | ⟨text, label, rows, e⟩
  · rw [e]
  · rw [e]
    show s.numCurrentRows ≤ s.numCurrentRows + (rows : Int)
    have : (0 : Int) ≤ (rows : Int) := Int.natCast_nonneg _
    omega

theorem FieldBlock.preserves {f : RenderState → Option RenderState}
    {set : Panel → String → Panel} (h : FieldBlock f set) (g : Panel → String)
    (hg : ∀ p t, g (set p t) = g p) (s s' : RenderState) (hs : f s = some s') :
    g s'.panel = g s.panel := by
  rcases (h s).2 s' hs with e | ⟨text, label, rows, e⟩
  · rw [e]
  · rw [e]
    exact hg _ _

theorem FieldBlock.skip {f : RenderState → Option RenderState} {set : Panel → String → Panel}
    (h : FieldBlock f set) (s s' : RenderState) (hc : s.continueCitation = false)
    (hs : f s = some s') : s' = s := by
  have := (h s).1 hc
  rw [this] at hs
  exact (Option.some.inj hs).symm


theorem fieldTrace_facts (check : RenderState → RenderState)
    (f1 f2 f3 f4 : RenderState → Option RenderState)
    (set1 set2 set3 set4 : Panel → String → Panel) (g2 g3 g4 : Panel → String) (n : Int)
    (s : RenderState) (tr : FieldTrace)
    (hchk : CompactCheck check n)
    (h1 : FieldBlock f1 set1) (h2 : FieldBlock f2 set2) (h3 : FieldBlock f3 set3)
    (h4 : FieldBlock f4 set4)
    (p12 : ∀ p t, g2 (set1 p t) = g2 p) (p13 : ∀ p t, g3 (set1 p t) = g3 p)
    (p14 : ∀ p t, g4 (set1 p t) = g4 p) (p23 : ∀ p t, g3 (set2 p t) = g3 p)
    (p24 : ∀ p t, g4 (set2 p t) = g4 p) (p34 : ∀ p t, g4 (set3 p t) = g4 p)
    (hs : s.continueCitation = true)
    (hg2 : g2 s.panel = "") (hg3 : g3 s.panel = "") (hg4 : g4 s.panel = "")
    (htr : fieldTrace check f1 f2 f3 f4 s = some tr) :
    tr.entry1 = s ∧ tr.budgetChecked n ∧ tr.laterFieldsEmpty g2 g3 g4 ∧
      tr.rowsNeverDecrease ∧ tr.producedIsPrefix := by
  obtain ⟨s1, s2, s3, s4, e1, e2, e3, e4, rfl⟩ := fieldTrace_eq_some check f1 f2 f3 f4 s tr htr
  -- the fields that each block leaves alone
  have a2 : g2 (check s1).panel = "" := by
    rw [hchk.panel, h1.preserves g2 p12 s s1 e1, hg2]
  have a3 : g3 (check s1).panel = "" := by
    rw [hchk.panel, h1.preserves g3 p13 s s1 e1, hg3]
  have a4 : g4 (check s1).panel = "" := by
    rw [hchk.panel, h1.preserves g4 p14 s s1 e1, hg4]
  have b3 : g3 (check s2).panel = "" := by
    rw [hchk.panel, h2.preserves g3 p23 _ s2 e2, a3]
  have b4 : g4 (check s2).panel = "" := by
    rw [hchk.panel, h2.preserves g4 p24 _ s2 e2, a4]
  have c4 : g4 (check s3).panel = "" := by
    rw [hchk.panel, h3.preserves g4 p34 _ s3 e3, b4]
  -- a skipped field leaves the state, and the next check, as they are
  have k2 : (check s1).continueCitation = false → s2 = check s1 ∧ check s2 = check s1 := by
    intro hc
    have h := h2.skip _ s2 hc e2
    exact ⟨h, by rw [h, hchk.idem]⟩
  have k3 : (check s2).continueCitation = false → s3 = check s2 ∧ check s3 = check s2 := by
    intro hc
    have h := h3.skip _ s3 hc e3
    exact ⟨h, by rw [h, hchk.idem]⟩
  have k4 : (check s3).continueCitation = false → s4 = check s3 := by
    intro hc
    exact h4.skip _ s4 hc e4
  have j23 : (check s1).continueCitation = false → (check s2).continueCitation = false := by
    intro hc
    rw [(k2 hc).2]
    exact hc
  have j34 : (check s2).continueCitation = false → (check s3).continueCitation = false := by
    intro hc
    rw [(k3 hc).2]
    exact hc
  refine ⟨rfl, ⟨hs, hchk.flag s1, hchk.flag s2, hchk.flag s3⟩, ⟨?_, ?_, ?_⟩,
    ⟨?_, ?_, ?_, ?_⟩, ⟨fun hc => ⟨j23 hc, j34 (j23 hc)⟩, j34⟩⟩
  · intro hc
    have hfin : s4 = check s1 := by
      rw [k4 (j34 (j23 hc)), (k3 (j23 hc)).2, (k2 hc).2]
    show g2 s4.panel = "" ∧ g3 s4.panel = "" ∧ g4 s4.panel = ""
    rw [hfin]
    exact ⟨a2, a3, a4⟩
  · intro hc
    have hfin : s4 = check s2 := by
      rw [k4 (j34 hc), (k3 hc).2]
    show g3 s4.panel = "" ∧ g4 s4.panel = ""
    rw [hfin]
    exact ⟨b3, b4⟩
  · intro hc
    show g4 s4.panel = ""
    rw [k4 hc]
    exact c4
  · show s.numCurrentRows ≤ (check s1).numCurrentRows
    rw [hchk.rows]
    exact h1.rows_le s s1 e1
  · show (check s1).numCurrentRows ≤ (check s2).numCurrentRows
    rw [hchk.rows s2]
    exact h2.rows_le _ s2 e2
  · show (check s2).numCurrentRows ≤ (check s3).numCurrentRows
    rw [hchk.rows s3]
    exact h3.rows_le _ s3 e3
  · show (check s3).numCurrentRows ≤ s4.numCurrentRows
    exact h4.rows_le _ s4 e4

theorem fieldTrace_panel_invariant (P : Panel → Prop) (check : RenderState → RenderState)
    (f1 f2 f3 f4 : RenderState → Option RenderState)
    (hchk : ∀ s, (check s).panel = s.panel)
    (h1 : ∀ s s', f1 s = some s' → P s.panel → P s'.panel)
    (h2 : ∀ s s', f2 s = some s' → P s.panel → P s'.panel)
    (h3 : ∀ s s', f3 s = some s' → P s.panel → P s'.panel)
    (h4 : ∀ s s', f4 s = some s' → P s.panel → P s'.panel)
    (s : RenderState) (tr : FieldTrace) (hs : P s.panel)
    (htr : fieldTrace check f1 f2 f3 f4 s = some tr) : P tr.final.panel := by
  obtain ⟨s1, s2, s3, s4, e1, e2, e3, e4, rfl⟩ := fieldTrace_eq_some check f1 f2 f3 f4 s tr htr
  have q1 := h1 s s1 e1 hs
  have q2 := h2 _ s2 e2 (by rw [hchk]; exact q1)
  have q3 := h3 _ s3 e3 (by rw [hchk]; exact q2)
  exact h4 _ s4 e4 (by rw [hchk]; exact q3)


theorem Citation.compactCheck_spec (self : Citation)
    (hC : self.opt.displayStyle = "COMPACT_STYLE") :
    CompactCheck (Citation.buildPanel.compactCheck self) self.opt.numRowCompact := by
  intro s
  have hC' : self.opt.displayStyle = Citation.COMPACT_STYLE := hC
  simp only [Citation.buildPanel.compactCheck, if_pos hC']

theorem Citation.titleInfo_block (self : Citation) (env : Env) (r : ResultElement) :
    FieldBlock (Citation.buildPanel.titleInfo self env r) (fun p t => { p with title := t }) := by
  intro s
  constructor
  · intro hc
    simp [Citation.buildPanel.titleInfo, hc]
  · intro s' h
    unfold Citation.buildPanel.titleInfo at h
    split_ifs at h
    · cases hl : Citation.getLabelTitle self env r env.titleFontSize s.numCurrentRows
          env.titleFontFamily with
      | none => simp [hl] at h
      | some l =>
        simp only [hl, Option.some.injEq] at h
        subst h
        right
        exact ⟨_, s._tempLabel,
          (env.textWidth env.titleFontFamily env.titleFontSize l.toStr + self._innerWidth - 1)
            / self._innerWidth, rfl⟩
    · left
      exact (Option.some.inj h).symm

theorem Citation.authorInfo_block (self : Citation) (env : Env) (r : ResultElement) :
    FieldBlock (Citation.buildPanel.authorInfo self env r)
      (fun p t => { p with authors := t }) := by
  intro s
  constructor
  · intro hc
    simp [Citation.buildPanel.authorInfo, hc]
  · intro s' h
    unfold Citation.buildPanel.authorInfo at h
    split_ifs at h
    · cases hl : Citation.getAuthorsElement self env r env.authorsFontSize s.numCurrentRows
          env.authorsFontFamily with
      | none => simp [hl] at h
      | some l =>
        obtain ⟨html, label⟩ := l
        simp only [hl, Option.some.injEq] at h
        subst h
        right
        exact ⟨html, label,
          (env.textWidth env.authorsFontFamily env.authorsFontSize label + self._innerWidth - 1)
            / self._innerWidth, rfl⟩
    · left
      exact (Option.some.inj h).symm

theorem Citation.journalInfo_block (r : ResultElement) :
    FieldBlock (fun s => some (Citation.buildPanel.journalInfo r s))
      (fun p t => { p with journal := t }) := by
  intro s
  constructor
  · intro hc
    simp [Citation.buildPanel.journalInfo, hc]
  · intro s' h
    have h' := (Option.some.inj h).symm
    subst h'
    unfold Citation.buildPanel.journalInfo
    split_ifs
    · right
      exact ⟨_, s._tempLabel, 1, rfl⟩
    · left
      rfl

theorem Citation.sourceInfo_block (r : ResultElement) :
    FieldBlock (fun s => some (Citation.buildPanel.sourceInfo r s))
      (fun p t => { p with source := t }) := by
  intro s
  constructor
  · intro hc
    simp [Citation.buildPanel.sourceInfo, hc]
  · intro s' h
    have h' := (Option.some.inj h).symm
    subst h'
    unfold Citation.buildPanel.sourceInfo
    split_ifs
    · right
      exact ⟨_, s._tempLabel, 1, rfl⟩
    · left
      rfl

theorem Citation.titleFirst_eq_trace (self : Citation) (env : Env) (r : ResultElement)
    (s : RenderState) :
    Citation.buildPanel.titleFirst self env r s
      = (Citation.buildPanel.titleFirstTrace self env r s).map FieldTrace.final := by
  unfold Citation.buildPanel.titleFirst Citation.buildPanel.titleFirstHead
    Citation.buildPanel.titleFirstTrace fieldTrace
  cases h1 : Citation.buildPanel.titleInfo self env r s with
  | none => rfl
  | some s1 =>
    simp only [Option.some_bind]
    cases h2 : Citation.buildPanel.authorInfo self env r
        (Citation.buildPanel.compactCheck self s1) with
    | none => rfl
    | some s2 => rfl

theorem Citation.authorsFirst_eq_trace (self : Citation) (env : Env) (r : ResultElement)
    (s : RenderState) :
    Citation.buildPanel.authorsFirst self env r s
      = (Citation.buildPanel.authorsFirstTrace self env r s).map FieldTrace.final := by
  unfold Citation.buildPanel.authorsFirst Citation.buildPanel.authorsFirstHead
    Citation.buildPanel.authorsFirstTrace fieldTrace
  cases h1 : Citation.buildPanel.authorInfo self env r s with
  | none => rfl
  | some s1 =>
    simp only [Option.some_bind]
    cases h2 : Citation.buildPanel.titleInfo self env r
        (Citation.buildPanel.compactCheck self s1) with
    | none => rfl
    | some s2 => rfl

theorem Citation.titleFirstTrace_of_wellFormed (self : Citation) (env : Env)
    (r : ResultElement) (s : RenderState) (hwf : r.wellFormed = true) :
    ∃ tr, Citation.buildPanel.titleFirstTrace self env r s = some tr :=
  fieldTrace_of_total _ _ _ _ _
    (fun s => Citation.titleInfo_of_wellFormed self env r s hwf)
    (fun s => Citation.authorInfo_of_wellFormed self env r s hwf)
    (fun _ => ⟨_, rfl⟩) (fun _ => ⟨_, rfl⟩) s

theorem Citation.authorsFirstTrace_of_wellFormed (self : Citation) (env : Env)
    (r : ResultElement) (s : RenderState) (hwf : r.wellFormed = true) :
    ∃ tr, Citation.buildPanel.authorsFirstTrace self env r s = some tr :=
  fieldTrace_of_total _ _ _ _ _
    (fun s => Citation.authorInfo_of_wellFormed self env r s hwf)
    (fun s => Citation.titleInfo_of_wellFormed self env r s hwf)
    (fun _ => ⟨_, rfl⟩) (fun _ => ⟨_, rfl⟩) s

theorem Citation.titleFirstTrace_facts (self : Citation) (env : Env) (r : ResultElement)
    (s : RenderState) (tr : FieldTrace) (hC : self.opt.displayStyle = "COMPACT_STYLE")
    (hs : s.continueCitation = true) (hp : s.panel = Panel.empty)
    (htr : Citation.buildPanel.titleFirstTrace self env r s = some tr) :
    tr.entry1 = s ∧ tr.budgetChecked self.opt.numRowCompact ∧
      tr.laterFieldsEmpty Panel.authors Panel.journal Panel.source ∧
      tr.rowsNeverDecrease ∧ tr.producedIsPrefix :=
  fieldTrace_facts _ _ _ _ _ _ _ _ _ Panel.authors Panel.journal Panel.source _ s tr
    (Citation.compactCheck_spec self hC)
    (Citation.titleInfo_block self env r) (Citation.authorInfo_block self env r)
    (Citation.journalInfo_block r) (Citation.sourceInfo_block r)
    (fun _ _ => rfl) (fun _ _ => rfl) (fun _ _ => rfl) (fun _ _ => rfl) (fun _ _ => rfl)
    (fun _ _ => rfl) hs (by rw [hp]; rfl) (by rw [hp]; rfl) (by rw [hp]; rfl) htr

theorem Citation.authorsFirstTrace_facts (self : Citation) (env : Env) (r : ResultElement)
    (s : RenderState) (tr : FieldTrace) (hC : self.opt.displayStyle = "COMPACT_STYLE")
    (hs : s.continueCitation = true) (hp : s.panel = Panel.empty)
    (htr : Citation.buildPanel.authorsFirstTrace self env r s = some tr) :
    tr.entry1 = s ∧ tr.budgetChecked self.opt.numRowCompact ∧
      tr.laterFieldsEmpty Panel.title Panel.source Panel.journal ∧
      tr.rowsNeverDecrease ∧ tr.producedIsPrefix :=
  fieldTrace_facts _ _ _ _ _ _ _ _ _ Panel.title Panel.source Panel.journal _ s tr
    (Citation.compactCheck_spec self hC)
    (Citation.authorInfo_block self env r) (Citation.titleInfo_block self env r)
    (Citation.sourceInfo_block r) (Citation.journalInfo_block r)
    (fun _ _ => rfl) (fun _ _ => rfl) (fun _ _ => rfl) (fun _ _ => rfl) (fun _ _ => rfl)
    (fun _ _ => rfl) hs (by rw [hp]; rfl) (by rw [hp]; rfl) (by rw [hp]; rfl) htr


theorem CitationList.list_compactCheck_spec (self : CitationList)
    (hC : self.opt.displayStyle = some "COMPACT_STYLE") :
    CompactCheck (CitationList.buildPanel.compactCheck self) self.opt.numRowCompact := by
  intro s
  have hC' : self.opt.displayStyle = some CitationList.COMPACT_STYLE := hC
  simp only [CitationList.buildPanel.compactCheck, if_pos hC']

theorem CitationList.list_titleInfo_block (self : CitationList) (env : Env) (r : ResultElement) :
    FieldBlock (CitationList.buildPanel.titleInfo self env r) (fun p t => { p with title := t }) := by
  intro s
  constructor
  · intro hc
    simp [CitationList.buildPanel.titleInfo, hc]
  · intro s' h
    unfold CitationList.buildPanel.titleInfo at h
    split_ifs at h
    · cases hl : CitationList.getLabelTitle self env r env.titleFontSize s.numCurrentRows
          env.titleFontFamily with
      | none => simp [hl] at h
      | some l =>
        simp only [hl, Option.some.injEq] at h
        subst h
        right
        exact ⟨_, s._tempLabel,
          (env.textWidth env.titleFontFamily env.titleFontSize l.toStr + self._innerWidth - 1)
            / self._innerWidth, rfl⟩
    · left
      exact (Option.some.inj h).symm

theorem CitationList.list_authorInfo_block (self : CitationList) (env : Env) (r : ResultElement) :
    FieldBlock (CitationList.buildPanel.authorInfo self env r)
      (fun p t => { p with authors := t }) := by
  intro s
  constructor
  · intro hc
    simp [CitationList.buildPanel.authorInfo, hc]
  · intro s' h
    unfold CitationList.buildPanel.authorInfo at h
    split_ifs at h
    · cases hl : CitationList.getAuthorsElement self env r env.authorsFontSize s.numCurrentRows
          env.authorsFontFamily with
      | none => simp [hl] at h
      | some l =>
        obtain ⟨html, label⟩ := l
        simp only [hl, Option.some.injEq] at h
        subst h
        right
        exact ⟨html, label,
          (env.textWidth env.authorsFontFamily env.authorsFontSize label + self._innerWidth - 1)
            / self._innerWidth, rfl⟩
    · left
      exact (Option.some.inj h).symm

theorem CitationList.list_journalInfo_block (r : ResultElement) :
    FieldBlock (fun s => some (CitationList.buildPanel.journalInfo r s))
      (fun p t => { p with journal := t }) := by
  intro s
  constructor
  · intro hc
    simp [CitationList.buildPanel.journalInfo, hc]
  · intro s' h
    have h' := (Option.some.inj h).symm
    subst h'
    unfold CitationList.buildPanel.journalInfo
    split_ifs
    · right
      exact ⟨_, s._tempLabel, 1, rfl⟩
    · left
      rfl

theorem CitationList.list_sourceInfo_block (r : ResultElement) :
    FieldBlock (fun s => some (CitationList.buildPanel.sourceInfo r s))
      (fun p t => { p with source := t }) := by
  intro s
  constructor
  · intro hc
    simp [CitationList.buildPanel.sourceInfo, hc]
  · intro s' h
    have h' := (Option.some.inj h).symm
    subst h'
    unfold CitationList.buildPanel.sourceInfo
    split_ifs
    · right
      exact ⟨_, s._tempLabel, 1, rfl⟩
    · left
      rfl

theorem CitationList.list_titleFirst_eq_trace (self : CitationList) (env : Env) (r : ResultElement)
    (s : RenderState) :
    CitationList.buildPanel.titleFirst self env r s
      = (CitationList.buildPanel.titleFirstTrace self env r s).map FieldTrace.final := by
  unfold CitationList.buildPanel.titleFirst CitationList.buildPanel.titleFirstHead
    CitationList.buildPanel.titleFirstTrace fieldTrace
  cases h1 : CitationList.buildPanel.titleInfo self env r s with
  | none => rfl
  | some s1 =>
    simp only [Option.some_bind]
    cases h2 : CitationList.buildPanel.authorInfo self env r
        (CitationList.buildPanel.compactCheck self s1) with
    | none => rfl
    | some s2 => rfl

theorem CitationList.list_authorsFirst_eq_trace (self : CitationList) (env : Env) (r : ResultElement)
    (s : RenderState) :
    CitationList.buildPanel.authorsFirst self env r s
      = (CitationList.buildPanel.authorsFirstTrace self env r s).map FieldTrace.final := by
  unfold CitationList.buildPanel.authorsFirst CitationList.buildPanel.authorsFirstHead
    CitationList.buildPanel.authorsFirstTrace fieldTrace
  cases h1 : CitationList.buildPanel.authorInfo self env r s with
  | none => rfl
  | some s1 =>
    simp only [Option.some_bind]
    cases h2 : CitationList.buildPanel.titleInfo self env r
        (CitationList.buildPanel.compactCheck self s1) with
    | none => rfl
    | some s2 => rfl

theorem CitationList.list_titleFirstTrace_of_wellFormed (self : CitationList) (env : Env)
    (r : ResultElement) (s : RenderState) (hwf : r.wellFormed = true) :
    ∃ tr, CitationList.buildPanel.titleFirstTrace self env r s = some tr :=
  fieldTrace_of_total _ _ _ _ _
    (fun s => CitationList.list_titleInfo_of_wellFormed self env r s hwf)
    (fun s => CitationList.list_authorInfo_of_wellFormed self env r s hwf)
    (fun _ => ⟨_, rfl⟩) (fun _ => ⟨_, rfl⟩) s

theorem CitationList.list_authorsFirstTrace_of_wellFormed (self : CitationList) (env : Env)
    (r : ResultElement) (s : RenderState) (hwf : r.wellFormed = true) :
    ∃ tr, CitationList.buildPanel.authorsFirstTrace self env r s = some tr :=
  fieldTrace_of_total _ _ _ _ _
    (fun s => CitationList.list_authorInfo_of_wellFormed self env r s hwf)
    (fun s => CitationList.list_titleInfo_of_wellFormed self env r s hwf)
    (fun _ => ⟨_, rfl⟩) (fun _ => ⟨_, rfl⟩) s

theorem CitationList.list_titleFirstTrace_facts (self : CitationList) (env : Env) (r : ResultElement)
    (s : RenderState) (tr : FieldTrace) (hC : self.opt.displayStyle = some "COMPACT_STYLE")
    (hs : s.continueCitation = true) (hp : s.panel = Panel.empty)
    (htr : CitationList.buildPanel.titleFirstTrace self env r s = some tr) :
    tr.entry1 = s ∧ tr.budgetChecked self.opt.numRowCompact ∧
      tr.laterFieldsEmpty Panel.authors Panel.journal Panel.source ∧
      tr.rowsNeverDecrease ∧ tr.producedIsPrefix :=
  fieldTrace_facts _ _ _ _ _ _ _ _ _ Panel.authors Panel.journal Panel.source _ s tr
    (CitationList.list_compactCheck_spec self hC)
    (CitationList.list_titleInfo_block self env r) (CitationList.list_authorInfo_block self env r)
    (CitationList.list_journalInfo_block r) (CitationList.list_sourceInfo_block r)
    (fun _ _ => rfl) (fun _ _ => rfl) (fun _ _ => rfl) (fun _ _ => rfl) (fun _ _ => rfl)
    (fun _ _ => rfl) hs (by rw [hp]; rfl) (by rw [hp]; rfl) (by rw [hp]; rfl) htr

theorem CitationList.list_authorsFirstTrace_facts (self : CitationList) (env : Env) (r : ResultElement)
    (s : RenderState) (tr : FieldTrace) (hC : self.opt.displayStyle = some "COMPACT_STYLE")
    (hs : s.continueCitation = true) (hp : s.panel = Panel.empty)
    (htr : CitationList.buildPanel.authorsFirstTrace self env r s = some tr) :
    tr.entry1 = s ∧ tr.budgetChecked self.opt.numRowCompact ∧
      tr.laterFieldsEmpty Panel.title Panel.source Panel.journal ∧
      tr.rowsNeverDecrease ∧ tr.producedIsPrefix :=
  fieldTrace_facts _ _ _ _ _ _ _ _ _ Panel.title Panel.source Panel.journal _ s tr
    (CitationList.list_compactCheck_spec self hC)
    (CitationList.list_authorInfo_block self env r) (CitationList.list_titleInfo_block self env r)
    (CitationList.list_sourceInfo_block r) (CitationList.list_journalInfo_block r)
    (fun _ _ => rfl) (fun _ _ => rfl) (fun _ _ => rfl) (fun _ _ => rfl) (fun _ _ => rfl)
    (fun _ _ => rfl) hs (by rw [hp]; rfl) (by rw [hp]; rfl) (by rw [hp]; rfl) htr


theorem Citation.record_of_titleFirstTrace (self : Citation) (env : Env) (r : ResultElement)
    (tr : FieldTrace) (hC : self.opt.displayStyle = "COMPACT_STYLE")
    (hO : self.opt.elementOrder = "TITLE_FIRST")
    (htr : Citation.buildPanel.titleFirstTrace self env r RenderState.initial = some tr) :
    Citation.buildPanel.record self env r
      = some (Citation.buildPanel.abstractInfo self r tr.final) := by
  have hT : ¬ (self.opt.displayStyle = Citation.TITLE_ONLY_STYLE) := by rw [hC]; decide
  have hAF : ¬ (self.opt.elementOrder = Citation.AUTHORS_FIRST) := by rw [hO]; decide
  have hTF : self.opt.elementOrder = Citation.TITLE_FIRST := hO
  unfold Citation.buildPanel.record
  simp only [if_neg hT, if_neg hAF, if_pos hTF]
  show (Citation.buildPanel.titleFirst self env r RenderState.initial).bind _ = _
  rw [Citation.titleFirst_eq_trace, htr]
  rfl

theorem Citation.record_of_authorsFirstTrace (self : Citation) (env : Env) (r : ResultElement)
    (tr : FieldTrace) (hC : self.opt.displayStyle = "COMPACT_STYLE")
    (hO : self.opt.elementOrder = "AUTHORS_FIRST")
    (htr : Citation.buildPanel.authorsFirstTrace self env r RenderState.initial = some tr) :
    Citation.buildPanel.record self env r
      = some (Citation.buildPanel.abstractInfo self r tr.final) := by
  have hT : ¬ (self.opt.displayStyle = Citation.TITLE_ONLY_STYLE) := by rw [hC]; decide
  have hAF : self.opt.elementOrder = Citation.AUTHORS_FIRST := hO
  unfold Citation.buildPanel.record
  simp only [if_neg hT, if_pos hAF]
  show (Citation.buildPanel.authorsFirst self env r RenderState.initial).bind _ = _
  rw [Citation.authorsFirst_eq_trace, htr]
  rfl

theorem Citation.record_other_order (self : Citation) (env : Env) (r : ResultElement)
    (hC : self.opt.displayStyle = "COMPACT_STYLE")
    (hTF : self.opt.elementOrder ≠ "TITLE_FIRST")
    (hAF : self.opt.elementOrder ≠ "AUTHORS_FIRST") :
    Citation.buildPanel.record self env r
      = some (Citation.buildPanel.abstractInfo self r RenderState.initial) := by
  have hT : ¬ (self.opt.displayStyle = Citation.TITLE_ONLY_STYLE) := by rw [hC]; decide
  have hAF' : ¬ (self.opt.elementOrder = Citation.AUTHORS_FIRST) := hAF
  have hTF' : ¬ (self.opt.elementOrder = Citation.TITLE_FIRST) := hTF
  unfold Citation.buildPanel.record
  simp only [if_neg hT, if_neg hAF', if_neg hTF']
  rfl

theorem CitationList.citation_of_titleFirstTrace (self : CitationList) (env : Env)
    (r : ResultElement) (rowsBefore : Int) (labelBefore : String) (tr : FieldTrace)
    (hC : self.opt.displayStyle = some "COMPACT_STYLE")
    (hO : self.opt.elementOrder = some "TITLE_FIRST")
    (htr : CitationList.buildPanel.titleFirstTrace self env r (RenderState.turnStart labelBefore)
      = some tr) :
    CitationList.buildPanel.citation self env r rowsBefore labelBefore = some tr.final := by
  have hT : ¬ (self.opt.displayStyle = some CitationList.TITLE_ONLY_STYLE) := by
    rw [hC]; decide
  have hAF : ¬ (self.opt.elementOrder = some CitationList.AUTHORS_FIRST) := by rw [hO]; decide
  have hTF : self.opt.elementOrder = some CitationList.TITLE_FIRST := hO
  unfold CitationList.buildPanel.citation
  simp only [if_neg hT, if_neg hAF, if_pos hTF]
  show CitationList.buildPanel.titleFirst self env r (RenderState.turnStart labelBefore) = _
  rw [CitationList.list_titleFirst_eq_trace, htr]
  rfl

theorem CitationList.citation_of_authorsFirstTrace (self : CitationList) (env : Env)
    (r : ResultElement) (rowsBefore : Int) (labelBefore : String) (tr : FieldTrace)
    (hC : self.opt.displayStyle = some "COMPACT_STYLE")
    (hO : self.opt.elementOrder = some "AUTHORS_FIRST")
    (htr : CitationList.buildPanel.authorsFirstTrace self env r
      (RenderState.turnStart labelBefore) = some tr) :
    CitationList.buildPanel.citation self env r rowsBefore labelBefore = some tr.final := by
  have hT : ¬ (self.opt.displayStyle = some CitationList.TITLE_ONLY_STYLE) := by
    rw [hC]; decide
  have hAF : self.opt.elementOrder = some CitationList.AUTHORS_FIRST := hO
  unfold CitationList.buildPanel.citation
  simp only [if_neg hT, if_pos hAF]
  show CitationList.buildPanel.authorsFirst self env r (RenderState.turnStart labelBefore) = _
  rw [CitationList.list_authorsFirst_eq_trace, htr]
  rfl

theorem CitationList.citation_other_order (self : CitationList) (env : Env)
    (r : ResultElement) (rowsBefore : Int) (labelBefore : String)
    (hC : self.opt.displayStyle = some "COMPACT_STYLE")
    (hTF : self.opt.elementOrder ≠ some "TITLE_FIRST")
    (hAF : self.opt.elementOrder ≠ some "AUTHORS_FIRST") :
    CitationList.buildPanel.citation self env r rowsBefore labelBefore
      = some { RenderState.turnStart labelBefore with numCurrentRows := rowsBefore } := by
  have hT : ¬ (self.opt.displayStyle = some CitationList.TITLE_ONLY_STYLE) := by
    rw [hC]; decide
  have hAF' : ¬ (self.opt.elementOrder = some CitationList.AUTHORS_FIRST) := hAF
  have hTF' : ¬ (self.opt.elementOrder = some CitationList.TITLE_FIRST) := hTF
  unfold CitationList.buildPanel.citation
  simp only [if_neg hT, if_neg hAF', if_neg hTF']
  rfl


/-- C23 (amended): in the compact style the first field of the order is produced without a
check, and every later field is produced only if `rowsUsed + 1 <= rowBudget` holds right before
it; when that check fails, the field and all the fields after it stay empty.  This holds for
both orders of both widgets. -/
theorem compact_budget_check (c : Citation) (l : CitationList) (env : Env) (r : ResultElement)
    (rowsBefore : Int) (labelBefore : String) (hwf : r.wellFormed = true)
    (hc : c.opt.displayStyle = "COMPACT_STYLE")
    (hl : l.opt.displayStyle = some "COMPACT_STYLE") :
    (c.opt.elementOrder = "TITLE_FIRST" →
      ∃ tr, Citation.buildPanel.titleFirstTrace (Citation.buildPanel.setInnerWidth c) env r
          RenderState.initial = some tr ∧
        Citation.buildPanel.record (Citation.buildPanel.setInnerWidth c) env r
          = some (Citation.buildPanel.abstractInfo (Citation.buildPanel.setInnerWidth c) r
              tr.final) ∧
        tr.budgetChecked c.opt.numRowCompact ∧
        tr.laterFieldsEmpty Panel.authors Panel.journal Panel.source) ∧
    (c.opt.elementOrder = "AUTHORS_FIRST" →
      ∃ tr, Citation.buildPanel.authorsFirstTrace (Citation.buildPanel.setInnerWidth c) env r
          RenderState.initial = some tr ∧
        Citation.buildPanel.record (Citation.buildPanel.setInnerWidth c) env r
          = some (Citation.buildPanel.abstractInfo (Citation.buildPanel.setInnerWidth c) r
              tr.final) ∧
        tr.budgetChecked c.opt.numRowCompact ∧
        tr.laterFieldsEmpty Panel.title Panel.source Panel.journal) ∧
    (l.opt.elementOrder = some "TITLE_FIRST" →
      ∃ tr, CitationList.buildPanel.titleFirstTrace (CitationList.buildPanel.setInnerWidth l)
          env r (RenderState.turnStart labelBefore) = some tr ∧
        CitationList.buildPanel.citation (CitationList.buildPanel.setInnerWidth l) env r
          rowsBefore labelBefore = some tr.final ∧
        tr.budgetChecked l.opt.numRowCompact ∧
        tr.laterFieldsEmpty Panel.authors Panel.journal Panel.source) ∧
    (l.opt.elementOrder = some "AUTHORS_FIRST" →
      ∃ tr, CitationList.buildPanel.authorsFirstTrace (CitationList.buildPanel.setInnerWidth l)
          env r (RenderState.turnStart labelBefore) = some tr ∧
        CitationList.buildPanel.citation (CitationList.buildPanel.setInnerWidth l) env r
          rowsBefore labelBefore = some tr.final ∧
        tr.budgetChecked l.opt.numRowCompact ∧
        tr.laterFieldsEmpty Panel.title Panel.source Panel.journal) := by
  refine ⟨?_, ?_, ?_, ?_⟩
  · intro hO
    obtain ⟨tr, htr⟩ := Citation.titleFirstTrace_of_wellFormed
      (Citation.buildPanel.setInnerWidth c) env r RenderState.initial hwf
    have hf := Citation.titleFirstTrace_facts (Citation.buildPanel.setInnerWidth c) env r
      RenderState.initial tr hc rfl rfl htr
    exact ⟨tr, htr, Citation.record_of_titleFirstTrace _ env r tr hc hO htr, hf.2.1, hf.2.2.1⟩
  · intro hO
    obtain ⟨tr, htr⟩ := Citation.authorsFirstTrace_of_wellFormed
      (Citation.buildPanel.setInnerWidth c) env r RenderState.initial hwf
    have hf := Citation.authorsFirstTrace_facts (Citation.buildPanel.setInnerWidth c) env r
      RenderState.initial tr hc rfl rfl htr
    exact ⟨tr, htr, Citation.record_of_authorsFirstTrace _ env r tr hc hO htr, hf.2.1, hf.2.2.1⟩
  · intro hO
    obtain ⟨tr, htr⟩ := CitationList.list_titleFirstTrace_of_wellFormed
      (CitationList.buildPanel.setInnerWidth l) env r (RenderState.turnStart labelBefore) hwf
    have hf := CitationList.list_titleFirstTrace_facts (CitationList.buildPanel.setInnerWidth l)
      env r (RenderState.turnStart labelBefore) tr hl rfl rfl htr
    exact ⟨tr, htr, CitationList.citation_of_titleFirstTrace _ env r rowsBefore labelBefore tr hl
      hO htr, hf.2.1, hf.2.2.1⟩
  · intro hO
    obtain ⟨tr, htr⟩ := CitationList.list_authorsFirstTrace_of_wellFormed
      (CitationList.buildPanel.setInnerWidth l) env r (RenderState.turnStart labelBefore) hwf
    have hf := CitationList.list_authorsFirstTrace_facts
      (CitationList.buildPanel.setInnerWidth l) env r (RenderState.turnStart labelBefore) tr hl
      rfl rfl htr
    exact ⟨tr, htr, CitationList.citation_of_authorsFirstTrace _ env r rowsBefore labelBefore tr
      hl hO htr, hf.2.1, hf.2.2.1⟩

theorem compact_budget_check_witness :
    sampleRecord.wellFormed = true ∧
    sampleZeroBudgetCitation.opt.displayStyle = "COMPACT_STYLE" ∧
    sampleCompactCitationList.opt.displayStyle = some "COMPACT_STYLE" ∧
    ∃ tr, Citation.buildPanel.titleFirstTrace
        (Citation.buildPanel.setInnerWidth sampleZeroBudgetCitation) sampleEnv sampleRecord
        RenderState.initial = some tr ∧
      Citation.buildPanel.record (Citation.buildPanel.setInnerWidth sampleZeroBudgetCitation)
          sampleEnv sampleRecord
        = some (Citation.buildPanel.abstractInfo
            (Citation.buildPanel.setInnerWidth sampleZeroBudgetCitation) sampleRecord tr.final) ∧
      tr.budgetChecked sampleZeroBudgetCitation.opt.numRowCompact ∧
      tr.laterFieldsEmpty Panel.authors Panel.journal Panel.source :=
  ⟨rfl, rfl, rfl,
    (compact_budget_check sampleZeroBudgetCitation sampleCompactCitationList sampleEnv
      sampleRecord 0 "" rfl rfl rfl).1 rfl⟩

/-- C23 (counterexample): with a row budget of 0 in the compact style, title first, the check
`0 + 1 <= 0` fails before the first field, and yet the title field is produced (shortened to
`...`); it takes one row, and only the three later fields stay empty. -/
theorem compact_budget_check_counterexample :
    sampleZeroBudgetCitation.opt.displayStyle = "COMPACT_STYLE" ∧
    sampleZeroBudgetCitation.opt.numRowCompact = 0 ∧
    ¬ ((0 : Int) + 1 ≤ sampleZeroBudgetCitation.opt.numRowCompact) ∧
    (Citation.buildPanel sampleZeroBudgetCitation sampleEnv sampleResponse).map
        (fun s => (s.panel.title, s.panel.authors, s.panel.journal, s.panel.source,
          s.numCurrentRows))
      = some ("<a class=\"epmc_citation_link\" href=\"http://europepmc.org/abstract/med/123\">...</a>",
          "", "", "", 1) := by
  refine ⟨rfl, rfl, by decide, by rfl⟩

/-! ## Rows and produced fields in the compact style -/

/-- C26: in the compact style, for every record, element order, row budget, width and
measurement, the rows used never decrease from one field to the next, and once a field is
skipped because `rowsUsed + 1 > rowBudget` every later field of the order the code uses is
skipped too; with an element order that is neither of the two, no field is produced.  This holds
for both widgets. -/
theorem compact_rows_monotone (c : Citation) (l : CitationList) (env : Env) (r : ResultElement)
    (rowsBefore : Int) (labelBefore : String) (hwf : r.wellFormed = true)
    (hc : c.opt.displayStyle = "COMPACT_STYLE")
    (hl : l.opt.displayStyle = some "COMPACT_STYLE") :
    (c.opt.elementOrder = "TITLE_FIRST" →
      ∃ tr, Citation.buildPanel.titleFirstTrace (Citation.buildPanel.setInnerWidth c) env r
          RenderState.initial = some tr ∧
        Citation.buildPanel.record (Citation.buildPanel.setInnerWidth c) env r
          = some (Citation.buildPanel.abstractInfo (Citation.buildPanel.setInnerWidth c) r
              tr.final) ∧
        tr.budgetChecked c.opt.numRowCompact ∧ tr.rowsNeverDecrease ∧ tr.producedIsPrefix) ∧
    (c.opt.elementOrder = "AUTHORS_FIRST" →
      ∃ tr, Citation.buildPanel.authorsFirstTrace (Citation.buildPanel.setInnerWidth c) env r
          RenderState.initial = some tr ∧
        Citation.buildPanel.record (Citation.buildPanel.setInnerWidth c) env r
          = some (Citation.buildPanel.abstractInfo (Citation.buildPanel.setInnerWidth c) r
              tr.final) ∧
        tr.budgetChecked c.opt.numRowCompact ∧ tr.rowsNeverDecrease ∧ tr.producedIsPrefix) ∧
    (c.opt.elementOrder ≠ "TITLE_FIRST" → c.opt.elementOrder ≠ "AUTHORS_FIRST" →
      Citation.buildPanel.record (Citation.buildPanel.setInnerWidth c) env r
        = some (Citation.buildPanel.abstractInfo (Citation.buildPanel.setInnerWidth c) r
            RenderState.initial)) ∧
    (l.opt.elementOrder = some "TITLE_FIRST" →
      ∃ tr, CitationList.buildPanel.titleFirstTrace (CitationList.buildPanel.setInnerWidth l)
          env r (RenderState.turnStart labelBefore) = some tr ∧
        CitationList.buildPanel.citation (CitationList.buildPanel.setInnerWidth l) env r
          rowsBefore labelBefore = some tr.final ∧
        tr.budgetChecked l.opt.numRowCompact ∧ tr.rowsNeverDecrease ∧ tr.producedIsPrefix) ∧
    (l.opt.elementOrder = some "AUTHORS_FIRST" →
      ∃ tr, CitationList.buildPanel.authorsFirstTrace (CitationList.buildPanel.setInnerWidth l)
          env r (RenderState.turnStart labelBefore) = some tr ∧
        CitationList.buildPanel.citation (CitationList.buildPanel.setInnerWidth l) env r
          rowsBefore labelBefore = some tr.final ∧
        tr.budgetChecked l.opt.numRowCompact ∧ tr.rowsNeverDecrease ∧ tr.producedIsPrefix) ∧
    (l.opt.elementOrder ≠ some "TITLE_FIRST" → l.opt.elementOrder ≠ some "AUTHORS_FIRST" →
      CitationList.buildPanel.citation (CitationList.buildPanel.setInnerWidth l) env r
          rowsBefore labelBefore
        = some { RenderState.turnStart labelBefore with numCurrentRows := rowsBefore }) := by
  refine ⟨?_, ?_, ?_, ?_, ?_, ?_⟩
  · intro hO
    obtain ⟨tr, htr⟩ := Citation.titleFirstTrace_of_wellFormed
      (Citation.buildPanel.setInnerWidth c) env r RenderState.initial hwf
    have hf := Citation.titleFirstTrace_facts (Citation.buildPanel.setInnerWidth c) env r
      RenderState.initial tr hc rfl rfl htr
    exact ⟨tr, htr, Citation.record_of_titleFirstTrace _ env r tr hc hO htr, hf.2.1,
      hf.2.2.2.1, hf.2.2.2.2⟩
  · intro hO
    obtain ⟨tr, htr⟩ := Citation.authorsFirstTrace_of_wellFormed
      (Citation.buildPanel.setInnerWidth c) env r RenderState.initial hwf
    have hf := Citation.authorsFirstTrace_facts (Citation.buildPanel.setInnerWidth c) env r
      RenderState.initial tr hc rfl rfl htr
    exact ⟨tr, htr, Citation.record_of_authorsFirstTrace _ env r tr hc hO htr, hf.2.1,
      hf.2.2.2.1, hf.2.2.2.2⟩
  · intro hTF hAF
    exact Citation.record_other_order (Citation.buildPanel.setInnerWidth c) env r hc hTF hAF
  · intro hO
    obtain ⟨tr, htr⟩ := CitationList.list_titleFirstTrace_of_wellFormed
      (CitationList.buildPanel.setInnerWidth l) env r (RenderState.turnStart labelBefore) hwf
    have hf := CitationList.list_titleFirstTrace_facts (CitationList.buildPanel.setInnerWidth l)
      env r (RenderState.turnStart labelBefore) tr hl rfl rfl htr
    exact ⟨tr, htr, CitationList.citation_of_titleFirstTrace _ env r rowsBefore labelBefore tr hl
      hO htr, hf.2.1, hf.2.2.2.1, hf.2.2.2.2⟩
  · intro hO
    obtain ⟨tr, htr⟩ := CitationList.list_authorsFirstTrace_of_wellFormed
      (CitationList.buildPanel.setInnerWidth l) env r (RenderState.turnStart labelBefore) hwf
    have hf := CitationList.list_authorsFirstTrace_facts
      (CitationList.buildPanel.setInnerWidth l) env r (RenderState.turnStart labelBefore) tr hl
      rfl rfl htr
    exact ⟨tr, htr, CitationList.citation_of_authorsFirstTrace _ env r rowsBefore labelBefore tr
      hl hO htr, hf.2.1, hf.2.2.2.1, hf.2.2.2.2⟩
  · intro hTF hAF
    exact CitationList.citation_other_order (CitationList.buildPanel.setInnerWidth l) env r
      rowsBefore labelBefore hl hTF hAF

theorem compact_rows_monotone_witness :
    sampleRecord.wellFormed = true ∧
    sampleCompactCitation.opt.displayStyle = "COMPACT_STYLE" ∧
    sampleCompactCitationList.opt.displayStyle = some "COMPACT_STYLE" ∧
    ∃ tr, CitationList.buildPanel.titleFirstTrace
        (CitationList.buildPanel.setInnerWidth sampleCompactCitationList) sampleEnv sampleRecord
        (RenderState.turnStart "") = some tr ∧
      CitationList.buildPanel.citation
          (CitationList.buildPanel.setInnerWidth sampleCompactCitationList) sampleEnv
          sampleRecord 0 "" = some tr.final ∧
      tr.budgetChecked sampleCompactCitationList.opt.numRowCompact ∧
      tr.rowsNeverDecrease ∧ tr.producedIsPrefix :=
  ⟨rfl, rfl, rfl,
    (compact_rows_monotone sampleCompactCitation sampleCompactCitationList sampleEnv
      sampleRecord 0 "" rfl rfl rfl).2.2.2.1 rfl⟩


/-! ## The helpers of the two widgets compared -/

theorem CitationList.list_getLabelTitle_eq (l : CitationList) (c : Citation) (env : Env)
    (r : ResultElement) (fontsize : String) (cur : Int) (fontfamily : String)
    (hd : l.opt.displayStyle = some c.opt.displayStyle)
    (hn : l.opt.numRowCompact = c.opt.numRowCompact) (hw : l._innerWidth = c._innerWidth) :
    CitationList.getLabelTitle l env r fontsize cur fontfamily
      = Citation.getLabelTitle c env r fontsize cur fontfamily := by
  have hstyle : (l.opt.displayStyle = some CitationList.COMPACT_STYLE)
      = (c.opt.displayStyle = Citation.COMPACT_STYLE) := by
    rw [hd]
    simp [CitationList.COMPACT_STYLE, Citation.COMPACT_STYLE]
  unfold CitationList.getLabelTitle Citation.getLabelTitle
  simp only [hstyle, hn, hw]

theorem CitationList.list_getJournalElement_eq (r : ResultElement)
    (h : ∀ book, r.bookOrReportDetails = some book → book.yearOfPublication.neNull = false) :
    CitationList.getJournalElement r = Citation.getJournalElement r := by
  unfold CitationList.getJournalElement Citation.getJournalElement
  cases hb : r.bookOrReportDetails with
  | none => rfl
  | some book =>
    have hy := h book hb
    simp only [hy, Bool.false_eq_true, if_false]
    rfl

/-- C25 at a failing input: `getAbstractUrl` and `getSourceElement` of the two widgets agree on
every record, and `getLabelTitle` and `getAuthorsElement` agree for every display style, row
budget, rows used, inner width and measurement; `getJournalElement` does not: for the record
without `journalInfo` whose book details are the publisher Springer and the year 2010,
`Citation` writes the year as `[2010]` and `CitationList` as `<span>[2010]</span>`. -/
theorem helpers_agree_but_journal :
    (∀ r, CitationList.getAbstractUrl r = Citation.getAbstractUrl r) ∧
    (∀ r, CitationList.getSourceElement r = Citation.getSourceElement r) ∧
    (∀ (style : String) (rowBudget rowsUsed : Int) (innerWidth : Nat) (env : Env)
        (r : ResultElement) (fontsize fontfamily : String),
      CitationList.getLabelTitle
          { opt := { CitationList.defaultOpt with
              displayStyle := some style, numRowCompact := rowBudget },
            _proxyUrl := "", _innerWidth := innerWidth } env r fontsize rowsUsed fontfamily
        = Citation.getLabelTitle
          { opt := { Citation.defaultOpt with
              displayStyle := style, numRowCompact := rowBudget },
            _proxyUrl := "", _innerWidth := innerWidth } env r fontsize rowsUsed fontfamily) ∧
    (∀ (style : String) (rowBudget rowsUsed : Int) (innerWidth : Nat) (env : Env)
        (r : ResultElement) (fontsize fontfamily : String),
      CitationList.getAuthorsElement
          { opt := { CitationList.defaultOpt with
              displayStyle := some style, numRowCompact := rowBudget },
            _proxyUrl := "", _innerWidth := innerWidth } env r fontsize rowsUsed fontfamily
        = Citation.getAuthorsElement
          { opt := { Citation.defaultOpt with
              displayStyle := style, numRowCompact := rowBudget },
            _proxyUrl := "", _innerWidth := innerWidth } env r fontsize rowsUsed fontfamily) ∧
    Citation.getJournalElement sampleBookRecord
      = searchLink "PUBLISHER:&quot;Springer&quot;" "Springer" ++ "[2010]" ∧
    CitationList.getJournalElement sampleBookRecord
      = searchLink "PUBLISHER:&quot;Springer&quot;" "Springer" ++ "<span>[2010]</span>" ∧
    CitationList.getJournalElement sampleBookRecord
      ≠ Citation.getJournalElement sampleBookRecord := by
  refine ⟨fun _ => rfl, fun _ => rfl, ?_, ?_, by rfl, by rfl, by decide⟩
  · intro style rowBudget rowsUsed innerWidth env r fontsize fontfamily
    exact CitationList.list_getLabelTitle_eq _ _ env r fontsize rowsUsed fontfamily rfl rfl rfl
  · intro style rowBudget rowsUsed innerWidth env r fontsize fontfamily
    exact CitationList.list_getAuthorsElement_eq _ _ env r fontsize rowsUsed fontfamily
      rfl rfl rfl


/-! ## The citations of a list are rendered one by one -/

theorem Option.bind_visible_congr (x y : Option RenderState)
    (k : RenderState → Option RenderState)
    (hxy : x.map RenderState.visible = y.map RenderState.visible)
    (hk : ∀ s t : RenderState, s.visible = t.visible →
      (k s).map RenderState.visible = (k t).map RenderState.visible) :
    (x.bind k).map RenderState.visible = (y.bind k).map RenderState.visible := by
  cases x with
  | none =>
    cases y with
    | none => rfl
    | some b => simp at hxy
  | some a =>
    cases y with
    | none => simp at hxy
    | some b =>
      simp only [Option.map_some', Option.some.injEq] at hxy
      simp only [Option.some_bind]
      exact hk a b hxy

theorem CitationList.list_compactCheck_visible (self : CitationList) (s t : RenderState)
    (h : s.visible = t.visible) :
    (CitationList.buildPanel.compactCheck self s).visible
      = (CitationList.buildPanel.compactCheck self t).visible := by
  obtain ⟨p, n, c, lbl1⟩ := s
  obtain ⟨p', n', c', lbl2⟩ := t
  simp only [RenderState.visible, Prod.mk.injEq] at h
  obtain ⟨rfl, rfl, rfl⟩ := h
  unfold CitationList.buildPanel.compactCheck
  split_ifs <;> rfl

theorem CitationList.list_journalInfo_visible (r : ResultElement) (s t : RenderState)
    (h : s.visible = t.visible) :
    (CitationList.buildPanel.journalInfo r s).visible
      = (CitationList.buildPanel.journalInfo r t).visible := by
  obtain ⟨p, n, c, lbl1⟩ := s
  obtain ⟨p', n', c', lbl2⟩ := t
  simp only [RenderState.visible, Prod.mk.injEq] at h
  obtain ⟨rfl, rfl, rfl⟩ := h
  unfold CitationList.buildPanel.journalInfo
  split_ifs <;> rfl

theorem CitationList.list_sourceInfo_visible (r : ResultElement) (s t : RenderState)
    (h : s.visible = t.visible) :
    (CitationList.buildPanel.sourceInfo r s).visible
      = (CitationList.buildPanel.sourceInfo r t).visible := by
  obtain ⟨p, n, c, lbl1⟩ := s
  obtain ⟨p', n', c', lbl2⟩ := t
  simp only [RenderState.visible, Prod.mk.injEq] at h
  obtain ⟨rfl, rfl, rfl⟩ := h
  unfold CitationList.buildPanel.sourceInfo
  split_ifs <;> rfl

theorem CitationList.list_titleInfo_visible (self : CitationList) (env : Env)
    (r : ResultElement) (s t : RenderState) (h : s.visible = t.visible) :
    (CitationList.buildPanel.titleInfo self env r s).map RenderState.visible
      = (CitationList.buildPanel.titleInfo self env r t).map RenderState.visible := by
  obtain ⟨p, n, c, lbl1⟩ := s
  obtain ⟨p', n', c', lbl2⟩ := t
  simp only [RenderState.visible, Prod.mk.injEq] at h
  obtain ⟨rfl, rfl, rfl⟩ := h
  unfold CitationList.buildPanel.titleInfo
  split_ifs
  · simp only
    cases CitationList.getLabelTitle self env r env.titleFontSize n env.titleFontFamily <;> rfl
  · rfl

theorem CitationList.list_authorInfo_visible (self : CitationList) (env : Env)
    (r : ResultElement) (s t : RenderState) (h : s.visible = t.visible) :
    (CitationList.buildPanel.authorInfo self env r s).map RenderState.visible
      = (CitationList.buildPanel.authorInfo self env r t).map RenderState.visible := by
  obtain ⟨p, n, c, lbl1⟩ := s
  obtain ⟨p', n', c', lbl2⟩ := t
  simp only [RenderState.visible, Prod.mk.injEq] at h
  obtain ⟨rfl, rfl, rfl⟩ := h
  unfold CitationList.buildPanel.authorInfo
  split_ifs
  · cases CitationList.getAuthorsElement self env r env.authorsFontSize n
      env.authorsFontFamily <;> rfl
  · rfl

theorem CitationList.list_titleFirst_visible (self : CitationList) (env : Env)
    (r : ResultElement) (s t : RenderState) (h : s.visible = t.visible) :
    (CitationList.buildPanel.titleFirst self env r s).map RenderState.visible
      = (CitationList.buildPanel.titleFirst self env r t).map RenderState.visible := by
  unfold CitationList.buildPanel.titleFirst CitationList.buildPanel.titleFirstHead
  apply Option.bind_visible_congr
  · apply Option.bind_visible_congr
    · exact CitationList.list_titleInfo_visible self env r s t h
    · intro a b hab
      exact CitationList.list_authorInfo_visible self env r _ _
        (CitationList.list_compactCheck_visible self a b hab)
  · intro a b hab
    simp only [Option.map_some', Option.some.injEq]
    exact CitationList.list_sourceInfo_visible r _ _
      (CitationList.list_compactCheck_visible self _ _
        (CitationList.list_journalInfo_visible r _ _
          (CitationList.list_compactCheck_visible self a b hab)))

theorem CitationList.list_authorsFirst_visible (self : CitationList) (env : Env)
    (r : ResultElement) (s t : RenderState) (h : s.visible = t.visible) :
    (CitationList.buildPanel.authorsFirst self env r s).map RenderState.visible
      = (CitationList.buildPanel.authorsFirst self env r t).map RenderState.visible := by
  unfold CitationList.buildPanel.authorsFirst CitationList.buildPanel.authorsFirstHead
  apply Option.bind_visible_congr
  · apply Option.bind_visible_congr
    · exact CitationList.list_authorInfo_visible self env r s t h
    · intro a b hab
      exact CitationList.list_titleInfo_visible self env r _ _
        (CitationList.list_compactCheck_visible self a b hab)
  · intro a b hab
    simp only [Option.map_some', Option.some.injEq]
    exact CitationList.list_journalInfo_visible r _ _
      (CitationList.list_compactCheck_visible self _ _
        (CitationList.list_sourceInfo_visible r _ _
          (CitationList.list_compactCheck_visible self a b hab)))

theorem CitationList.citation_panel_eq (self : CitationList) (env : Env) (r : ResultElement)
    (n : Int) (lbl : String) :
    (CitationList.buildPanel.citation self env r n lbl).map (fun s => s.panel)
      = (CitationList.buildPanel.citation self env r 0 "").map (fun s => s.panel) := by
  have hfst : ∀ x : Option RenderState,
      x.map (fun s => s.panel) = (x.map RenderState.visible).map Prod.fst := by
    intro x
    cases x <;> rfl
  unfold CitationList.buildPanel.citation
  split_ifs
  · rfl
  · rw [hfst, hfst]
    exact congrArg (Option.map Prod.fst)
      (CitationList.list_authorsFirst_visible self env r _ _ rfl)
  · rw [hfst, hfst]
    exact congrArg (Option.map Prod.fst)
      (CitationList.list_titleFirst_visible self env r _ _ rfl)
  · rfl


theorem CitationList.loop_citation_at (self : CitationList) (env : Env) :
    ∀ (l : List ResultElement) (n : Int) (lbl : String) (ps : List Panel),
      CitationList.buildPanel.loop self env l n lbl = some ps →
      ∀ (k : Nat) (r : ResultElement), l[k]? = some r →
        ∃ s, CitationList.buildPanel.citation self env r 0 "" = some s ∧
          ps[k]? = some s.panel
  | [], _, _, _, _, k, r, hk => by simp at hk
  | r0 :: rest, n, lbl, ps, h, k, r, hk => by
    simp only [CitationList.buildPanel.loop] at h
    cases hc : CitationList.buildPanel.citation self env r0 n lbl with
    | none => simp [hc] at h
    | some s0 =>
      simp only [hc] at h
      cases hl : CitationList.buildPanel.loop self env rest s0.numCurrentRows s0._tempLabel with
      | none => simp [hl] at h
      | some qs =>
        simp only [hl, Option.some.injEq] at h
        subst h
        cases k with
        | zero =>
          simp only [List.getElem?_cons_zero, Option.some.injEq] at hk
          subst hk
          have hp := CitationList.citation_panel_eq self env r0 n lbl
          rw [hc] at hp
          cases hc0 : CitationList.buildPanel.citation self env r0 0 "" with
          | none =>
            rw [hc0] at hp
            simp at hp
          | some s =>
            rw [hc0] at hp
            simp only [Option.map_some', Option.some.injEq] at hp
            exact ⟨s, rfl, by simp [hp]⟩
        | succ k =>
          simp only [List.getElem?_cons_succ] at hk ⊢
          exact CitationList.loop_citation_at self env rest _ _ qs hl k r hk

theorem CitationList.buildPanel_loop (self : CitationList) (env : Env) (resp : Response)
    (p : ListPanel) (h : CitationList.buildPanel self env resp = some p) :
    CitationList.buildPanel.loop { self with _innerWidth := self.opt.width.getD 0 + 17 } env
      (resp.result.take (CitationList.buildPanel.numCitations self resp).toNat) 0 ""
      = some p.citations := by
  unfold CitationList.buildPanel at h
  simp only at h
  cases hl : CitationList.buildPanel.loop { self with _innerWidth := self.opt.width.getD 0 + 17 } env
      (resp.result.take (CitationList.buildPanel.numCitations self resp).toNat) 0 "" with
  | none => simp [hl] at h
  | some ps =>
    simp only [hl, Option.some.injEq] at h
    subst h
    rfl

theorem CitationList.buildPanel_single (self : CitationList) (env : Env) (hitCount : Int)
    (r : ResultElement) (s : RenderState) (hX : 1 ≤ self.opt.numberResults)
    (hs : CitationList.buildPanel.citation
      { self with _innerWidth := self.opt.width.getD 0 + 17 } env r 0 "" = some s) :
    ∃ p1, CitationList.buildPanel self env { hitCount := hitCount, result := [r] } = some p1 ∧
      p1.citations = [s.panel] := by
  have hn : CitationList.buildPanel.numCitations self { hitCount := hitCount, result := [r] }
      = 1 := by
    unfold CitationList.buildPanel.numCitations
    have : ¬ ((([r] : List ResultElement).length : Int) > self.opt.numberResults) := by
      simp only [List.length_singleton, Nat.cast_one]
      omega
    simp only [if_neg this]
    rfl
  unfold CitationList.buildPanel
  simp only [hn]
  have ht : ([r] : List ResultElement).take (1 : Int).toNat = [r] := rfl
  simp only [ht, CitationList.buildPanel.loop, hs]
  exact ⟨_, rfl, rfl⟩

/-- C28 (amended): in `CitationList.buildPanel` each citation is rendered on its own: whenever
`buildPanel` completes on a response, the panel rendered for the record of index `k`, with `k`
less than the number of records and than `numberResults`, is the one rendered when the result
list holds that record alone, whatever the citations before it left in the row counter and in
`_tempLabel`; `buildPanel` completes on every response whose records carry a title string and
an author list. -/
theorem citations_independent (l : CitationList) (env : Env) (resp : Response) :
    (∀ p, CitationList.buildPanel l env resp = some p →
      ∀ (k : Nat) (r : ResultElement), (k : Int) < l.opt.numberResults →
        resp.result[k]? = some r →
        ∃ pk p1, p.citations[k]? = some pk ∧
          CitationList.buildPanel l env { hitCount := resp.hitCount, result := [r] } = some p1 ∧
          p1.citations = [pk]) ∧
    (resp.allWellFormed = true → ∃ p, CitationList.buildPanel l env resp = some p) := by
  refine ⟨?_, CitationList.buildPanel_of_allWellFormed l env resp⟩
  intro p hp k r hk hr
  have hloop := CitationList.buildPanel_loop l env resp p hp
  have hlen : k < resp.result.length := by
    rcases List.getElem?_eq_some.1 hr with ⟨h, -⟩
    exact h
  have hkn : k < (CitationList.buildPanel.numCitations l resp).toNat := by
    unfold CitationList.buildPanel.numCitations
    simp only
    split_ifs <;> omega
  have hr' : (resp.result.take (CitationList.buildPanel.numCitations l resp).toNat)[k]?
      = some r := by
    rw [List.getElem?_take_of_lt hkn]
    exact hr
  obtain ⟨s, hs, hpk⟩ := CitationList.loop_citation_at _ env _ 0 "" p.citations hloop k r hr'
  obtain ⟨p1, hp1, hc1⟩ := CitationList.buildPanel_single l env resp.hitCount r s (by omega) hs
  exact ⟨s.panel, p1, hpk, hp1, hc1⟩

theorem citations_independent_witness :
    sampleTwoRecordsResponse.allWellFormed = true ∧
    sampleTwoRecordsResponse.result[1]? = some sampleLongTitleRecord ∧
    ∃ p pk p1,
      CitationList.buildPanel sampleCompactCitationList sampleEnv sampleTwoRecordsResponse
        = some p ∧
      p.citations[1]? = some pk ∧
      CitationList.buildPanel sampleCompactCitationList sampleEnv
        { hitCount := sampleTwoRecordsResponse.hitCount, result := [sampleLongTitleRecord] }
        = some p1 ∧
      p1.citations = [pk] := by
  obtain ⟨p, hp⟩ := (citations_independent sampleCompactCitationList sampleEnv
    sampleTwoRecordsResponse).2 rfl
  obtain ⟨pk, p1, h1, h2, h3⟩ := (citations_independent sampleCompactCitationList sampleEnv
    sampleTwoRecordsResponse).1 p hp 1 sampleLongTitleRecord (by decide) rfl
  exact ⟨rfl, rfl, p, pk, p1, hp, h1, h2, h3⟩

/-! ## The count in the header and the citations rendered -/

theorem CitationList.buildPanel_header (self : CitationList) (env : Env) (resp : Response)
    (p : ListPanel) (h : CitationList.buildPanel self env resp = some p) :
    p.displaying
      = (if resp.hitCount > self.opt.numberResults then self.opt.numberResults
          else resp.hitCount) ∧
    ∃ tail : String, p.header
      = "<div class=\"epmc_display_container\"><span>Displaying " ++ toString p.displaying
        ++ " results of " ++ toString resp.hitCount ++ "</span>" ++ tail := by
  unfold CitationList.buildPanel at h
  simp only at h
  cases hl : CitationList.buildPanel.loop { self with _innerWidth := self.opt.width.getD 0 + 17 }
      env (resp.result.take (CitationList.buildPanel.numCitations self resp).toNat) 0 "" with
  | none => simp [hl] at h
  | some ps =>
    simp only [hl, Option.some.injEq] at h
    subst h
    refine ⟨rfl, ?_⟩
    simp only
    by_cases hlogo : (jsGivenStr self.opt.logoImage && decide (self.opt.width.getD 0 ≥ 150)) = true
    · refine ⟨"  <img id=\"epmc_logo\" src=\"" ++ jsOptStr self.opt.logoImage ++ "\"></div>", ?_⟩
      have e : "</span>  <img id=\"epmc_logo\" src=\""
          = "</span>" ++ "  <img id=\"epmc_logo\" src=\"" := by decide
      rw [if_pos hlogo, e]
      simp only [String.append_assoc]
    · refine ⟨"</div>", ?_⟩
      have e : "</span></div>" = "</span>" ++ "</div>" := by decide
      rw [if_neg hlogo, e]
      simp only [String.append_assoc]

/-- C29 (amended): for every response and every `numberResults` `X >= 0` in force (in
particular `hitCount > 0` and `1 <= X <= 25`), whenever `buildPanel` completes the header reads
`Displaying N results of hitCount` with `N = min(hitCount, X)`, the number of citations rendered
is `min(result.length, X)`, and the two agree whenever
`min(hitCount, X) <= result.length <= hitCount`; `buildPanel` completes on every response whose
records carry a title string and an author list. -/
theorem displayed_count (l : CitationList) (env : Env) (resp : Response)
    (hX : 0 ≤ l.opt.numberResults) :
    (∀ p, CitationList.buildPanel l env resp = some p →
      p.displaying = min resp.hitCount l.opt.numberResults ∧
      (∃ tail : String, p.header
        = "<div class=\"epmc_display_container\"><span>Displaying "
          ++ toString (min resp.hitCount l.opt.numberResults)
          ++ " results of " ++ toString resp.hitCount ++ "</span>" ++ tail) ∧
      (p.citations.length : Int) = min (resp.result.length : Int) l.opt.numberResults ∧
      (min resp.hitCount l.opt.numberResults ≤ (resp.result.length : Int) →
        (resp.result.length : Int) ≤ resp.hitCount →
        p.displaying = (p.citations.length : Int))) ∧
    (resp.allWellFormed = true → ∃ p, CitationList.buildPanel l env resp = some p) := by
  refine ⟨?_, CitationList.buildPanel_of_allWellFormed l env resp⟩
  intro p hp
  obtain ⟨hd, tail, hh⟩ := CitationList.buildPanel_header l env resp p hp
  have hd' : p.displaying = min resp.hitCount l.opt.numberResults := by
    rw [hd]
    split_ifs <;> omega
  have hlen : (p.citations.length : Int) = min (resp.result.length : Int) l.opt.numberResults := by
    have h3 := CitationList.buildPanel_citations_length l env resp p hp
    rw [List.length_take] at h3
    unfold CitationList.buildPanel.numCitations at h3
    simp only at h3
    split_ifs at h3 <;> omega
  refine ⟨hd', ⟨tail, ?_⟩, hlen, ?_⟩
  · rw [← hd']
    exact hh
  · intro h1 h2
    rw [hd', hlen]
    omega

theorem displayed_count_witness :
    (0 : Int) ≤ sampleTwoResultsList.opt.numberResults ∧
    sampleTwoRecordsResponse.allWellFormed = true ∧
    ∃ p, CitationList.buildPanel sampleTwoResultsList sampleEnv sampleTwoRecordsResponse
        = some p ∧
      p.displaying = 2 ∧ (p.citations.length : Int) = 2 := by
  obtain ⟨p, hp⟩ := (displayed_count sampleTwoResultsList sampleEnv
    sampleTwoRecordsResponse (by decide)).2 rfl
  obtain ⟨hd, -, hlen, -⟩ := (displayed_count sampleTwoResultsList sampleEnv
    sampleTwoRecordsResponse (by decide)).1 p hp
  exact ⟨by decide, rfl, p, hp, hd, hlen⟩

/-- C29 (counterexample): a list with `numberResults = 2` gets two hits and two records, the
second without `authorList`: the header would count `min(2, 2) = 2` results and the result list
is that long, but `buildPanel` raises a `TypeError` in its second turn and the two citations are
not rendered.  And on a response that reports one hit and carries two well-formed records, the
result list is at least as long as `min(hitCount, 2) = 1`, the header counts 1 result, and 2
citations are rendered. -/
theorem displayed_count_counterexample :
    0 < sampleAbortingResponse.hitCount ∧
    sampleTwoResultsList.opt.numberResults = 2 ∧
    min sampleAbortingResponse.hitCount sampleTwoResultsList.opt.numberResults
      ≤ (sampleAbortingResponse.result.length : Int) ∧
    CitationList.buildPanel sampleTwoResultsList sampleEnv sampleAbortingResponse = none ∧
    0 < sampleOneHitTwoRecordsResponse.hitCount ∧
    min sampleOneHitTwoRecordsResponse.hitCount sampleTwoResultsList.opt.numberResults
      ≤ (sampleOneHitTwoRecordsResponse.result.length : Int) ∧
    (CitationList.buildPanel sampleTwoResultsList sampleEnv
        sampleOneHitTwoRecordsResponse).map (fun p => (p.displaying, p.citations.length))
      = some (1, 2) := by
  refine ⟨by decide, rfl, by decide, by rfl, by decide, by decide, by rfl⟩

/-! ## Records without the optional properties -/

theorem Citation.getJournalElement_absent (r : ResultElement)
    (hJ : ∀ info, r.journalInfo = some info → info.journal = none)
    (hB : r.bookOrReportDetails = none) : Citation.getJournalElement r = "" := by
  unfold Citation.getJournalElement
  cases hI : r.journalInfo with
  | none => simp [hB, JSVal.neEmpty]
  | some info =>
    have hj := hJ info hI
    simp [hj, hB, JSVal.neEmpty]

theorem Citation.journalInfo_journal (r : ResultElement) (s : RenderState) :
    (Citation.buildPanel.journalInfo r s).panel.journal
      = if s.continueCitation then Citation.getJournalElement r else s.panel.journal := by
  unfold Citation.buildPanel.journalInfo
  split_ifs <;> rfl

theorem Citation.journalInfo_journal_cases (r : ResultElement) (s s' : RenderState)
    (hs : (fun s => some (Citation.buildPanel.journalInfo r s)) s = some s')
    (hP : s.panel.journal = "" ∨ s.panel.journal = Citation.getJournalElement r) :
    s'.panel.journal = "" ∨ s'.panel.journal = Citation.getJournalElement r := by
  have h := (Option.some.inj hs).symm
  subst h
  rw [Citation.journalInfo_journal]
  split_ifs
  · right
    rfl
  · exact hP

theorem Citation.record_journal (self : Citation) (env : Env) (r : ResultElement)
    (s : RenderState) (h : Citation.buildPanel.record self env r = some s) :
    s.panel.journal = "" ∨ s.panel.journal = Citation.getJournalElement r := by
  have hTitle : ∀ a b : RenderState, Citation.buildPanel.titleInfo self env r a = some b →
      (a.panel.journal = "" ∨ a.panel.journal = Citation.getJournalElement r) →
      (b.panel.journal = "" ∨ b.panel.journal = Citation.getJournalElement r) := by
    intro a b hab hP
    have e := (Citation.titleInfo_block self env r).preserves Panel.journal (fun _ _ => rfl)
      a b hab
    rw [e]
    exact hP
  have hAuthors : ∀ a b : RenderState, Citation.buildPanel.authorInfo self env r a = some b →
      (a.panel.journal = "" ∨ a.panel.journal = Citation.getJournalElement r) →
      (b.panel.journal = "" ∨ b.panel.journal = Citation.getJournalElement r) := by
    intro a b hab hP
    have e := (Citation.authorInfo_block self env r).preserves Panel.journal (fun _ _ => rfl)
      a b hab
    rw [e]
    exact hP
  have hSource : ∀ a b : RenderState,
      (fun s => some (Citation.buildPanel.sourceInfo r s)) a = some b →
      (a.panel.journal = "" ∨ a.panel.journal = Citation.getJournalElement r) →
      (b.panel.journal = "" ∨ b.panel.journal = Citation.getJournalElement r) := by
    intro a b hab hP
    have e := (Citation.sourceInfo_block r).preserves Panel.journal (fun _ _ => rfl) a b hab
    rw [e]
    exact hP
  unfold Citation.buildPanel.record at h
  simp only at h
  split_ifs at h with hT hAF hTF
  · simp only [Option.some_bind, Option.some.injEq] at h
    subst h
    left
    rw [(Citation.abstractInfo_fields self r _).2.2.1]
    rfl
  · rw [Citation.authorsFirst_eq_trace] at h
    cases htr : Citation.buildPanel.authorsFirstTrace self env r
        { panel := Panel.empty, numCurrentRows := 0, continueCitation := true,
          _tempLabel := "" } with
    | none =>
      rw [htr] at h
      simp at h
    | some tr =>
      rw [htr] at h
      simp only [Option.map_some', Option.some_bind, Option.some.injEq] at h
      subst h
      rw [(Citation.abstractInfo_fields self r _).2.2.1]
      exact fieldTrace_panel_invariant
        (fun p => p.journal = "" ∨ p.journal = Citation.getJournalElement r)
        _ _ _ _ _ (Citation.compactCheck_panel self) hAuthors hTitle hSource
        (Citation.journalInfo_journal_cases r) _ tr (Or.inl rfl) htr
  · rw [Citation.titleFirst_eq_trace] at h
    cases htr : Citation.buildPanel.titleFirstTrace self env r
        { panel := Panel.empty, numCurrentRows := 0, continueCitation := true,
          _tempLabel := "" } with
    | none =>
      rw [htr] at h
      simp at h
    | some tr =>
      rw [htr] at h
      simp only [Option.map_some', Option.some_bind, Option.some.injEq] at h
      subst h
      rw [(Citation.abstractInfo_fields self r _).2.2.1]
      exact fieldTrace_panel_invariant
        (fun p => p.journal = "" ∨ p.journal = Citation.getJournalElement r)
        _ _ _ _ _ (Citation.compactCheck_panel self) hTitle hAuthors
        (Citation.journalInfo_journal_cases r) hSource _ tr (Or.inl rfl) htr
  · simp only [Option.some_bind, Option.some.injEq] at h
    subst h
    left
    rw [(Citation.abstractInfo_fields self r _).2.2.1]
    rfl

/-- C30: for every response whose first record, the one `Citation.buildPanel` renders, has a
title string and an `authorList.author` sequence (possibly empty), `buildPanel` completes in
every display style and element order without reading a property of an absent value, whatever
the other properties of the record are; when `journalInfo` or its `journal`, and
`bookOrReportDetails`, are absent, the journal field is the empty string. -/
theorem buildPanel_completes (c : Citation) (env : Env) (resp : Response)
    (hwf : resp.firstWellFormed = true) :
    ∃ s, Citation.buildPanel c env resp = some s ∧
      ∀ r rest, resp.result = r :: rest →
        (∀ info, r.journalInfo = some info → info.journal = none) →
        r.bookOrReportDetails = none → s.panel.journal = "" := by
  obtain ⟨s, hs⟩ := Citation.buildPanel_of_firstWellFormed c env resp hwf
  refine ⟨s, hs, ?_⟩
  intro r rest hr hJ hB
  unfold Citation.buildPanel at hs
  simp only [hr] at hs
  have hj := Citation.record_journal _ env r s hs
  rw [Citation.getJournalElement_absent r hJ hB] at hj
  rcases hj with h | h <;> exact h

theorem buildPanel_completes_witness :
    ({ hitCount := 1, result := [sampleBareRecord] } : Response).firstWellFormed = true ∧
    ∃ s, Citation.buildPanel sampleFullCitation sampleEnv
        { hitCount := 1, result := [sampleBareRecord] } = some s ∧
      s.panel.journal = "" := by
  obtain ⟨s, hs, hj⟩ := buildPanel_completes sampleFullCitation sampleEnv
    { hitCount := 1, result := [sampleBareRecord] } rfl
  exact ⟨rfl, s, hs, hj sampleBareRecord [] rfl (by intro info h; cases h) rfl⟩

/-! ## Records without an author list -/

/-- C7 at a failing input: a successful response with `hitCount = 1` whose record has no
`authorList`.  In both widgets the `success` callback hides the loading image and `buildPanel`
raises a `TypeError` on `authorList.author`: no panel is written, the loaded event is not fired,
and no `onRequestError` is fired either. -/
theorem success_without_authorList :
    sampleNoAuthorsResponse.hitCount > 0 ∧
    Citation.loadCitation.success sampleFullCitation sampleEnv sampleNoAuthorsResponse
      = [Effect.hideLoading, Effect.typeError] ∧
    eventCount "onCitationLoaded"
      (Citation.loadCitation.success sampleFullCitation sampleEnv sampleNoAuthorsResponse) = 0 ∧
    eventCount "onRequestError"
      (Citation.loadCitation.success sampleFullCitation sampleEnv sampleNoAuthorsResponse) = 0 ∧
    CitationList.loadResults.success sampleFullCitationList sampleEnv sampleNoAuthorsResponse
      = [Effect.hideLoading, Effect.typeError] ∧
    eventCount "onResultsLoaded"
      (CitationList.loadResults.success sampleFullCitationList sampleEnv
        sampleNoAuthorsResponse) = 0 ∧
    eventCount "onRequestError"
      (CitationList.loadResults.success sampleFullCitationList sampleEnv
        sampleNoAuthorsResponse) = 0 := by
  refine ⟨by decide, by rfl, by rfl, by rfl, by rfl, by rfl, by rfl⟩

/-- C8 (counterexample): a list showing at most 25 results gets two records, the second
without `authorList`.  The loop is set to `min(2, 25) = 2` turns, but the second turn raises a
`TypeError`: `buildPanel` does not complete and the two citations are not rendered. -/
theorem numberResults_clamped_counterexample :
    sampleFullCitationList.opt.numberResults = 25 ∧
    CitationList.buildPanel.numCitations sampleFullCitationList sampleAbortingResponse = 2 ∧
    CitationList.buildPanel sampleFullCitationList sampleEnv sampleAbortingResponse = none ∧
    CitationList.loadResults.success sampleFullCitationList sampleEnv sampleAbortingResponse
      = [Effect.hideLoading, Effect.typeError] := by
  refine ⟨rfl, by rfl, by rfl, by rfl⟩

/-- C11 at a failing input: in the full style, a record whose authors are Smith (a `lastName`
only) and the WHO Group (a `collectiveName` only).  Both authors have a non-empty name, and the
authors field holds the separating comma and no link. -/
theorem full_style_authors_without_fullName :
    sampleSmith.hasNonEmptyName = true ∧ sampleWho.hasNonEmptyName = true ∧
    sampleFullCitation.opt.displayStyle = "FULL_STYLE" ∧
    (Citation.buildPanel sampleFullCitation sampleEnv
        { hitCount := 1, result := [sampleUnlinkedAuthorsRecord] }).map
      (fun s => s.panel.authors) = some ", " ∧
    ", " ≠ authorLink "Smith" ++ ", " ++ authorLink "WHO Group" := by
  refine ⟨rfl, rfl, rfl, by rfl, by decide⟩

/-- C18 (counterexample): full style, `showAbstract` on, a record with an abstract and without
`authorList`.  The three conditions of the abstract hold, but `buildPanel` raises a `TypeError`
in the authors block, before the abstract block: no abstract is rendered. -/
theorem abstract_field_counterexample :
    sampleFullCitation.opt.showAbstract = true ∧
    sampleFullCitation.opt.displayStyle ≠ "TITLE_ONLY_STYLE" ∧
    sampleNoAuthorsRecord.abstractText.neNull = true ∧
    Citation.buildPanel sampleFullCitation sampleEnv sampleNoAuthorsResponse = none ∧
    builtPanels
      (Citation.loadCitation.success sampleFullCitation sampleEnv sampleNoAuthorsResponse)
      = [] := by
  refine ⟨rfl, by decide, rfl, by rfl, by rfl⟩

/-- C19 (counterexample): a response that reports 100 hits to a list showing at most 25, with a
record without `authorList`.  `hitCount > numberResults` holds, but `buildPanel` raises a
`TypeError` in the loop, before the link is appended. -/
theorem see_all_results_counterexample :
    sampleManyHitsNoAuthorsResponse.hitCount > sampleFullCitationList.opt.numberResults ∧
    CitationList.buildPanel sampleFullCitationList sampleEnv sampleManyHitsNoAuthorsResponse
      = none ∧
    CitationList.loadResults.success sampleFullCitationList sampleEnv
        sampleManyHitsNoAuthorsResponse
      = [Effect.hideLoading, Effect.typeError] := by
  refine ⟨by decide, by rfl, by rfl⟩

/-- C22 at a failing input: in the compact style, the author list of Smith (a `lastName` only)
and the WHO Group (a `collectiveName` only), with room for both names (a budget of 3 rows of
117 pixels, 10 pixels a character).  Every author has a non-empty name, and `getAuthorsElement`
of both widgets returns the separating comma and no link, with the same text as label. -/
theorem compact_authors_without_fullName :
    sampleSmith.hasNonEmptyName = true ∧ sampleWho.hasNonEmptyName = true ∧
    sampleSizedCitationList.opt.displayStyle = some "COMPACT_STYLE" ∧
    sampleSizedCitationList.opt.numRowCompact = 3 ∧
    CitationList.getAuthorsElement sampleSizedCitationList sampleEnv
        sampleUnlinkedAuthorsRecord "12px" 0 "Arial" = some (", ", ", ") ∧
    sampleSizedCitation.opt.displayStyle = "COMPACT_STYLE" ∧
    Citation.getAuthorsElement sampleSizedCitation sampleEnv
        sampleUnlinkedAuthorsRecord "12px" 0 "Arial" = some (", ", ", ") := by
  refine ⟨rfl, rfl, rfl, rfl, by rfl, rfl, by rfl⟩

/-- C28 (counterexample): a list of two records, the first without `authorList`.  Alone, the
second record is rendered; in the list it is not, because `buildPanel` raises a `TypeError` at
the first record. -/
theorem citations_independent_counterexample :
    sampleAbortFirstResponse.result[1]? = some sampleRecord ∧
    (1 : Int) < sampleFullCitationList.opt.numberResults ∧
    CitationList.buildPanel sampleFullCitationList sampleEnv sampleAbortFirstResponse = none ∧
    (CitationList.buildPanel sampleFullCitationList sampleEnv
        { hitCount := sampleAbortFirstResponse.hitCount, result := [sampleRecord] }).map
      (fun p => p.citations.length) = some 1 := by
  refine ⟨rfl, by decide, by rfl, by rfl⟩
